import Mathlib

/-!
# Pieper inverse kinematics of a 6R manipulator

A shallow embedding of `src/ik/PieperSolver.cpp` together with the parts of
`src/math/Q.h` and `src/model/DHTable.cpp` it relies on, and of the
pose-to-joint interpolator of `src/trajectory/ConvertedInterpolator.h`.

* `double` values are elements of a linearly ordered field `F`; the C library
  functions (`sqrt`, `sin`, `cos`, `atan2`, the constant `M_PI`), the vector
  norm `getLengh` and the eigenvalue routine of the linear-algebra library are
  collected in the record `Extern F`.  `Extern.real` instantiates them with the
  real functions.
* `std::vector<T>` is `List T`; a loop that calls `push_back` on an
  accumulator is a `List.foldl` over that accumulator.
* The unchecked index `_dHParam[index]` of `DHTable::operator()` is modelled
  by `Option`: `none` stands for a read past the end of the table.
* The solver object is the record `PieperSolver F`; `setupCoefficients`
  writes the fields `a .. e`, so the functions that call it return the new
  solver state next to their result.
* A `while` loop is a function with a `fuel : Nat` argument that returns
  `none` when the loop is still running after `fuel` passes through its body;
  "the loop ends" reads "some amount of fuel gives `some` result".
* A function that can throw returns `Except`.
-/

namespace robot

/-! ## External collaborators -/

/-- Rigid transform `HTransform3D<>`.
Modelled from the spec: "rotation (3×3 orthonormal) + translation (3-vector)";
the class itself is not part of the sources at hand. -/
structure HTransform3D (F : Type) where
  /-- Rotation part, indexed (row, column). -/
  R : Matrix (Fin 3) (Fin 3) F
  /-- Translation part. -/
  P : Fin 3 → F

namespace HTransform3D

variable {F : Type} [LinearOrderedField F]

/-- The call `T.getPosition()`. -/
def getPosition (T : HTransform3D F) : Fin 3 → F := T.P

/-- Element access `T(i, j)` on the upper 3×4 block. -/
def get (T : HTransform3D F) (i : Fin 3) (j : Fin 4) : F :=
  if h : j.val < 3 then T.R i ⟨j.val, h⟩ else T.P i

/-- Composition `T1 * T2`.
Modelled from the spec: composition of rigid transforms. -/
def mul (T1 T2 : HTransform3D F) : HTransform3D F where
  R := T1.R * T2.R
  P := fun i => (T1.R.mulVec T2.P) i + T1.P i

/-- The call `T.inverse()`.
Modelled from the spec: "inversion is exact (transpose rotation,
negate-and-rotate translation)". -/
def inverse (T : HTransform3D F) : HTransform3D F where
  R := T.R.transpose
  P := fun i => -(T.R.transpose.mulVec T.P) i

/-- A pose is a rigid transform: its rotation part is orthogonal with
determinant `1`. -/
def IsRigid (T : HTransform3D F) : Prop :=
  T.R * T.R.transpose = 1 ∧ T.R.det = 1

end HTransform3D

/-- The functions the solver takes from outside this repository's sources:
the C math library, `Vector3D::getLengh`, `HTransform3D::DH` and the
eigenvalue decomposition of the linear-algebra library. -/
structure Extern (F : Type) where
  /-- C library `sqrt`. -/
  sqrt : F → F
  /-- C library `sin`. -/
  sin : F → F
  /-- C library `cos`. -/
  cos : F → F
  /-- C library `atan2(y, x)`. -/
  atan2 : F → F → F
  /-- The constant `M_PI`. -/
  M_PI : F
  /-- The call `v.getLengh()` on a position vector. -/
  getLengh : (Fin 3 → F) → F
  /-- The call `HTransform3D<>::DH(alpha, a, d, theta)`. -/
  DH : F → F → F → F → HTransform3D F
  /-- Eigenvalues (real part, imaginary part) returned by
  `LinearAlgebra::eigenDecomposition` for a 4×4 matrix: a vector with one entry
  per row of the matrix. -/
  eigenDecomposition : Matrix (Fin 4) (Fin 4) F → Fin 4 → F × F

/-- The transform of one link in the modified (Craig) Denavit-Hartenberg
convention, `Rx(alpha) Dx(a) Rz(theta) Dz(d)`.
Modelled from the spec: "DH-transform construction from (twist angle, link
length, link offset, joint angle)"; `HTransform3D::DH` is not part of the
sources at hand, and this is the convention for which the closed forms of
the solver are derived. -/
def HTransform3D.craigDH {F : Type} [LinearOrderedField F] (sin cos : F → F)
    (alpha a d theta : F) : HTransform3D F where
  R := !![cos theta, -sin theta, 0;
          sin theta * cos alpha, cos theta * cos alpha, -sin alpha;
          sin theta * sin alpha, cos theta * sin alpha, cos alpha]
  P := ![a, -sin alpha * d, cos alpha * d]

/-- The four complex eigenvalues of a real 4×4 matrix, as the roots of its
characteristic polynomial over the complex numbers, in some order. -/
noncomputable def Extern.realEigenvalues (A : Matrix (Fin 4) (Fin 4) ℝ) (i : Fin 4) : ℝ × ℝ :=
  let roots := (Matrix.charpoly (A.map Complex.ofReal)).roots.toList
  ((roots.getD i.val 0).re, (roots.getD i.val 0).im)

/-- The Euclidean length of a vector, the reading of `getLengh()` its name
suggests. -/
noncomputable def Vector3D.length (v : Fin 3 → ℝ) : ℝ :=
  Real.sqrt (v 0 * v 0 + v 1 * v 1 + v 2 * v 2)

/-- The external functions over the real numbers: the real square root,
sine and cosine, `atan2(y, x)` as the argument of `x + y i` in `(-π, π]`
(`0` at the origin), `M_PI = π` and the Craig DH transform; the vector length
and the eigenvalue routine are left as parameters. -/
noncomputable def Extern.realWith (getLengh : (Fin 3 → ℝ) → ℝ)
    (eigenDecomposition : Matrix (Fin 4) (Fin 4) ℝ → Fin 4 → ℝ × ℝ) : Extern ℝ where
  sqrt := Real.sqrt
  sin := Real.sin
  cos := Real.cos
  atan2 := fun y x => Complex.arg ⟨x, y⟩
  M_PI := Real.pi
  getLengh := getLengh
  DH := HTransform3D.craigDH Real.sin Real.cos
  eigenDecomposition := eigenDecomposition

/-- The external functions over the real numbers with `getLengh()` read as
the Euclidean length and the eigenvalues as the complex roots of the
characteristic polynomial. -/
noncomputable def Extern.real : Extern ℝ :=
  Extern.realWith Vector3D.length Extern.realEigenvalues

/-! ## `Q.h` -/

/-- Joint vector `Q`: "essentially an array of double" (`Q.h`). -/
abbrev Q (F : Type) := List F

namespace Q

variable {F : Type} [LinearOrderedField F]

/-- `Q::zero(size)`: an array of length `size` filled with zeros. -/
def zero (size : Nat) : Q F := List.replicate size 0

/-- `Q::size()`. -/
def size (q : Q F) : Nat := q.length

/-- The assignment `q(index) = v` through `Q::operator()`. -/
def assign (q : Q F) (index : Nat) (v : F) : Q F := q.set index v

/-- The update `q(index) -= v` through `Q::operator()`. -/
def subAssign (q : Q F) (index : Nat) (v : F) : Q F := q.modify (fun w => w - v) index

end Q

/-! ## `DHTable.cpp` -/

/-- One row of the DH table: `(alpha, a, d, theta)`, `theta` being the home
angle of the joint. -/
structure DHParameters (F : Type) where
  alpha : F
  a : F
  d : F
  theta : F

/-- `DHTable`: the vector `_dHParam`. -/
structure DHTable (F : Type) where
  _dHParam : List (DHParameters F)

namespace DHTable

variable {F : Type}

/-- `DHTable::size()`. -/
def size (t : DHTable F) : Nat := t._dHParam.length

/-- `DHTable::operator()(index)`: `_dHParam[index]`, undefined (`none`) past
the end of the vector. -/
def get (t : DHTable F) (index : Nat) : Option (DHParameters F) := t._dHParam[index]?

end DHTable

/-! ## `PieperSolver.cpp` -/

/-- The global helper `Power(arg, exp)`: `res = arg`, then `exp - 1`
multiplications by `arg`. The exponent is an integer without bound; for the
C `int` the difference `exp - 1` is defined for every value but `INT_MIN`. -/
def Power {F : Type} [LinearOrderedField F] (arg : F) (exp : Int) : F :=
  (List.range (exp - 1).toNat).foldl (fun res _ => res * arg) arg

/-- The fields of `PieperSolver` that the code reads or writes. -/
structure PieperSolver (F : Type) where
  alpha0 : F
  a0 : F
  d1 : F
  alpha1 : F
  a1 : F
  d2 : F
  alpha2 : F
  a2 : F
  d3 : F
  alpha3 : F
  a3 : F
  d4 : F
  alpha5 : F
  calpha1 : F
  salpha1 : F
  calpha2 : F
  salpha2 : F
  calpha3 : F
  salpha3 : F
  /-- Quartic coefficients written by `setupCoefficients`. -/
  a : F
  b : F
  c : F
  d : F
  e : F
  _dHTable : DHTable F

namespace PieperSolver

variable {F : Type} [LinearOrderedField F]

/-- The transform `T04 = T01*T12*T23*T34` of `solveTheta456` (lines 103-108),
with joint 4 at `0`. -/
def solveTheta456.T04 (m : Extern F) (s : PieperSolver F) (theta1 theta2 theta3 : F) :
    HTransform3D F :=
  let T01 := m.DH s.alpha0 s.a0 s.d1 theta1
  let T12 := m.DH s.alpha1 s.a1 s.d2 theta2
  let T23 := m.DH s.alpha2 s.a2 s.d3 theta3
  let T34 := m.DH s.alpha3 s.a3 s.d4 0
  ((T01.mul T12).mul T23).mul T34

/-- The transform `T46 = T04.inverse() * T06` of `solveTheta456` (line 110). -/
def solveTheta456.T46 (m : Extern F) (s : PieperSolver F) (theta1 theta2 theta3 : F)
    (T06 : HTransform3D F) : HTransform3D F :=
  (solveTheta456.T04 m s theta1 theta2 theta3).inverse.mul T06

/-- The angle `theta5` of `solveTheta456` (lines 120-126). -/
def solveTheta456.theta5 (m : Extern F) (T46 : HTransform3D F) : F :=
  let r31 := T46.get 2 0
  let r32 := T46.get 2 1
  let r33 := T46.get 2 2
  m.atan2 (m.sqrt (r31*r31 + r32*r32)) r33

/-- The pair `(theta4, theta6)` of the primary branch of `solveTheta456`
(lines 112-143). -/
def solveTheta456.theta46 (m : Extern F) (s : PieperSolver F) (T46 : HTransform3D F) : F × F :=
  let r11 := T46.get 0 0
  let r12 := T46.get 0 1
  let r13 := T46.get 0 2
  let r23 := T46.get 1 2
  let r31 := T46.get 2 0
  let r32 := T46.get 2 1
  let theta5 := solveTheta456.theta5 m T46
  if |theta5| < 1e-12 then
    (0, m.atan2 (-r12) r11)
  else if |m.M_PI - theta5| < 1e-12 then
    (0, m.atan2 r12 (-r11))
  else
    let s5 := m.sin theta5
    if s.alpha5 < 0 then
      (m.atan2 (-r23/s5) (-r13/s5), m.atan2 (-r32/s5) (r31/s5))
    else
      (m.atan2 (r23/s5) (r13/s5), m.atan2 (r32/s5) (-r31/s5))

/-- `solveTheta456` (lines 91-165): the wrist angles for one
`(theta1, theta2, theta3)`; pushes the primary and the flipped joint vector
onto `result`. -/
def solveTheta456 (m : Extern F) (s : PieperSolver F) (theta1 theta2 theta3 : F)
    (T06 : HTransform3D F) (result : List (Q F)) : List (Q F) :=
  let q : Q F := Q.zero 6
  let q := q.assign 0 theta1
  let q := q.assign 1 theta2
  let q := q.assign 2 theta3
  let T46 := solveTheta456.T46 m s theta1 theta2 theta3 T06
  let theta5 := solveTheta456.theta5 m T46
  let theta4 := (solveTheta456.theta46 m s T46).1
  let theta6 := (solveTheta456.theta46 m s T46).2
  let q := q.assign 3 theta4
  let q := q.assign 4 theta5
  let q := q.assign 5 theta6
  let result := result ++ [q]
  let alt4 := if theta4 > 0 then theta4 - m.M_PI else theta4 + m.M_PI
  let alt6 := if theta6 > 0 then theta6 - m.M_PI else theta6 + m.M_PI
  let q := q.assign 3 alt4
  let q := q.assign 4 (-theta5)
  let q := q.assign 5 alt6
  result ++ [q]

set_option linter.unusedVariables false

/-- Coefficient `a` of `solveTheta3Case1` (lines 425-426). -/
def solveTheta3Case1.a (s : PieperSolver F) (r : F) : F :=
  (-(Power s.a1 2)) - (Power s.a2 2) + 2*s.a2*s.a3 - (Power s.a3 2) - (Power s.d2 2) -
  2*s.calpha2*s.d2*s.d3 - (Power s.d3 2) - 2*s.calpha2*s.calpha3*s.d2*s.d4 -
  2*s.calpha3*s.d3*s.d4 - (Power s.d4 2) + r - 2*s.d2*s.d4*s.salpha2*s.salpha3

/-- Coefficient `b` of `solveTheta3Case1` (line 428). -/
def solveTheta3Case1.b (s : PieperSolver F) (r : F) : F :=
  (-4)*s.a3*s.d2*s.salpha2 - 4*s.a2*s.d4*s.salpha3

/-- Coefficient `c` of `solveTheta3Case1` (lines 430-431). -/
def solveTheta3Case1.c (s : PieperSolver F) (r : F) : F :=
  (-(Power s.a1 2)) - (Power s.a2 2) - 2*s.a2*s.a3 - (Power s.a3 2) - (Power s.d2 2) -
  2*s.calpha2*s.d2*s.d3 - (Power s.d3 2) - 2*s.calpha2*s.calpha3*s.d2*s.d4 -
  2*s.calpha3*s.d3*s.d4 - (Power s.d4 2) + r + 2*s.d2*s.d4*s.salpha2*s.salpha3

/-- Coefficient `a` of `solveTheta3Case2` (line 458). -/
def solveTheta3Case2.a (s : PieperSolver F) (z : F) : F :=
  (-(s.calpha1*s.d2)) - s.calpha1*s.calpha2*s.d3 - s.calpha1*s.calpha2*s.calpha3*s.d4 -
  s.calpha1*s.d4*s.salpha2*s.salpha3 + z

/-- Coefficient `b` of `solveTheta3Case2` (line 460). -/
def solveTheta3Case2.b (s : PieperSolver F) (z : F) : F :=
  (-2)*s.a3*s.calpha1*s.salpha2

/-- Coefficient `c` of `solveTheta3Case2` (line 462). -/
def solveTheta3Case2.c (s : PieperSolver F) (z : F) : F :=
  (-(s.calpha1*s.d2)) - s.calpha1*s.calpha2*s.d3 - s.calpha1*s.calpha2*s.calpha3*s.d4 +
  s.calpha1*s.d4*s.salpha2*s.salpha3 + z

/-- Coefficient `a` of `solveTheta2Case1` (lines 349-351). -/
def solveTheta2Case1.a (s : PieperSolver F) (z c3 s3 : F) : F :=
  (-(s.calpha1*s.d2)) - s.calpha1*s.calpha2*s.d3 - s.calpha1*s.calpha2*s.calpha3*s.d4 +
  s.a3*s.calpha2*s3*s.salpha1 - s.a3*s.calpha1*s3*s.salpha2 - s.d3*s.salpha1*s.salpha2 -
  s.calpha3*s.d4*s.salpha1*s.salpha2 - c3*s.calpha2*s.d4*s.salpha1*s.salpha3 +
  c3*s.calpha1*s.d4*s.salpha2*s.salpha3 + z

/-- Coefficient `b` of `solveTheta2Case1` (line 353). -/
def solveTheta2Case1.b (s : PieperSolver F) (z c3 s3 : F) : F :=
  (-2)*s.a2*s.salpha1 - 2*s.a3*c3*s.salpha1 - 2*s.d4*s3*s.salpha1*s.salpha3

/-- Coefficient `c` of `solveTheta2Case1` (lines 355-357). -/
def solveTheta2Case1.c (s : PieperSolver F) (z c3 s3 : F) : F :=
  (-(s.calpha1*s.d2)) - s.calpha1*s.calpha2*s.d3 - s.calpha1*s.calpha2*s.calpha3*s.d4 -
  s.a3*s.calpha2*s3*s.salpha1 - s.a3*s.calpha1*s3*s.salpha2 + s.d3*s.salpha1*s.salpha2 +
  s.calpha3*s.d4*s.salpha1*s.salpha2 + c3*s.calpha2*s.d4*s.salpha1*s.salpha3 +
  c3*s.calpha1*s.d4*s.salpha2*s.salpha3 + z

/-- Coefficient `a` of `solveTheta2Case2` (lines 309-311). -/
def solveTheta2Case2.a (s : PieperSolver F) (r c3 s3 : F) : F :=
  (-(Power s.a1 2)) + 2*s.a1*s.a2 - (Power s.a2 2) - (Power s.a3 2) + 2*s.a1*s.a3*c3 -
  2*s.a2*s.a3*c3 - (Power s.d2 2) - 2*s.calpha2*s.d2*s.d3 - (Power s.d3 2) -
  2*s.calpha2*s.calpha3*s.d2*s.d4 - 2*s.calpha3*s.d3*s.d4 - (Power s.d4 2) + r -
  2*s.a3*s.d2*s3*s.salpha2 + 2*s.a1*s.d4*s3*s.salpha3 - 2*s.a2*s.d4*s3*s.salpha3 +
  2*c3*s.d2*s.d4*s.salpha2*s.salpha3

/-- Coefficient `b` of `solveTheta2Case2` (line 313). -/
def solveTheta2Case2.b (s : PieperSolver F) (r c3 s3 : F) : F :=
  4*s.a1*s.a3*s.calpha2*s3 - 4*s.a1*s.d3*s.salpha2 - 4*s.a1*s.calpha3*s.d4*s.salpha2 -
  4*s.a1*c3*s.calpha2*s.d4*s.salpha3

/-- Coefficient `c` of `solveTheta2Case2` (lines 315-317). -/
def solveTheta2Case2.c (s : PieperSolver F) (r c3 s3 : F) : F :=
  (-(Power s.a1 2)) - 2*s.a1*s.a2 - (Power s.a2 2) - (Power s.a3 2) - 2*s.a1*s.a3*c3 -
  2*s.a2*s.a3*c3 - (Power s.d2 2) - 2*s.calpha2*s.d2*s.d3 - (Power s.d3 2) -
  2*s.calpha2*s.calpha3*s.d2*s.d4 - 2*s.calpha3*s.d3*s.d4 - (Power s.d4 2) + r -
  2*s.a3*s.d2*s3*s.salpha2 - 2*s.a1*s.d4*s3*s.salpha3 - 2*s.a2*s.d4*s3*s.salpha3 +
  2*c3*s.d2*s.d4*s.salpha2*s.salpha3


/-- The quotient `c1` of `solveTheta1` (lines 175-236). -/
def solveTheta1.c1 (s : PieperSolver F) (x y c2 s2 c3 s3 : F) : F :=
  ((s.a1 + s.a2*c2 + s.a3*c2*c3 - s.a3*s.calpha2*s2*s3 + s.d3*s2*s.salpha2 +
  s.calpha3*s.d4*s2*s.salpha2 + c3*s.calpha2*s.d4*s2*s.salpha3 + c2*s.d4*s3*s.salpha3)*x +
  (s.a2*s.calpha1*s2 - s.d2*s.salpha1 - (s.d3 + s.calpha3*s.d4)*(s.calpha2*s.salpha1 +
  c2*s.calpha1*s.salpha2) + s.a3*(c3*s.calpha1*s2 + c2*s.calpha1*s.calpha2*s3 -
  s3*s.salpha1*s.salpha2) + s.d4*((-(c2*c3*s.calpha1*s.calpha2)) + s.calpha1*s2*s3 +
  c3*s.salpha1*s.salpha2)*s.salpha3)*y)/((Power s.a1 2) +
  (Power s.a3 2)*(Power c2 2)*(Power c3 2) +
  (Power s.a3 2)*(Power c3 2)*(Power s.calpha1 2)*(Power s2 2) + (Power s.a2 2)*((Power c2 2) +
  (Power s.calpha1 2)*(Power s2 2)) - 2*(Power s.a3 2)*c2*c3*s.calpha2*s2*s3 +
  2*(Power s.a3 2)*c2*c3*(Power s.calpha1 2)*s.calpha2*s2*s3 +
  (Power s.a3 2)*(Power c2 2)*(Power s.calpha1 2)*(Power s.calpha2 2)*(Power s3 2) +
  (Power s.a3 2)*(Power s.calpha2 2)*(Power s2 2)*(Power s3 2) -
  2*s.a3*c3*s.calpha1*s.d2*s2*s.salpha1 - 2*s.a3*c3*s.calpha1*s.calpha2*s.d3*s2*s.salpha1 -
  2*s.a3*c3*s.calpha1*s.calpha2*s.calpha3*s.d4*s2*s.salpha1 -
  2*s.a3*c2*s.calpha1*s.calpha2*s.d2*s3*s.salpha1 -
  2*s.a3*c2*s.calpha1*(Power s.calpha2 2)*s.d3*s3*s.salpha1 -
  2*s.a3*c2*s.calpha1*(Power s.calpha2 2)*s.calpha3*s.d4*s3*s.salpha1 +
  (Power s.d2 2)*(Power s.salpha1 2) + 2*s.calpha2*s.d2*s.d3*(Power s.salpha1 2) +
  (Power s.calpha2 2)*(Power s.d3 2)*(Power s.salpha1 2) +
  2*s.calpha2*s.calpha3*s.d2*s.d4*(Power s.salpha1 2) +
  2*(Power s.calpha2 2)*s.calpha3*s.d3*s.d4*(Power s.salpha1 2) +
  (Power s.calpha2 2)*(Power s.calpha3 2)*(Power s.d4 2)*(Power s.salpha1 2) +
  2*s.a3*c2*c3*s.d3*s2*s.salpha2 - 2*s.a3*c2*c3*(Power s.calpha1 2)*s.d3*s2*s.salpha2 +
  2*s.a3*c2*c3*s.calpha3*s.d4*s2*s.salpha2 -
  2*s.a3*c2*c3*(Power s.calpha1 2)*s.calpha3*s.d4*s2*s.salpha2 -
  2*s.a3*(Power c2 2)*(Power s.calpha1 2)*s.calpha2*s.d3*s3*s.salpha2 -
  2*s.a3*(Power c2 2)*(Power s.calpha1 2)*s.calpha2*s.calpha3*s.d4*s3*s.salpha2 -
  2*s.a3*s.calpha2*s.d3*(Power s2 2)*s3*s.salpha2 -
  2*s.a3*s.calpha2*s.calpha3*s.d4*(Power s2 2)*s3*s.salpha2 +
  2*c2*s.calpha1*s.d2*s.d3*s.salpha1*s.salpha2 +
  2*c2*s.calpha1*s.calpha2*(Power s.d3 2)*s.salpha1*s.salpha2 +
  2*c2*s.calpha1*s.calpha3*s.d2*s.d4*s.salpha1*s.salpha2 +
  4*c2*s.calpha1*s.calpha2*s.calpha3*s.d3*s.d4*s.salpha1*s.salpha2 +
  2*c2*s.calpha1*s.calpha2*(Power s.calpha3 2)*(Power s.d4 2)*s.salpha1*s.salpha2 -
  2*(Power s.a3 2)*c3*s.calpha1*s2*s3*s.salpha1*s.salpha2 -
  2*(Power s.a3 2)*c2*s.calpha1*s.calpha2*(Power s3 2)*s.salpha1*s.salpha2 +
  2*s.a3*s.d2*s3*(Power s.salpha1 2)*s.salpha2 +
  2*s.a3*s.calpha2*s.d3*s3*(Power s.salpha1 2)*s.salpha2 +
  2*s.a3*s.calpha2*s.calpha3*s.d4*s3*(Power s.salpha1 2)*s.salpha2 +
  (Power c2 2)*(Power s.calpha1 2)*(Power s.d3 2)*(Power s.salpha2 2) +
  2*(Power c2 2)*(Power s.calpha1 2)*s.calpha3*s.d3*s.d4*(Power s.salpha2 2) +
  (Power c2 2)*(Power s.calpha1 2)*(Power s.calpha3 2)*(Power s.d4 2)*(Power s.salpha2 2) +
  (Power s.d3 2)*(Power s2 2)*(Power s.salpha2 2) +
  2*s.calpha3*s.d3*s.d4*(Power s2 2)*(Power s.salpha2 2) +
  (Power s.calpha3 2)*(Power s.d4 2)*(Power s2 2)*(Power s.salpha2 2) +
  2*s.a3*c2*s.calpha1*s.d3*s3*s.salpha1*(Power s.salpha2 2) +
  2*s.a3*c2*s.calpha1*s.calpha3*s.d4*s3*s.salpha1*(Power s.salpha2 2) +
  (Power s.a3 2)*(Power s3 2)*(Power s.salpha1 2)*(Power s.salpha2 2) -
  2*s.d4*((-(s.calpha1*(s.d2 + s.calpha2*(s.d3 + s.calpha3*s.d4))*(c2*c3*s.calpha2 -
  s2*s3)*s.salpha1)) - ((s.d3 + s.calpha3*s.d4)*(c3*s.calpha2*((Power c2 2)*(Power s.calpha1 2) +
  (Power s2 2)) - c2*((-1) + (Power s.calpha1 2))*s2*s3) - c3*(s.d2 + s.calpha2*(s.d3 +
  s.calpha3*s.d4))*(Power s.salpha1 2))*s.salpha2 + c2*c3*s.calpha1*(s.d3 +
  s.calpha3*s.d4)*s.salpha1*(Power s.salpha2 2) + s.a3*((Power c2 2)*c3*((-1) +
  (Power s.calpha1 2)*(Power s.calpha2 2))*s3 - c3*(s.calpha1 - s.calpha2)*(s.calpha1 +
  s.calpha2)*(Power s2 2)*s3 - s.calpha1*s2*(c3 - s3)*(c3 + s3)*s.salpha1*s.salpha2 +
  c3*s3*(Power s.salpha1 2)*(Power s.salpha2 2) + c2*s.calpha2*(((-1) +
  (Power s.calpha1 2))*s2*(c3 - s3)*(c3 + s3) -
  2*c3*s.calpha1*s3*s.salpha1*s.salpha2)))*s.salpha3 +
  (Power s.d4 2)*((Power c2 2)*((Power c3 2)*(Power s.calpha1 2)*(Power s.calpha2 2) +
  (Power s3 2)) + (Power s2 2)*((Power c3 2)*(Power s.calpha2 2) +
  (Power s.calpha1 2)*(Power s3 2)) + 2*c3*s.calpha1*s2*s3*s.salpha1*s.salpha2 +
  (Power c3 2)*(Power s.salpha1 2)*(Power s.salpha2 2) - 2*c2*c3*s.calpha2*(((-1) +
  (Power s.calpha1 2))*s2*s3 + c3*s.calpha1*s.salpha1*s.salpha2))*(Power s.salpha3 2) +
  2*s.a1*(s.a2*c2 + s.a3*c2*c3 - s.a3*s.calpha2*s2*s3 + s.d3*s2*s.salpha2 +
  s.calpha3*s.d4*s2*s.salpha2 + c3*s.calpha2*s.d4*s2*s.salpha3 + c2*s.d4*s3*s.salpha3) +
  2*s.a2*((-(s.calpha1*(s.d2 + s.calpha2*(s.d3 + s.calpha3*s.d4))*s2*s.salpha1)) - c2*((-1) +
  (Power s.calpha1 2))*(s.d3 + s.calpha3*s.d4)*s2*s.salpha2 + s.a3*((Power c2 2)*c3 + c2*((-1) +
  (Power s.calpha1 2))*s.calpha2*s2*s3 + s.calpha1*s2*(c3*s.calpha1*s2 -
  s3*s.salpha1*s.salpha2)) + s.d4*((-(c2*c3*((-1) + (Power s.calpha1 2))*s.calpha2*s2)) +
  (Power c2 2)*s3 + s.calpha1*s2*(s.calpha1*s2*s3 + c3*s.salpha1*s.salpha2))*s.salpha3))

/-- The quotient `s1` of `solveTheta1` (lines 238-299). -/
def solveTheta1.s1 (s : PieperSolver F) (x y c2 s2 c3 s3 : F) : F :=
  ((-((s.a2*s.calpha1*s2 - s.d2*s.salpha1 - (s.d3 + s.calpha3*s.d4)*(s.calpha2*s.salpha1 +
  c2*s.calpha1*s.salpha2) + s.a3*(c3*s.calpha1*s2 + c2*s.calpha1*s.calpha2*s3 -
  s3*s.salpha1*s.salpha2) + s.d4*((-(c2*c3*s.calpha1*s.calpha2)) + s.calpha1*s2*s3 +
  c3*s.salpha1*s.salpha2)*s.salpha3)*x)) + (s.a1 + s.a2*c2 + s.a3*c2*c3 - s.a3*s.calpha2*s2*s3 +
  s.d3*s2*s.salpha2 + s.calpha3*s.d4*s2*s.salpha2 + c3*s.calpha2*s.d4*s2*s.salpha3 +
  c2*s.d4*s3*s.salpha3)*y)/((Power s.a1 2) + (Power s.a3 2)*(Power c2 2)*(Power c3 2) +
  (Power s.a3 2)*(Power c3 2)*(Power s.calpha1 2)*(Power s2 2) + (Power s.a2 2)*((Power c2 2) +
  (Power s.calpha1 2)*(Power s2 2)) - 2*(Power s.a3 2)*c2*c3*s.calpha2*s2*s3 +
  2*(Power s.a3 2)*c2*c3*(Power s.calpha1 2)*s.calpha2*s2*s3 +
  (Power s.a3 2)*(Power c2 2)*(Power s.calpha1 2)*(Power s.calpha2 2)*(Power s3 2) +
  (Power s.a3 2)*(Power s.calpha2 2)*(Power s2 2)*(Power s3 2) -
  2*s.a3*c3*s.calpha1*s.d2*s2*s.salpha1 - 2*s.a3*c3*s.calpha1*s.calpha2*s.d3*s2*s.salpha1 -
  2*s.a3*c3*s.calpha1*s.calpha2*s.calpha3*s.d4*s2*s.salpha1 -
  2*s.a3*c2*s.calpha1*s.calpha2*s.d2*s3*s.salpha1 -
  2*s.a3*c2*s.calpha1*(Power s.calpha2 2)*s.d3*s3*s.salpha1 -
  2*s.a3*c2*s.calpha1*(Power s.calpha2 2)*s.calpha3*s.d4*s3*s.salpha1 +
  (Power s.d2 2)*(Power s.salpha1 2) + 2*s.calpha2*s.d2*s.d3*(Power s.salpha1 2) +
  (Power s.calpha2 2)*(Power s.d3 2)*(Power s.salpha1 2) +
  2*s.calpha2*s.calpha3*s.d2*s.d4*(Power s.salpha1 2) +
  2*(Power s.calpha2 2)*s.calpha3*s.d3*s.d4*(Power s.salpha1 2) +
  (Power s.calpha2 2)*(Power s.calpha3 2)*(Power s.d4 2)*(Power s.salpha1 2) +
  2*s.a3*c2*c3*s.d3*s2*s.salpha2 - 2*s.a3*c2*c3*(Power s.calpha1 2)*s.d3*s2*s.salpha2 +
  2*s.a3*c2*c3*s.calpha3*s.d4*s2*s.salpha2 -
  2*s.a3*c2*c3*(Power s.calpha1 2)*s.calpha3*s.d4*s2*s.salpha2 -
  2*s.a3*(Power c2 2)*(Power s.calpha1 2)*s.calpha2*s.d3*s3*s.salpha2 -
  2*s.a3*(Power c2 2)*(Power s.calpha1 2)*s.calpha2*s.calpha3*s.d4*s3*s.salpha2 -
  2*s.a3*s.calpha2*s.d3*(Power s2 2)*s3*s.salpha2 -
  2*s.a3*s.calpha2*s.calpha3*s.d4*(Power s2 2)*s3*s.salpha2 +
  2*c2*s.calpha1*s.d2*s.d3*s.salpha1*s.salpha2 +
  2*c2*s.calpha1*s.calpha2*(Power s.d3 2)*s.salpha1*s.salpha2 +
  2*c2*s.calpha1*s.calpha3*s.d2*s.d4*s.salpha1*s.salpha2 +
  4*c2*s.calpha1*s.calpha2*s.calpha3*s.d3*s.d4*s.salpha1*s.salpha2 +
  2*c2*s.calpha1*s.calpha2*(Power s.calpha3 2)*(Power s.d4 2)*s.salpha1*s.salpha2 -
  2*(Power s.a3 2)*c3*s.calpha1*s2*s3*s.salpha1*s.salpha2 -
  2*(Power s.a3 2)*c2*s.calpha1*s.calpha2*(Power s3 2)*s.salpha1*s.salpha2 +
  2*s.a3*s.d2*s3*(Power s.salpha1 2)*s.salpha2 +
  2*s.a3*s.calpha2*s.d3*s3*(Power s.salpha1 2)*s.salpha2 +
  2*s.a3*s.calpha2*s.calpha3*s.d4*s3*(Power s.salpha1 2)*s.salpha2 +
  (Power c2 2)*(Power s.calpha1 2)*(Power s.d3 2)*(Power s.salpha2 2) +
  2*(Power c2 2)*(Power s.calpha1 2)*s.calpha3*s.d3*s.d4*(Power s.salpha2 2) +
  (Power c2 2)*(Power s.calpha1 2)*(Power s.calpha3 2)*(Power s.d4 2)*(Power s.salpha2 2) +
  (Power s.d3 2)*(Power s2 2)*(Power s.salpha2 2) +
  2*s.calpha3*s.d3*s.d4*(Power s2 2)*(Power s.salpha2 2) +
  (Power s.calpha3 2)*(Power s.d4 2)*(Power s2 2)*(Power s.salpha2 2) +
  2*s.a3*c2*s.calpha1*s.d3*s3*s.salpha1*(Power s.salpha2 2) +
  2*s.a3*c2*s.calpha1*s.calpha3*s.d4*s3*s.salpha1*(Power s.salpha2 2) +
  (Power s.a3 2)*(Power s3 2)*(Power s.salpha1 2)*(Power s.salpha2 2) -
  2*s.d4*((-(s.calpha1*(s.d2 + s.calpha2*(s.d3 + s.calpha3*s.d4))*(c2*c3*s.calpha2 -
  s2*s3)*s.salpha1)) - ((s.d3 + s.calpha3*s.d4)*(c3*s.calpha2*((Power c2 2)*(Power s.calpha1 2) +
  (Power s2 2)) - c2*((-1) + (Power s.calpha1 2))*s2*s3) - c3*(s.d2 + s.calpha2*(s.d3 +
  s.calpha3*s.d4))*(Power s.salpha1 2))*s.salpha2 + c2*c3*s.calpha1*(s.d3 +
  s.calpha3*s.d4)*s.salpha1*(Power s.salpha2 2) + s.a3*((Power c2 2)*c3*((-1) +
  (Power s.calpha1 2)*(Power s.calpha2 2))*s3 - c3*(s.calpha1 - s.calpha2)*(s.calpha1 +
  s.calpha2)*(Power s2 2)*s3 - s.calpha1*s2*(c3 - s3)*(c3 + s3)*s.salpha1*s.salpha2 +
  c3*s3*(Power s.salpha1 2)*(Power s.salpha2 2) + c2*s.calpha2*(((-1) +
  (Power s.calpha1 2))*s2*(c3 - s3)*(c3 + s3) -
  2*c3*s.calpha1*s3*s.salpha1*s.salpha2)))*s.salpha3 +
  (Power s.d4 2)*((Power c2 2)*((Power c3 2)*(Power s.calpha1 2)*(Power s.calpha2 2) +
  (Power s3 2)) + (Power s2 2)*((Power c3 2)*(Power s.calpha2 2) +
  (Power s.calpha1 2)*(Power s3 2)) + 2*c3*s.calpha1*s2*s3*s.salpha1*s.salpha2 +
  (Power c3 2)*(Power s.salpha1 2)*(Power s.salpha2 2) - 2*c2*c3*s.calpha2*(((-1) +
  (Power s.calpha1 2))*s2*s3 + c3*s.calpha1*s.salpha1*s.salpha2))*(Power s.salpha3 2) +
  2*s.a1*(s.a2*c2 + s.a3*c2*c3 - s.a3*s.calpha2*s2*s3 + s.d3*s2*s.salpha2 +
  s.calpha3*s.d4*s2*s.salpha2 + c3*s.calpha2*s.d4*s2*s.salpha3 + c2*s.d4*s3*s.salpha3) +
  2*s.a2*((-(s.calpha1*(s.d2 + s.calpha2*(s.d3 + s.calpha3*s.d4))*s2*s.salpha1)) - c2*((-1) +
  (Power s.calpha1 2))*(s.d3 + s.calpha3*s.d4)*s2*s.salpha2 + s.a3*((Power c2 2)*c3 + c2*((-1) +
  (Power s.calpha1 2))*s.calpha2*s2*s3 + s.calpha1*s2*(c3*s.calpha1*s2 -
  s3*s.salpha1*s.salpha2)) + s.d4*((-(c2*c3*((-1) + (Power s.calpha1 2))*s.calpha2*s2)) +
  (Power c2 2)*s3 + s.calpha1*s2*(s.calpha1*s2*s3 + c3*s.salpha1*s.salpha2))*s.salpha3))

/-- The quotient `c2` of `solveTheta2` (lines 391-403). -/
def solveTheta2.c2 (s : PieperSolver F) (r z c3 s3 : F) : F :=
  (-((Power s.a1 2)*s.salpha1*(s.a2 + s.a3*c3 + s.d4*s3*s.salpha3) + s.salpha1*(s.a2 + s.a3*c3 +
  s.d4*s3*s.salpha3)*((Power s.a2 2) + (Power s.a3 2) + (Power s.d2 2) + 2*s.calpha2*s.d2*s.d3 +
  (Power s.d3 2) + 2*s.calpha3*(s.calpha2*s.d2 + s.d3)*s.d4 + (Power s.d4 2) - r +
  2*s.a3*s.d2*s3*s.salpha2 - 2*c3*s.d2*s.d4*s.salpha2*s.salpha3 + 2*s.a2*(s.a3*c3 +
  s.d4*s3*s.salpha3)) + 2*s.a1*(s.a3*s.calpha2*s3 - s.d3*s.salpha2 - s.calpha3*s.d4*s.salpha2 -
  c3*s.calpha2*s.d4*s.salpha3)*(s.calpha1*(s.d2 + s.calpha2*s.d3 + s.calpha2*s.calpha3*s.d4 +
  s.a3*s3*s.salpha2 - c3*s.d4*s.salpha2*s.salpha3) - z)))/(2*s.a1*s.salpha1*((Power s.a2 2) +
  (Power s.a3 2)*((Power c3 2) + (Power s.calpha2 2)*(Power s3 2)) - 2*s.a3*s.calpha2*(s.d3 +
  s.calpha3*s.d4)*s3*s.salpha2 + (Power (s.d3 + s.calpha3*s.d4) 2)*(Power s.salpha2 2) -
  2*s.a3*c3*((-1) + (Power s.calpha2 2))*s.d4*s3*s.salpha3 + 2*c3*s.calpha2*s.d4*(s.d3 +
  s.calpha3*s.d4)*s.salpha2*s.salpha3 + (Power s.d4 2)*((Power c3 2)*(Power s.calpha2 2) +
  (Power s3 2))*(Power s.salpha3 2) + 2*s.a2*(s.a3*c3 + s.d4*s3*s.salpha3)))

/-- The quotient `s2` of `solveTheta2` (lines 405-417). -/
def solveTheta2.s2 (s : PieperSolver F) (r z c3 s3 : F) : F :=
  ((Power s.a1 2)*s.salpha1*(s.a3*s.calpha2*s3 - s.d3*s.salpha2 - s.calpha3*s.d4*s.salpha2 -
  c3*s.calpha2*s.d4*s.salpha3) + s.salpha1*(s.a3*s.calpha2*s3 - s.d3*s.salpha2 -
  s.calpha3*s.d4*s.salpha2 - c3*s.calpha2*s.d4*s.salpha3)*((Power s.a2 2) + (Power s.a3 2) +
  (Power s.d2 2) + 2*s.calpha2*s.d2*s.d3 + (Power s.d3 2) + 2*s.calpha3*(s.calpha2*s.d2 +
  s.d3)*s.d4 + (Power s.d4 2) - r + 2*s.a3*s.d2*s3*s.salpha2 -
  2*c3*s.d2*s.d4*s.salpha2*s.salpha3 + 2*s.a2*(s.a3*c3 + s.d4*s3*s.salpha3)) - 2*s.a1*(s.a2 +
  s.a3*c3 + s.d4*s3*s.salpha3)*(s.calpha1*(s.d2 + s.calpha2*s.d3 + s.calpha2*s.calpha3*s.d4 +
  s.a3*s3*s.salpha2 - c3*s.d4*s.salpha2*s.salpha3) - z))/(2*s.a1*s.salpha1*((Power s.a2 2) +
  (Power s.a3 2)*((Power c3 2) + (Power s.calpha2 2)*(Power s3 2)) - 2*s.a3*s.calpha2*(s.d3 +
  s.calpha3*s.d4)*s3*s.salpha2 + (Power (s.d3 + s.calpha3*s.d4) 2)*(Power s.salpha2 2) -
  2*s.a3*c3*((-1) + (Power s.calpha2 2))*s.d4*s3*s.salpha3 + 2*c3*s.calpha2*s.d4*(s.d3 +
  s.calpha3*s.d4)*s.salpha2*s.salpha3 + (Power s.d4 2)*((Power c3 2)*(Power s.calpha2 2) +
  (Power s3 2))*(Power s.salpha3 2) + 2*s.a2*(s.a3*c3 + s.d4*s3*s.salpha3)))


/-- The value assigned to `a` by `setupCoefficients` (lines 820-829). -/
def setupCoefficients.a (s : PieperSolver F) (r z : F) : F :=
  ((Power s.a1 2) + (Power ((Power (s.a2 - s.a3) 2) + (Power s.d2 2) + (Power s.d3 2) +
  2*s.calpha3*s.d3*s.d4 + (Power s.d4 2) - r + 2*s.d2*(s.calpha2*(s.d3 + s.calpha3*s.d4) +
  s.d4*s.salpha2*s.salpha3)) 2)/(Power s.a1 2) + 2*(2*(Power s.calpha1 2)*(Power (s.d2 +
  s.calpha2*(s.d3 + s.calpha3*s.d4) + s.d4*s.salpha2*s.salpha3) 2) +
  (Power s.salpha1 2)*((-(Power (s.a2 - s.a3) 2)) + (Power s.d2 2) - r + (Power s.d3 2)*(1 -
  2*(Power s.salpha2 2)) + 2*s.d3*s.d4*(s.calpha3 - 2*s.calpha3*(Power s.salpha2 2) +
  2*s.calpha2*s.salpha2*s.salpha3) + 2*s.d2*(s.calpha2*(s.d3 + s.calpha3*s.d4) +
  s.d4*s.salpha2*s.salpha3) + (Power s.d4 2)*(1 - 2*(Power (s.calpha3*s.salpha2 -
  s.calpha2*s.salpha3) 2))) - 4*s.calpha1*(s.d2 + s.calpha2*(s.d3 + s.calpha3*s.d4) +
  s.d4*s.salpha2*s.salpha3)*z + 2*(Power z 2))/(Power s.salpha1 2))/4

/-- The value assigned to `b` by `setupCoefficients` (lines 831-839). -/
def setupCoefficients.b (s : PieperSolver F) (r z : F) : F :=
  2*((Power s.salpha1 2)*(s.a3*s.d2*s.salpha2 + s.a2*s.d4*s.salpha3)*((Power (s.a2 - s.a3) 2) +
  (Power s.d2 2) + (Power s.d3 2) + 2*s.calpha3*s.d3*s.d4 + (Power s.d4 2) - r +
  2*s.d2*(s.calpha2*(s.d3 + s.calpha3*s.d4) + s.d4*s.salpha2*s.salpha3)) +
  (Power s.a1 2)*((-(s.a2*s.d4*(Power s.salpha1 2)*s.salpha3)) +
  s.a3*((Power s.salpha1 2)*((s.d2 + 2*s.calpha2*(s.d3 + s.calpha3*s.d4))*s.salpha2 - 2*((-1) +
  (Power s.calpha2 2))*s.d4*s.salpha3) + 2*(Power s.calpha1 2)*s.salpha2*(s.d2 + s.calpha2*s.d3 +
  s.calpha2*s.calpha3*s.d4 + s.d4*s.salpha2*s.salpha3) -
  2*s.calpha1*s.salpha2*z)))/((Power s.a1 2)*(Power s.salpha1 2))

/-- The value assigned to `c` by `setupCoefficients` (lines 841-858). -/
def setupCoefficients.c (s : PieperSolver F) (r z : F) : F :=
  (Power s.a1 2)/2 - (Power s.a2 2) + (Power s.a3 2)*(3 - 4*(Power s.calpha2 2)) +
  (Power s.d2 2) + (Power s.d3 2) + 2*s.calpha3*s.d3*s.d4 + (Power s.d4 2) +
  2*s.calpha2*s.d2*(s.d3 + s.calpha3*s.d4) - r - 2*(Power s.d3 2)*(Power s.salpha2 2) -
  4*s.calpha3*s.d3*s.d4*(Power s.salpha2 2) -
  2*(Power s.calpha3 2)*(Power s.d4 2)*(Power s.salpha2 2) + 2*((-2) +
  (Power s.calpha2 2))*(Power s.d4 2)*(Power s.salpha3 2) + 2*(Power s.calpha1 2)*((Power (s.d2 +
  s.calpha2*(s.d3 + s.calpha3*s.d4)) 2) + 2*(Power s.a3 2)*(Power s.salpha2 2) -
  (Power s.d4 2)*(Power s.salpha2 2)*(Power s.salpha3 2))/(Power s.salpha1 2) + ((Power s.a2 4) +
  (Power s.a3 4) + 2*(Power s.a3 2)*((Power s.d3 2) + 2*s.calpha3*s.d3*s.d4 + (Power s.d4 2) +
  2*s.calpha2*s.d2*(s.d3 + s.calpha3*s.d4) - r + (Power s.d2 2)*(1 + 4*(Power s.salpha2 2))) +
  24*s.a2*s.a3*s.d2*s.d4*s.salpha2*s.salpha3 + 2*(Power s.a2 2)*((-(Power s.a3 2)) +
  (Power s.d2 2) + (Power s.d3 2) + 2*s.calpha3*s.d3*s.d4 + (Power s.d4 2) +
  2*s.calpha2*s.d2*(s.d3 + s.calpha3*s.d4) - r + 4*(Power s.d4 2)*(Power s.salpha3 2)) +
  ((Power s.d2 2) + (Power s.d3 2) + 2*s.calpha3*s.d3*s.d4 + (Power s.d4 2) - r +
  2*s.d2*(s.calpha2*s.d3 + s.calpha2*s.calpha3*s.d4 - s.d4*s.salpha2*s.salpha3))*((Power s.d2 2) +
  (Power s.d3 2) + 2*s.calpha3*s.d3*s.d4 + (Power s.d4 2) - r + 2*s.d2*(s.calpha2*s.d3 +
  s.calpha2*s.calpha3*s.d4 + s.d4*s.salpha2*s.salpha3)))/(2*(Power s.a1 2)) - 4*s.calpha1*(s.d2 +
  s.calpha2*(s.d3 + s.calpha3*s.d4))*z/(Power s.salpha1 2) + 2*(Power z 2)/(Power s.salpha1 2)

/-- The value assigned to `d` by `setupCoefficients` (lines 860-868). -/
def setupCoefficients.d (s : PieperSolver F) (r z : F) : F :=
  2*((Power s.salpha1 2)*(s.a3*s.d2*s.salpha2 + s.a2*s.d4*s.salpha3)*((Power (s.a2 + s.a3) 2) +
  (Power s.d2 2) + (Power s.d3 2) + 2*s.calpha3*s.d3*s.d4 + (Power s.d4 2) - r +
  2*s.d2*(s.calpha2*(s.d3 + s.calpha3*s.d4) - s.d4*s.salpha2*s.salpha3)) +
  (Power s.a1 2)*((-(s.a2*s.d4*(Power s.salpha1 2)*s.salpha3)) +
  s.a3*((Power s.salpha1 2)*((s.d2 + 2*s.calpha2*(s.d3 + s.calpha3*s.d4))*s.salpha2 + 2*((-1) +
  (Power s.calpha2 2))*s.d4*s.salpha3) + 2*(Power s.calpha1 2)*s.salpha2*(s.d2 + s.calpha2*s.d3 +
  s.calpha2*s.calpha3*s.d4 - s.d4*s.salpha2*s.salpha3) -
  2*s.calpha1*s.salpha2*z)))/((Power s.a1 2)*(Power s.salpha1 2))

/-- The value assigned to `e` by `setupCoefficients` (lines 870-878). -/
def setupCoefficients.e (s : PieperSolver F) (r z : F) : F :=
  ((Power s.a1 2) + (Power ((Power (s.a2 + s.a3) 2) + (Power s.d2 2) + (Power s.d3 2) +
  2*s.calpha3*s.d3*s.d4 + (Power s.d4 2) - r + 2*s.d2*(s.calpha2*(s.d3 + s.calpha3*s.d4) -
  s.d4*s.salpha2*s.salpha3)) 2)/(Power s.a1 2) + 2*(2*(Power s.calpha1 2)*(Power (s.d2 +
  s.calpha2*(s.d3 + s.calpha3*s.d4) - s.d4*s.salpha2*s.salpha3) 2) -
  (Power s.salpha1 2)*((Power (s.a2 + s.a3) 2) - (Power s.d2 2) - 2*s.calpha2*s.d2*(s.d3 +
  s.calpha3*s.d4) + r + (Power s.d3 2)*((-1) + 2*(Power s.salpha2 2)) +
  2*s.d2*s.d4*s.salpha2*s.salpha3 + 2*s.d3*s.d4*(s.calpha3*((-1) + 2*(Power s.salpha2 2)) +
  2*s.calpha2*s.salpha2*s.salpha3) + (Power s.d4 2)*((-1) + 2*(Power (s.calpha3*s.salpha2 +
  s.calpha2*s.salpha3) 2))) - 4*s.calpha1*(s.d2 + s.calpha2*(s.d3 + s.calpha3*s.d4) -
  s.d4*s.salpha2*s.salpha3)*z + 2*(Power z 2))/(Power s.salpha1 2))/4


/-- The factor of `x` in the numerator of `c1` in `solveTheta1` (lines 175-176). -/
def solveTheta1.P (s : PieperSolver F) (c2 s2 c3 s3 : F) : F :=
  s.a1 + s.a2*c2 + s.a3*c2*c3 - s.a3*s.calpha2*s2*s3 + s.d3*s2*s.salpha2 +
  s.calpha3*s.d4*s2*s.salpha2 + c3*s.calpha2*s.d4*s2*s.salpha3 + c2*s.d4*s3*s.salpha3

/-- The factor of `y` in the numerator of `c1` in `solveTheta1` (lines 177-179). -/
def solveTheta1.Q (s : PieperSolver F) (c2 s2 c3 s3 : F) : F :=
  s.a2*s.calpha1*s2 - s.d2*s.salpha1 - (s.d3 + s.calpha3*s.d4)*(s.calpha2*s.salpha1 +
  c2*s.calpha1*s.salpha2) + s.a3*(c3*s.calpha1*s2 + c2*s.calpha1*s.calpha2*s3 -
  s3*s.salpha1*s.salpha2) + s.d4*((-(c2*c3*s.calpha1*s.calpha2)) + s.calpha1*s2*s3 +
  c3*s.salpha1*s.salpha2)*s.salpha3

/-- The divisor of `c1` (and of `s1`) in `solveTheta1` (lines 180-236). -/
def solveTheta1.den (s : PieperSolver F) (c2 s2 c3 s3 : F) : F :=
  (Power s.a1 2) + (Power s.a3 2)*(Power c2 2)*(Power c3 2) +
  (Power s.a3 2)*(Power c3 2)*(Power s.calpha1 2)*(Power s2 2) + (Power s.a2 2)*((Power c2 2) +
  (Power s.calpha1 2)*(Power s2 2)) - 2*(Power s.a3 2)*c2*c3*s.calpha2*s2*s3 +
  2*(Power s.a3 2)*c2*c3*(Power s.calpha1 2)*s.calpha2*s2*s3 +
  (Power s.a3 2)*(Power c2 2)*(Power s.calpha1 2)*(Power s.calpha2 2)*(Power s3 2) +
  (Power s.a3 2)*(Power s.calpha2 2)*(Power s2 2)*(Power s3 2) -
  2*s.a3*c3*s.calpha1*s.d2*s2*s.salpha1 - 2*s.a3*c3*s.calpha1*s.calpha2*s.d3*s2*s.salpha1 -
  2*s.a3*c3*s.calpha1*s.calpha2*s.calpha3*s.d4*s2*s.salpha1 -
  2*s.a3*c2*s.calpha1*s.calpha2*s.d2*s3*s.salpha1 -
  2*s.a3*c2*s.calpha1*(Power s.calpha2 2)*s.d3*s3*s.salpha1 -
  2*s.a3*c2*s.calpha1*(Power s.calpha2 2)*s.calpha3*s.d4*s3*s.salpha1 +
  (Power s.d2 2)*(Power s.salpha1 2) + 2*s.calpha2*s.d2*s.d3*(Power s.salpha1 2) +
  (Power s.calpha2 2)*(Power s.d3 2)*(Power s.salpha1 2) +
  2*s.calpha2*s.calpha3*s.d2*s.d4*(Power s.salpha1 2) +
  2*(Power s.calpha2 2)*s.calpha3*s.d3*s.d4*(Power s.salpha1 2) +
  (Power s.calpha2 2)*(Power s.calpha3 2)*(Power s.d4 2)*(Power s.salpha1 2) +
  2*s.a3*c2*c3*s.d3*s2*s.salpha2 - 2*s.a3*c2*c3*(Power s.calpha1 2)*s.d3*s2*s.salpha2 +
  2*s.a3*c2*c3*s.calpha3*s.d4*s2*s.salpha2 -
  2*s.a3*c2*c3*(Power s.calpha1 2)*s.calpha3*s.d4*s2*s.salpha2 -
  2*s.a3*(Power c2 2)*(Power s.calpha1 2)*s.calpha2*s.d3*s3*s.salpha2 -
  2*s.a3*(Power c2 2)*(Power s.calpha1 2)*s.calpha2*s.calpha3*s.d4*s3*s.salpha2 -
  2*s.a3*s.calpha2*s.d3*(Power s2 2)*s3*s.salpha2 -
  2*s.a3*s.calpha2*s.calpha3*s.d4*(Power s2 2)*s3*s.salpha2 +
  2*c2*s.calpha1*s.d2*s.d3*s.salpha1*s.salpha2 +
  2*c2*s.calpha1*s.calpha2*(Power s.d3 2)*s.salpha1*s.salpha2 +
  2*c2*s.calpha1*s.calpha3*s.d2*s.d4*s.salpha1*s.salpha2 +
  4*c2*s.calpha1*s.calpha2*s.calpha3*s.d3*s.d4*s.salpha1*s.salpha2 +
  2*c2*s.calpha1*s.calpha2*(Power s.calpha3 2)*(Power s.d4 2)*s.salpha1*s.salpha2 -
  2*(Power s.a3 2)*c3*s.calpha1*s2*s3*s.salpha1*s.salpha2 -
  2*(Power s.a3 2)*c2*s.calpha1*s.calpha2*(Power s3 2)*s.salpha1*s.salpha2 +
  2*s.a3*s.d2*s3*(Power s.salpha1 2)*s.salpha2 +
  2*s.a3*s.calpha2*s.d3*s3*(Power s.salpha1 2)*s.salpha2 +
  2*s.a3*s.calpha2*s.calpha3*s.d4*s3*(Power s.salpha1 2)*s.salpha2 +
  (Power c2 2)*(Power s.calpha1 2)*(Power s.d3 2)*(Power s.salpha2 2) +
  2*(Power c2 2)*(Power s.calpha1 2)*s.calpha3*s.d3*s.d4*(Power s.salpha2 2) +
  (Power c2 2)*(Power s.calpha1 2)*(Power s.calpha3 2)*(Power s.d4 2)*(Power s.salpha2 2) +
  (Power s.d3 2)*(Power s2 2)*(Power s.salpha2 2) +
  2*s.calpha3*s.d3*s.d4*(Power s2 2)*(Power s.salpha2 2) +
  (Power s.calpha3 2)*(Power s.d4 2)*(Power s2 2)*(Power s.salpha2 2) +
  2*s.a3*c2*s.calpha1*s.d3*s3*s.salpha1*(Power s.salpha2 2) +
  2*s.a3*c2*s.calpha1*s.calpha3*s.d4*s3*s.salpha1*(Power s.salpha2 2) +
  (Power s.a3 2)*(Power s3 2)*(Power s.salpha1 2)*(Power s.salpha2 2) -
  2*s.d4*((-(s.calpha1*(s.d2 + s.calpha2*(s.d3 + s.calpha3*s.d4))*(c2*c3*s.calpha2 -
  s2*s3)*s.salpha1)) - ((s.d3 + s.calpha3*s.d4)*(c3*s.calpha2*((Power c2 2)*(Power s.calpha1 2) +
  (Power s2 2)) - c2*((-1) + (Power s.calpha1 2))*s2*s3) - c3*(s.d2 + s.calpha2*(s.d3 +
  s.calpha3*s.d4))*(Power s.salpha1 2))*s.salpha2 + c2*c3*s.calpha1*(s.d3 +
  s.calpha3*s.d4)*s.salpha1*(Power s.salpha2 2) + s.a3*((Power c2 2)*c3*((-1) +
  (Power s.calpha1 2)*(Power s.calpha2 2))*s3 - c3*(s.calpha1 - s.calpha2)*(s.calpha1 +
  s.calpha2)*(Power s2 2)*s3 - s.calpha1*s2*(c3 - s3)*(c3 + s3)*s.salpha1*s.salpha2 +
  c3*s3*(Power s.salpha1 2)*(Power s.salpha2 2) + c2*s.calpha2*(((-1) +
  (Power s.calpha1 2))*s2*(c3 - s3)*(c3 + s3) -
  2*c3*s.calpha1*s3*s.salpha1*s.salpha2)))*s.salpha3 +
  (Power s.d4 2)*((Power c2 2)*((Power c3 2)*(Power s.calpha1 2)*(Power s.calpha2 2) +
  (Power s3 2)) + (Power s2 2)*((Power c3 2)*(Power s.calpha2 2) +
  (Power s.calpha1 2)*(Power s3 2)) + 2*c3*s.calpha1*s2*s3*s.salpha1*s.salpha2 +
  (Power c3 2)*(Power s.salpha1 2)*(Power s.salpha2 2) - 2*c2*c3*s.calpha2*(((-1) +
  (Power s.calpha1 2))*s2*s3 + c3*s.calpha1*s.salpha1*s.salpha2))*(Power s.salpha3 2) +
  2*s.a1*(s.a2*c2 + s.a3*c2*c3 - s.a3*s.calpha2*s2*s3 + s.d3*s2*s.salpha2 +
  s.calpha3*s.d4*s2*s.salpha2 + c3*s.calpha2*s.d4*s2*s.salpha3 + c2*s.d4*s3*s.salpha3) +
  2*s.a2*((-(s.calpha1*(s.d2 + s.calpha2*(s.d3 + s.calpha3*s.d4))*s2*s.salpha1)) - c2*((-1) +
  (Power s.calpha1 2))*(s.d3 + s.calpha3*s.d4)*s2*s.salpha2 + s.a3*((Power c2 2)*c3 + c2*((-1) +
  (Power s.calpha1 2))*s.calpha2*s2*s3 + s.calpha1*s2*(c3*s.calpha1*s2 -
  s3*s.salpha1*s.salpha2)) + s.d4*((-(c2*c3*((-1) + (Power s.calpha1 2))*s.calpha2*s2)) +
  (Power c2 2)*s3 + s.calpha1*s2*(s.calpha1*s2*s3 + c3*s.salpha1*s.salpha2))*s.salpha3)

/-- The divisor of `c2` (and of `s2`) in `solveTheta2` (lines 398-403). -/
def solveTheta2.den (s : PieperSolver F) (c3 s3 : F) : F :=
  2*s.a1*s.salpha1*((Power s.a2 2) + (Power s.a3 2)*((Power c3 2) +
  (Power s.calpha2 2)*(Power s3 2)) - 2*s.a3*s.calpha2*(s.d3 + s.calpha3*s.d4)*s3*s.salpha2 +
  (Power (s.d3 + s.calpha3*s.d4) 2)*(Power s.salpha2 2) - 2*s.a3*c3*((-1) +
  (Power s.calpha2 2))*s.d4*s3*s.salpha3 + 2*c3*s.calpha2*s.d4*(s.d3 +
  s.calpha3*s.d4)*s.salpha2*s.salpha3 + (Power s.d4 2)*((Power c3 2)*(Power s.calpha2 2) +
  (Power s3 2))*(Power s.salpha3 2) + 2*s.a2*(s.a3*c3 + s.d4*s3*s.salpha3))

/-- `f` (lines 534-536): the quartic with the stored coefficients. -/
def f (s : PieperSolver F) (x : F) : F :=
  (((s.a*x + s.b)*x + s.c)*x + s.d)*x + s.e

/-- `df` (lines 538-540). -/
def df (s : PieperSolver F) (x : F) : F :=
  ((4*s.a*x + 3*s.b)*x + 2*s.c)*x + s.d

/-- `ddf` (lines 542-544). -/
def ddf (s : PieperSolver F) (x : F) : F :=
  (12*s.a*x + 6*s.b)*x + 2*s.c

/-- `solveTheta1` (lines 167-302): `atan2(s1, c1)`. -/
def solveTheta1 (m : Extern F) (s : PieperSolver F) (x y theta2 theta3 : F) : F :=
  let c2 := m.cos theta2
  let s2 := m.sin theta2
  let c3 := m.cos theta3
  let s3 := m.sin theta3
  let c1 := solveTheta1.c1 s x y c2 s2 c3 s3
  let s1 := solveTheta1.s1 s x y c2 s2 c3 s3
  m.atan2 s1 c1

/-- `solveTheta2Case2` (lines 305-343). -/
def solveTheta2Case2 (m : Extern F) (s : PieperSolver F) (r theta3 : F) : List F :=
  let c3 := m.cos theta3
  let s3 := m.sin theta3
  let a := solveTheta2Case2.a s r c3 s3
  let b := solveTheta2Case2.b s r c3 s3
  let c := solveTheta2Case2.c s r c3 s3
  let d := b*b - 4*a*c
  let result : List F :=
    if |a| < 1e-12 then [-c/b]
    else if |d| < 1e-12 then [-b/(2*a)]
    else if d > 0 then [(-b - m.sqrt d)/(2*a), (-b + m.sqrt d)/(2*a)]
    else []
  result.map fun u =>
    let c2 := (1 - u*u)/(1 + u*u)
    let s2 := 2*u/(1 + u*u)
    m.atan2 s2 c2

/-- `solveTheta2Case1` (lines 345-385). -/
def solveTheta2Case1 (m : Extern F) (s : PieperSolver F) (z theta3 : F) : List F :=
  let c3 := m.cos theta3
  let s3 := m.sin theta3
  let a := solveTheta2Case1.a s z c3 s3
  let b := solveTheta2Case1.b s z c3 s3
  let c := solveTheta2Case1.c s z c3 s3
  let d := b*b - 4*a*c
  let result : List F :=
    if |a| < 1e-12 then [-c/b]
    else if |d| < 1e-12 then [-b/(2*a)]
    else if d > 0 then [(-b - m.sqrt d)/(2*a), (-b + m.sqrt d)/(2*a)]
    else []
  result.map fun u =>
    let c2 := (1 - u*u)/(1 + u*u)
    let s2 := 2*u/(1 + u*u)
    m.atan2 s2 c2

/-- `solveTheta2` (lines 387-420): `atan2(s2, c2)`. -/
def solveTheta2 (m : Extern F) (s : PieperSolver F) (r z theta3 : F) : F :=
  let c3 := m.cos theta3
  let s3 := m.sin theta3
  let c2 := solveTheta2.c2 s r z c3 s3
  let s2 := solveTheta2.s2 s r z c3 s3
  m.atan2 s2 c2

/-- `solveTheta3Case1` (lines 424-454). -/
def solveTheta3Case1 (m : Extern F) (s : PieperSolver F) (r : F) : List F :=
  let a := solveTheta3Case1.a s r
  let b := solveTheta3Case1.b s r
  let c := solveTheta3Case1.c s r
  let d := b*b - 4*a*c
  let result : List F :=
    if |a| < 1e-12 then [-c/b]
    else if |d| < 1e-12 then [-b/(2*a)]
    else if d > 0 then [(-b - m.sqrt d)/(2*a), (-b + m.sqrt d)/(2*a)]
    else []
  result.map fun u =>
    let c3 := (1 - u*u)/(1 + u*u)
    let s3 := 2*u/(1 + u*u)
    m.atan2 s3 c3

/-- `solveTheta3Case2` (lines 457-484); there is no test of `|a|` here. -/
def solveTheta3Case2 (m : Extern F) (s : PieperSolver F) (z : F) : List F :=
  let a := solveTheta3Case2.a s z
  let b := solveTheta3Case2.b s z
  let c := solveTheta3Case2.c s z
  let d := b*b - 4*a*c
  let result : List F :=
    if |d| < 1e-12 then [-b/(2*a)]
    else if d > 0 then [(-b - m.sqrt d)/(2*a), (-b + m.sqrt d)/(2*a)]
    else []
  result.map fun u =>
    let c3 := (1 - u*u)/(1 + u*u)
    let s3 := 2*u/(1 + u*u)
    m.atan2 s3 c3

/-- `setupCoefficients` (lines 818-879): stores the five quartic coefficients
in the fields `a .. e` of the solver. -/
def setupCoefficients (s : PieperSolver F) (r z : F) : PieperSolver F :=
  { s with
    a := setupCoefficients.a s r z
    b := setupCoefficients.b s r z
    c := setupCoefficients.c s r z
    d := setupCoefficients.d s r z
    e := setupCoefficients.e s r z }

/-- The matrix `A` filled in by `fSolve()` (lines 548-556). -/
def fSolve.A (s : PieperSolver F) : Matrix (Fin 4) (Fin 4) F :=
  !![-s.b/s.a, -s.c/s.a, -s.d/s.a, -s.e/s.a;
     1, 0, 0, 0;
     0, 1, 0, 0;
     0, 0, 1, 0]

/-- `fSolve()` (lines 546-570): the eigenvalues of `A` whose imaginary part
is `== 0`, in the order of the eigenvalue vector. -/
def fSolve (m : Extern F) (s : PieperSolver F) : List F :=
  let eigen := m.eigenDecomposition (fSolve.A s)
  (List.finRange 4).foldl
    (fun result i => if (eigen i).2 = 0 then result ++ [(eigen i).1] else result)
    []

/-- `solveTheta3Case3` (lines 486-531): sets up the quartic, solves it and
maps the roots back to angles; returns the angles and the solver with the
new coefficient fields. -/
def solveTheta3Case3 (m : Extern F) (s : PieperSolver F) (r z : F) : List F × PieperSolver F :=
  let s := setupCoefficients s r z
  let solutions := fSolve m s
  (solutions.map fun u =>
    let c3 := (1 - u*u)/(1 + u*u)
    let s3 := 2*u/(1 + u*u)
    m.atan2 s3 c3, s)

/-- The body of `solve` up to line 81: the local `result` before the home
offsets are subtracted, and the solver state at that point. -/
def solve.result (m : Extern F) (s : PieperSolver F) (T06 : HTransform3D F) :
    List (Q F) × PieperSolver F :=
  let r := m.getLengh T06.getPosition
  let x := T06.getPosition 0
  let y := T06.getPosition 1
  let z := T06.getPosition 2
  if s.a1 = 0 then
    let theta3 := solveTheta3Case1 m s r
    (theta3.foldl
      (fun result theta3 =>
        let theta2sol := solveTheta2Case1 m s z theta3
        theta2sol.foldl
          (fun result theta2 =>
            let theta1 := solveTheta1 m s x y theta2 theta3
            solveTheta456 m s theta1 theta2 theta3 T06 result)
          result)
      [], s)
  else if |s.salpha1| < 1e-12 then
    let theta3 := solveTheta3Case2 m s z
    (theta3.foldl
      (fun result theta3 =>
        let theta2sol := solveTheta2Case2 m s r theta3
        theta2sol.foldl
          (fun result theta2 =>
            let theta1 := solveTheta1 m s x y theta2 theta3
            solveTheta456 m s theta1 theta2 theta3 T06 result)
          result)
      [], s)
  else
    let (theta3, s) := solveTheta3Case3 m s r z
    (theta3.foldl
      (fun result theta3 =>
        let theta2 := solveTheta2 m s r z theta3
        let theta1 := solveTheta1 m s x y theta2 theta3
        solveTheta456 m s theta1 theta2 theta3 T06 result)
      [], s)

/-- The inner loop of lines 84-85 for one vector: `q(i) -= _dHTable(i).theta()`
for `i = 0 .. q.size()-1`; `none` when the table is read past its end. -/
def solve.subtractHome (s : PieperSolver F) (q : Q F) : Option (Q F) :=
  (List.range q.size).foldlM
    (fun q i => (s._dHTable.get i).map fun p => q.subAssign i p.theta)
    q

/-- `solve` (lines 29-89): the joint vectors for the pose `T06` together with
the solver state after the call; `none` when the home-offset loop reads past
the end of the DH table. -/
def solve (m : Extern F) (s : PieperSolver F) (T06 : HTransform3D F) :
    Option (List (Q F) × PieperSolver F) :=
  let (result, s) := solve.result m s T06
  (result.mapM (solve.subtractHome s)).map fun result => (result, s)

/-! ## Declarative reading of `solve` -/

/-- The two joint vectors one call of `solveTheta456` contributes: the primary
wrist solution and the flipped one. -/
def wristBranches (m : Extern F) (s : PieperSolver F) (theta1 theta2 theta3 : F)
    (T06 : HTransform3D F) : List (Q F) :=
  let T46 := solveTheta456.T46 m s theta1 theta2 theta3 T06
  let theta5 := solveTheta456.theta5 m T46
  let theta4 := (solveTheta456.theta46 m s T46).1
  let theta6 := (solveTheta456.theta46 m s T46).2
  [[theta1, theta2, theta3, theta4, theta5, theta6],
   [theta1, theta2, theta3,
    if theta4 > 0 then theta4 - m.M_PI else theta4 + m.M_PI,
    -theta5,
    if theta6 > 0 then theta6 - m.M_PI else theta6 + m.M_PI]]

/-- Case 1 as the spec words it: `theta3` from `solveTheta3Case1`, for each
of them `theta2` from `solveTheta2Case1`, `theta1` from `solveTheta1`, and
the two wrist branches for every triple. -/
def case1Vectors (m : Extern F) (s : PieperSolver F) (T06 : HTransform3D F) : List (Q F) :=
  (solveTheta3Case1 m s (m.getLengh T06.getPosition)).flatMap fun theta3 =>
    (solveTheta2Case1 m s (T06.getPosition 2) theta3).flatMap fun theta2 =>
      wristBranches m s
        (solveTheta1 m s (T06.getPosition 0) (T06.getPosition 1) theta2 theta3) theta2 theta3 T06

/-- Case 2 as the spec words it: `theta3` from `solveTheta3Case2`, `theta2`
from `solveTheta2Case2`, `theta1` from `solveTheta1`. -/
def case2Vectors (m : Extern F) (s : PieperSolver F) (T06 : HTransform3D F) : List (Q F) :=
  (solveTheta3Case2 m s (T06.getPosition 2)).flatMap fun theta3 =>
    (solveTheta2Case2 m s (m.getLengh T06.getPosition) theta3).flatMap fun theta2 =>
      wristBranches m s
        (solveTheta1 m s (T06.getPosition 0) (T06.getPosition 1) theta2 theta3) theta2 theta3 T06

/-- Case 3 as the spec words it: `theta3` from `solveTheta3Case3`, the single
`theta2` from `solveTheta2`, `theta1` from `solveTheta1`. -/
def case3Vectors (m : Extern F) (s : PieperSolver F) (T06 : HTransform3D F) : List (Q F) :=
  let r := m.getLengh T06.getPosition
  let z := T06.getPosition 2
  let s1 := setupCoefficients s r z
  (solveTheta3Case3 m s r z).1.flatMap fun theta3 =>
    let theta2 := solveTheta2 m s1 r z theta3
    wristBranches m s1
      (solveTheta1 m s1 (T06.getPosition 0) (T06.getPosition 1) theta2 theta3) theta2 theta3 T06

/-- A joint vector with the home angle of each joint subtracted from the
component of that joint. -/
def homeCorrected (s : PieperSolver F) (q : Q F) : Q F :=
  List.zipWith (fun w p => w - p.theta) q s._dHTable._dHParam

/-- The list assigned to the local `theta3` of `solve` (lines 41, 57, 71):
the joint-3 candidates for the pose `T06`. -/
def solve.theta3 (m : Extern F) (s : PieperSolver F) (T06 : HTransform3D F) : List F :=
  let r := m.getLengh T06.getPosition
  let z := T06.getPosition 2
  if s.a1 = 0 then solveTheta3Case1 m s r
  else if |s.salpha1| < 1e-12 then solveTheta3Case2 m s z
  else (solveTheta3Case3 m s r z).1

/-- What `solve` hands back once the vectors `raw` are collected and the
solver is in state `s1`: each vector corrected by the home angles; undefined
when a vector exists and the DH table has fewer than 6 rows. -/
def withHomeOffsets (s : PieperSolver F) (raw : List (Q F)) (s1 : PieperSolver F) :
    Option (List (Q F) × PieperSolver F) :=
  if raw = [] ∨ 6 ≤ s._dHTable.size then some (raw.map (homeCorrected s), s1) else none

/-! ## The wrist centre in Pieper's equations -/

/-- Coordinates `f1, f2, f3` of the wrist centre in frame 2, as functions of
`cos(theta3)` and `sin(theta3)`. -/
def wristCentre.f1 (s : PieperSolver F) (c3 s3 : F) : F :=
  s.a3*c3 + s.d4*s.salpha3*s3 + s.a2

/-- See `wristCentre.f1`. -/
def wristCentre.f2 (s : PieperSolver F) (c3 s3 : F) : F :=
  s.a3*s.calpha2*s3 - s.d4*s.salpha3*s.calpha2*c3 - s.d4*s.salpha2*s.calpha3 - s.d3*s.salpha2

/-- See `wristCentre.f1`. -/
def wristCentre.f3 (s : PieperSolver F) (c3 s3 : F) : F :=
  s.a3*s.salpha2*s3 - s.d4*s.salpha3*s.salpha2*c3 + s.d4*s.calpha2*s.calpha3 + s.d3*s.calpha2

/-- Coordinates `g1, g2, g3` of the wrist centre in frame 1, as functions of
the cosines and sines of `theta2` and `theta3`. -/
def wristCentre.g1 (s : PieperSolver F) (c2 s2 c3 s3 : F) : F :=
  c2*wristCentre.f1 s c3 s3 - s2*wristCentre.f2 s c3 s3 + s.a1

/-- See `wristCentre.g1`. -/
def wristCentre.g2 (s : PieperSolver F) (c2 s2 c3 s3 : F) : F :=
  s2*s.calpha1*wristCentre.f1 s c3 s3 + c2*s.calpha1*wristCentre.f2 s c3 s3
    - s.salpha1*wristCentre.f3 s c3 s3 - s.d2*s.salpha1

/-- The part `k3` of the squared distance of the wrist centre that does not
depend on `theta2`: `f1^2 + f2^2 + f3^2 + a1^2 + d2^2 + 2 d2 f3`. -/
def wristCentre.k3 (s : PieperSolver F) (c3 s3 : F) : F :=
  wristCentre.f1 s c3 s3 * wristCentre.f1 s c3 s3 + wristCentre.f2 s c3 s3 * wristCentre.f2 s c3 s3
    + wristCentre.f3 s c3 s3 * wristCentre.f3 s c3 s3 + s.a1*s.a1 + s.d2*s.d2
    + 2*s.d2*wristCentre.f3 s c3 s3

/-- The half-angle back-substitution shared by the `theta2`/`theta3` solvers:
`atan2(2u/(1+u*u), (1-u*u)/(1+u*u))`. -/
def halfAngle (m : Extern F) (u : F) : F :=
  m.atan2 (2*u/(1 + u*u)) ((1 - u*u)/(1 + u*u))

/-- The outcome the spec words for a quadratic `A u^2 + B u + C` with two
roots: the result holds the half-angle images of
`u1 = (-B - sqrt(D))/(2A)` and `u2 = (-B + sqrt(D))/(2A)`, in this order,
and `u1`, `u2` are distinct roots of the quadratic. -/
def TwoRootResult (m : Extern F) (A B C : F) (result : List F) : Prop :=
  let D := B*B - 4*A*C
  let u1 := (-B - m.sqrt D)/(2*A)
  let u2 := (-B + m.sqrt D)/(2*A)
  result = [halfAngle m u1, halfAngle m u2] ∧ u1 ≠ u2 ∧
    A*(u1*u1) + B*u1 + C = 0 ∧ A*(u2*u2) + B*u2 + C = 0

/-- The outcome the spec words for a quadratic with a repeated root: the
result holds the half-angle image of `u = -B/(2A)` alone, and the quadratic
takes the value `-(B^2 - 4AC)/(4A)` at `u`. -/
def RepeatedRootResult (m : Extern F) (A B C : F) (result : List F) : Prop :=
  let u := -B/(2*A)
  result = [halfAngle m u] ∧ A*(u*u) + B*u + C = -(B*B - 4*A*C)/(4*A)

/-- `ddfSolve` (lines 798-814): the two roots of the second derivative by the
quadratic formula, none for a negative discriminant. -/
def ddfSolve (m : Extern F) (s : PieperSolver F) : List F :=
  let ac := 12*s.a
  let bc := 6*s.b
  let cc := 2*s.c
  let dc := bc*bc - 4*ac*cc
  if dc < 0 then
    []
  else
    [(-bc + m.sqrt dc)/(2*ac), (-bc - m.sqrt dc)/(2*ac)]

/-- The Newton loop of the one-sided searches of `fSolve(s1, s2, s3)` and
`dfSolve` (lines 589-594, 605-610, 722-730, 743-748), for the function `fn`
with derivative `gn`:
`while (fabs(fval) > PREC && fabs(fval/g) > PREC) { x -= fval/g; fval = fn(x); g = gn(x); }`
entered with `fval = fn(x)` and `g = gn(x)`. Returns the value of `x` when the
loop is left, `none` when the loop is still running after `fuel` passes
through its body. -/
def newtonLoop (fn gn : F → F) : Nat → F → Option F
  | 0, x => if 1e-12 < |fn x| ∧ 1e-12 < |fn x / gn x| then none else some x
  | fuel + 1, x =>
    if 1e-12 < |fn x| ∧ 1e-12 < |fn x / gn x| then newtonLoop fn gn fuel (x - fn x / gn x)
    else some x

/-- The bisection loop of `fSolve(s1, s2, s3)` (lines 627-642 and 665-680) on
the local variables `s1`, `s2`, `f1`, `x`:
`while (fabs(s2-s1) > PREC) { fval = f(x); if (fval*f1 < 0) { s2 = x; f2 = fval; } else { s1 = x; f1 = fval; } x = (s1+s2)/2; }`
(`f2` is written and never read). Returns the final `x`, `none` when the loop
is still running after `fuel` passes through its body. -/
def fSolve3.bisect (s : PieperSolver F) : Nat → F → F → F → F → Option F
  | 0, s1, s2, _, x => if 1e-12 < |s2 - s1| then none else some x
  | fuel + 1, s1, s2, f1, x =>
    if 1e-12 < |s2 - s1| then
      let fval := s.f x
      if fval*f1 < 0 then
        fSolve3.bisect s fuel s1 x f1 ((s1 + x)/2)
      else
        fSolve3.bisect s fuel x s2 fval ((x + s2)/2)
    else some x

/-- The search to the left of `t1` in `fSolve(s1, s2, s3)` (lines 584-598):
`solution[0]` when `has_solution[0]` is set (`some none` when it is not),
`none` when the Newton loop is still running after `fuel` passes. -/
def fSolve3.left (fuel : Nat) (s : PieperSolver F) (t1 : F) : Option (Option F) :=
  let x := t1 - 1e-6
  let fval := s.f x
  let g := s.df x
  if (fval > 0 ∧ g > 0) ∨ (fval < 0 ∧ g < 0) then
    (newtonLoop s.f s.df fuel x).map some
  else
    some none

/-- The search to the right of `t3` in `fSolve(s1, s2, s3)` (lines 599-614):
`solution[1]`, as in `fSolve3.left`. -/
def fSolve3.right (fuel : Nat) (s : PieperSolver F) (t3 : F) : Option (Option F) :=
  let x := t3 + 1e-6
  let fval := s.f x
  let g := s.df x
  if (fval > 0 ∧ g < 0) ∨ (fval < 0 ∧ g > 0) then
    (newtonLoop s.f s.df fuel x).map some
  else
    some none

/-- The search between `t1` and `t2` in `fSolve(s1, s2, s3)` (lines 616-653):
`solution[2]`, as in `fSolve3.left`. -/
def fSolve3.between12 (fuel : Nat) (s : PieperSolver F) (t1 t2 : F) : Option (Option F) :=
  if t1 ≠ t2 then
    let s1 := t1
    let s2 := t2
    let f1 := s.f s1
    let f2 := s.f s2
    if f1*f2 < 0 then
      (fSolve3.bisect s fuel s1 s2 f1 ((s1 + s2)/2)).map some
    else
      some none
  else
    if |s.f t1| < 1e-12 then some (some t1) else some none

/-- The search between `t2` and `t3` in `fSolve(s1, s2, s3)` (lines 655-692):
`solution[3]`, as in `fSolve3.left`. -/
def fSolve3.between23 (fuel : Nat) (s : PieperSolver F) (t1 t2 t3 : F) : Option (Option F) :=
  if t2 ≠ t3 then
    let s1 := t2
    let s2 := t3
    let f1 := s.f s1
    let f2 := s.f s2
    if f1*f2 < 1e-12 then
      (fSolve3.bisect s fuel s1 s2 f1 ((s1 + s2)/2)).map some
    else
      some none
  else
    if t1 ≠ t2 ∧ |s.f t2| < 1e-12 then some (some t1) else some none

/-- The overload `fSolve(double s1, double s2, double s3)` (lines 572-701),
the bracketing solver: the entries of `solution` whose `has_solution` flag is
set, in the order of the index; `none` when one of its loops is still running
after `fuel` passes through its body. -/
def fSolve3 (fuel : Nat) (s : PieperSolver F) (s1 s2 s3 : F) : Option (List F) :=
  let t1 := min (min s1 s2) s3
  let t2 := max (max (min s1 s2) (min s1 s3)) (min s2 s3)
  let t3 := max (max s1 s2) s3
  (fSolve3.left fuel s t1).bind fun sol0 =>
  (fSolve3.right fuel s t3).bind fun sol1 =>
  (fSolve3.between12 fuel s t1 t2).bind fun sol2 =>
  (fSolve3.between23 fuel s t1 t2 t3).bind fun sol3 =>
  some ([sol0, sol1, sol2, sol3].filterMap id)

/-- The bisection loop of `dfSolve` (lines 763-774) on the local variables
`s1`, `s2`, `f1`, `x`, entered with `fval = df(x)`:
`while (fabs(fval) > PREC && fabs(s2-s1) > PREC) { if (f1*fval < 0) { s2 = x; f2 = fval; } else { s1 = x; f1 = fval; } x = (s2+s1)/2; fval = df(x); }`.
Returns the final `x`, `none` when the loop is still running after `fuel`
passes through its body. -/
def dfSolve.bisect (s : PieperSolver F) : Nat → F → F → F → F → Option F
  | 0, s1, s2, _, x => if 1e-12 < |s.df x| ∧ 1e-12 < |s2 - s1| then none else some x
  | fuel + 1, s1, s2, f1, x =>
    if 1e-12 < |s.df x| ∧ 1e-12 < |s2 - s1| then
      let fval := s.df x
      if f1*fval < 0 then
        dfSolve.bisect s fuel s1 x f1 ((x + s1)/2)
      else
        dfSolve.bisect s fuel x s2 fval ((s2 + x)/2)
    else some x

/-- The search to the left of `s1` in `dfSolve` (lines 717-734). -/
def dfSolve.left (fuel : Nat) (s : PieperSolver F) (s1 : F) : Option (Option F) :=
  let x := s1 - 1e-6
  let fval := s.df x
  let g := s.ddf x
  if (fval > 0 ∧ g > 0) ∨ (fval < 0 ∧ g < 0) then
    (newtonLoop s.df s.ddf fuel x).map some
  else
    some none

/-- The search to the right of `s2` in `dfSolve` (lines 737-752). -/
def dfSolve.right (fuel : Nat) (s : PieperSolver F) (s2 : F) : Option (Option F) :=
  let x := s2 + 1e-6
  let fval := s.df x
  let g := s.ddf x
  if (fval > 0 ∧ g < 0) ∨ (fval < 0 ∧ g > 0) then
    (newtonLoop s.df s.ddf fuel x).map some
  else
    some none

/-- The search between `s1` and `s2` in `dfSolve` (lines 754-785). -/
def dfSolve.between (fuel : Nat) (s : PieperSolver F) (s1 s2 : F) : Option (Option F) :=
  if s1 ≠ s2 then
    let f1 := s.df s1
    let f2 := s.df s2
    if f1*f2 < 0 then
      (dfSolve.bisect s fuel s1 s2 f1 ((s2 + s1)/2)).map some
    else
      some none
  else
    if |s.df s1| < 1e-12 then some (some s1) else some none

/-- `dfSolve` (lines 703-796): the roots of the first derivative found around
and between `s1` and `s2`; `none` when one of its loops is still running after
`fuel` passes through its body. -/
def dfSolve (fuel : Nat) (s : PieperSolver F) (s1 s2 : F) : Option (List F) :=
  let (s1, s2) := if s1 > s2 then (s2, s1) else (s1, s2)
  (dfSolve.left fuel s s1).bind fun sol0 =>
  (dfSolve.right fuel s s2).bind fun sol1 =>
  (dfSolve.between fuel s s1 s2).bind fun sol2 =>
  some ([sol0, sol1, sol2].filterMap id)

end PieperSolver

/-! ## `ConvertedInterpolator.h`: the pose-to-joint interpolator -/

/-- What a call can throw: a `std::string`, the only type the handler of
`ikInterpolator::x` catches, or a value of any other type. -/
inductive Thrown (E : Type) where
  | string (msg : String)
  | other (e : E)

/-- The conversion `(int)result.size()` of a vector size to a 32-bit `int`. -/
def intOfSize (n : Nat) : Int :=
  ((n + 2147483648) % 4294967296 : Nat) - 2147483648

/-- The members of `ikInterpolator`, the specialisation of
`ConvertedInterpolator` for a pair of a position and a rotation interpolator
(lines 144-212). The interpolators are given by their function `x(t)`; the
solver by its virtual function `solve(pose, config)`, which returns a list of
joint vectors or throws. -/
structure ikInterpolator (F Config E : Type) where
  _ikSolver : HTransform3D F → Config → Except (Thrown E) (List (Q F))
  _posInterpolator : F → Fin 3 → F
  _rotInterpolator : F → Matrix (Fin 3) (Fin 3) F
  _config : Config

/-- The text thrown by `ikInterpolator::x` for an empty solution list
(line 173). -/
def ikInterpolator.noSolution : String := "错误<ikInterpolator>: 无法进行逆解!"

/-- The text put in front of a caught message (line 179). -/
def ikInterpolator.rethrown : String := "错误<ikInterpolator>: 无法进行逆解!\n"

/-- `ikInterpolator::x` (lines 165-181): solve for the pose at `t`; throw when
the list is empty; return `result[0]`; a caught `std::string` is thrown again
behind the text of line 179, anything else passes through. The output of
`println` and `print` is left out. -/
def ikInterpolator.x {F Config E : Type} (ip : ikInterpolator F Config E) (t : F) :
    Except (Thrown E) (Q F) :=
  match ip._ikSolver ⟨ip._rotInterpolator t, ip._posInterpolator t⟩ ip._config with
  | .error (.string msg) => .error (.string (ikInterpolator.rethrown ++ msg))
  | .error (.other e) => .error (.other e)
  | .ok result =>
    if intOfSize result.length ≤ 0 then
      .error (.string (ikInterpolator.rethrown ++ ikInterpolator.noSolution))
    else
      match result with
      | q :: _ => .ok q
      | [] => .error (.string (ikInterpolator.rethrown ++ ikInterpolator.noSolution))

/-! ## Concrete manipulators and poses -/

namespace Instances

/-- A DH table of six rows with the home angles `0.1, 0.2, ..., 0.6`. -/
noncomputable def homeTable : DHTable ℝ :=
  ⟨[⟨0, 0, 0, 1/10⟩, ⟨0, 0, 0, 2/10⟩, ⟨0, 0, 0, 3/10⟩,
    ⟨0, 0, 0, 4/10⟩, ⟨0, 0, 0, 5/10⟩, ⟨0, 0, 0, 6/10⟩]⟩

/-- An elbow manipulator with `a1 = 0` (case 1): joint 2 perpendicular to
joint 1, link lengths `a2 = 2`, `a3 = 1`, no offsets. -/
noncomputable def elbowArm : PieperSolver ℝ where
  alpha0 := 0
  a0 := 0
  d1 := 0
  alpha1 := Real.pi / 2
  a1 := 0
  d2 := 0
  alpha2 := 0
  a2 := 2
  d3 := 0
  alpha3 := 0
  a3 := 1
  d4 := 0
  alpha5 := 0
  calpha1 := 0
  salpha1 := 1
  calpha2 := 1
  salpha2 := 0
  calpha3 := 1
  salpha3 := 0
  a := 0
  b := 0
  c := 0
  d := 0
  e := 0
  _dHTable := homeTable

/-- A manipulator with `a1 = 1` and parallel joints 1 and 2 (`sin(alpha1) = 0`,
case 2), link length `a3 = 1`, twist `alpha2 = π/2`. -/
noncomputable def scaraArm : PieperSolver ℝ where
  alpha0 := 0
  a0 := 0
  d1 := 0
  alpha1 := 0
  a1 := 1
  d2 := 0
  alpha2 := Real.pi / 2
  a2 := 0
  d3 := 0
  alpha3 := 0
  a3 := 1
  d4 := 0
  alpha5 := 0
  calpha1 := 1
  salpha1 := 0
  calpha2 := 0
  salpha2 := 1
  calpha3 := 1
  salpha3 := 0
  a := 0
  b := 0
  c := 0
  d := 0
  e := 0
  _dHTable := homeTable

/-- A manipulator with `a1 = 1` and joint 2 perpendicular to joint 1
(`sin(alpha1) = 1`, case 3), offset `d4 = 1`; the coefficient fields start
at `0`. -/
noncomputable def offsetArm : PieperSolver ℝ where
  alpha0 := 0
  a0 := 0
  d1 := 0
  alpha1 := Real.pi / 2
  a1 := 1
  d2 := 0
  alpha2 := 0
  a2 := 0
  d3 := 0
  alpha3 := 0
  a3 := 0
  d4 := 1
  alpha5 := 0
  calpha1 := 0
  salpha1 := 1
  calpha2 := 1
  salpha2 := 0
  calpha3 := 1
  salpha3 := 0
  a := 0
  b := 0
  c := 0
  d := 0
  e := 0
  _dHTable := homeTable

/-- A DH table of six rows for an elbow manipulator with a spherical wrist:
base offset `d1`, joint 2 perpendicular to joint 1, link lengths `a2 = 2` and
`a3 = 1`, wrist twists `(π/2, -π/2)`, home angles `0.1, 0.2, ..., 0.6`. -/
noncomputable def craigTable (d1 : ℝ) : DHTable ℝ :=
  ⟨[⟨0, 0, d1, 1/10⟩, ⟨Real.pi / 2, 0, 0, 2/10⟩, ⟨0, 2, 0, 3/10⟩,
    ⟨0, 1, 0, 4/10⟩, ⟨Real.pi / 2, 0, 0, 5/10⟩, ⟨-(Real.pi / 2), 0, 0, 6/10⟩]⟩

/-- The solver of the manipulator of `craigTable d1` (`a1 = 0`, case 1): its
constants are those of the table. -/
noncomputable def jointedArm (d1 : ℝ) : PieperSolver ℝ where
  alpha0 := 0
  a0 := 0
  d1 := d1
  alpha1 := Real.pi / 2
  a1 := 0
  d2 := 0
  alpha2 := 0
  a2 := 2
  d3 := 0
  alpha3 := 0
  a3 := 1
  d4 := 0
  alpha5 := -(Real.pi / 2)
  calpha1 := 0
  salpha1 := 1
  calpha2 := 1
  salpha2 := 0
  calpha3 := 1
  salpha3 := 0
  a := 0
  b := 0
  c := 0
  d := 0
  e := 0
  _dHTable := craigTable d1

/-- The pose with the identity rotation and the position `(x, y, z)`. -/
noncomputable def poseAt (x y z : ℝ) : HTransform3D ℝ where
  R := 1
  P := ![x, y, z]

/-- A manipulator of the PUMA type (`a1 = 0`, case 1): joint 2 perpendicular
to joint 1 (`alpha1 = -π/2`), upper arm `a2 = 2`, forearm `d4 = 2` along the
axis of joint 4 (`alpha3 = -π/2`). -/
noncomputable def pumaArm : PieperSolver ℝ where
  alpha0 := 0
  a0 := 0
  d1 := 0
  alpha1 := -(Real.pi / 2)
  a1 := 0
  d2 := 0
  alpha2 := 0
  a2 := 2
  d3 := 0
  alpha3 := -(Real.pi / 2)
  a3 := 0
  d4 := 2
  alpha5 := -(Real.pi / 2)
  calpha1 := 0
  salpha1 := -1
  calpha2 := 1
  salpha2 := 0
  calpha3 := 0
  salpha3 := -1
  a := 0
  b := 0
  c := 0
  d := 0
  e := 0
  _dHTable := homeTable

/-- A manipulator whose first three joints are parallel (`a1 = 1`,
`sin(alpha1) = 0`, case 2; `alpha2 = 0`), link length `a3 = 1`. -/
noncomputable def planarArm : PieperSolver ℝ where
  alpha0 := 0
  a0 := 0
  d1 := 0
  alpha1 := 0
  a1 := 1
  d2 := 0
  alpha2 := 0
  a2 := 0
  d3 := 0
  alpha3 := 0
  a3 := 1
  d4 := 0
  alpha5 := 0
  calpha1 := 1
  salpha1 := 0
  calpha2 := 1
  salpha2 := 0
  calpha3 := 1
  salpha3 := 0
  a := 0
  b := 0
  c := 0
  d := 0
  e := 0
  _dHTable := homeTable

/-- The pose the solver `s` reaches with `theta1 = theta2 = theta3 = 0` and
frame 6 turned by `alpha` about the `x` axis of frame 4: `T04 * Rx(alpha)`. -/
noncomputable def wristPose (s : PieperSolver ℝ) (alpha : ℝ) : HTransform3D ℝ :=
  (PieperSolver.solveTheta456.T04 Extern.real s 0 0 0).mul
    (HTransform3D.craigDH Real.sin Real.cos alpha 0 0 0)

/-- An interpolator at rest at the pose `poseAt 1 0 0` whose solver returns the
two joint vectors `[0,0,0,0,0,0]` and `[1,1,1,1,1,1]` for every pose. -/
noncomputable def restingInterpolator : ikInterpolator ℝ Unit Unit where
  _ikSolver := fun _ _ => .ok [[0, 0, 0, 0, 0, 0], [1, 1, 1, 1, 1, 1]]
  _posInterpolator := fun _ => (poseAt 1 0 0).P
  _rotInterpolator := fun _ => (poseAt 1 0 0).R
  _config := ()

/-- As `restingInterpolator`, with a solver that finds no solution. -/
noncomputable def unreachableInterpolator : ikInterpolator ℝ Unit Unit where
  _ikSolver := fun _ _ => .ok []
  _posInterpolator := fun _ => (poseAt 1 0 0).P
  _rotInterpolator := fun _ => (poseAt 1 0 0).R
  _config := ()

/-- A solver state holding the quartic `x^4 + 2x`, whose real roots are `0` and
`-2^(1/3)`. -/
noncomputable def quarticA : PieperSolver ℝ :=
  { elbowArm with a := 1, b := 0, c := 0, d := 2, e := 0 }

/-- A solver state holding the quartic `(x - 1)^3 (x + 3) = x^4 - 6x^2 + 8x - 3`,
with critical points `-2` and `1` (twice) and `f(1) = 0`. -/
noncomputable def quarticB : PieperSolver ℝ :=
  { elbowArm with a := 1, b := 0, c := -6, d := 8, e := -3 }

end Instances

/-! ## Auxiliary facts -/

section Aux

variable {F : Type} [LinearOrderedField F]

theorem Power_two (x : F) : Power x 2 = x * x := by
  simp [Power, List.range_succ]

theorem foldl_append_eq_flatMap {α β : Type} (f : α → List β) (l : List α) (init : List β) :
    l.foldl (fun acc x => acc ++ f x) init = init ++ l.flatMap f := by
  induction l generalizing init with
  | nil => simp
  | cons x xs ih => simp [ih, List.append_assoc]

theorem mapM_option_eq_some {α β : Type} (f : α → Option β) (g : α → β) (l : List α)
    (h : ∀ x ∈ l, f x = some (g x)) : l.mapM f = some (l.map g) := by
  induction l with
  | nil => rw [List.mapM_nil]; rfl
  | cons x xs ih =>
    have hx : f x = some (g x) := h x (List.mem_cons_self _ _)
    have hxs : ∀ y ∈ xs, f y = some (g y) := fun y hy => h y (List.mem_cons_of_mem _ hy)
    rw [List.mapM_cons, hx, ih hxs]; rfl

theorem mapM_option_eq_none {α β : Type} (f : α → Option β) (l : List α) (x : α)
    (hx : x ∈ l) (h : f x = none) : l.mapM f = none := by
  induction l with
  | nil => simp at hx
  | cons y ys ih =>
    rw [List.mapM_cons]
    rcases List.mem_cons.mp hx with rfl | hmem
    · rw [h]; rfl
    · rw [ih hmem]
      cases f y <;> rfl

/-! ### The structure of `solve` -/

open PieperSolver

theorem solveTheta456_eq (m : Extern F) (s : PieperSolver F) (theta1 theta2 theta3 : F)
    (T06 : HTransform3D F) (result : List (Q F)) :
    solveTheta456 m s theta1 theta2 theta3 T06 result
      = result ++ wristBranches m s theta1 theta2 theta3 T06 := by
  simp [solveTheta456, wristBranches, Q.zero, Q.assign, List.replicate]

theorem wristBranches_length (m : Extern F) (s : PieperSolver F) (theta1 theta2 theta3 : F)
    (T06 : HTransform3D F) : (wristBranches m s theta1 theta2 theta3 T06).length = 2 := by
  simp [wristBranches]

theorem wristBranches_size (m : Extern F) (s : PieperSolver F) (theta1 theta2 theta3 : F)
    (T06 : HTransform3D F) (q : Q F) (hq : q ∈ wristBranches m s theta1 theta2 theta3 T06) :
    q.size = 6 := by
  simp only [wristBranches, List.mem_cons, List.mem_singleton, List.not_mem_nil, or_false] at hq
  rcases hq with rfl | rfl <;> rfl

theorem solve_result_case1 (m : Extern F) (s : PieperSolver F) (T06 : HTransform3D F)
    (h : s.a1 = 0) : solve.result m s T06 = (case1Vectors m s T06, s) := by
  simp only [solve.result, h, if_true, case1Vectors, solveTheta456_eq, foldl_append_eq_flatMap,
    List.nil_append]

theorem solve_result_case2 (m : Extern F) (s : PieperSolver F) (T06 : HTransform3D F)
    (h1 : s.a1 ≠ 0) (h2 : |s.salpha1| < 1e-12) :
    solve.result m s T06 = (case2Vectors m s T06, s) := by
  simp only [solve.result, h1, h2, if_true, if_false, case2Vectors, solveTheta456_eq,
    foldl_append_eq_flatMap, List.nil_append]

theorem solve_result_case3 (m : Extern F) (s : PieperSolver F) (T06 : HTransform3D F)
    (h1 : s.a1 ≠ 0) (h2 : ¬ |s.salpha1| < 1e-12) :
    solve.result m s T06
      = (case3Vectors m s T06,
          setupCoefficients s (m.getLengh T06.getPosition) (T06.getPosition 2)) := by
  simp only [solve.result, h1, h2, if_false, case3Vectors, solveTheta456_eq,
    foldl_append_eq_flatMap, List.nil_append, solveTheta3Case3]

theorem modify_append_cons {α : Type} (f : α → α) (pre : List α) (w : α) (ws : List α) :
    (pre ++ w :: ws).modify f pre.length = pre ++ f w :: ws := by
  induction pre with
  | nil => simp
  | cons p ps ih => simp [ih]

theorem subtractHome_loop (s : PieperSolver F) (rest pre : List F) :
    (List.range' pre.length rest.length).foldlM
        (fun (q : Q F) i => (s._dHTable.get i).map fun p => q.subAssign i p.theta)
        (pre ++ rest)
      = if rest = [] ∨ pre.length + rest.length ≤ s._dHTable.size then
          some (pre ++ List.zipWith (fun w p => w - p.theta) rest
            (s._dHTable._dHParam.drop pre.length))
        else none := by
  induction rest generalizing pre with
  | nil => simp
  | cons w ws ih =>
    simp only [List.length_cons, List.range', List.foldlM_cons]
    by_cases hk : pre.length < s._dHTable._dHParam.length
    · have hget : s._dHTable.get pre.length = some (s._dHTable._dHParam[pre.length]) := by
        simp [DHTable.get, hk]
      have hdrop : s._dHTable._dHParam.drop pre.length
          = s._dHTable._dHParam[pre.length] :: s._dHTable._dHParam.drop (pre.length + 1) := by
        rw [List.drop_eq_getElem_cons hk]
      have hstep : Q.subAssign (pre ++ w :: ws) pre.length (s._dHTable._dHParam[pre.length]).theta
          = (pre ++ [w - (s._dHTable._dHParam[pre.length]).theta]) ++ ws := by
        simp [Q.subAssign, modify_append_cons]
      have h2 := ih (pre ++ [w - (s._dHTable._dHParam[pre.length]).theta])
      simp only [List.length_append, List.length_singleton] at h2
      rw [hget, Option.map_some']
      simp only [Option.bind_eq_bind, Option.some_bind]
      rw [hstep, h2, hdrop, List.zipWith_cons_cons]
      by_cases hws : ws = []
      · subst hws
        have : pre.length + (0 + 1) ≤ s._dHTable.size := by simp only [DHTable.size]; omega
        simp [this]
      · by_cases hle : pre.length + 1 + ws.length ≤ s._dHTable.size
        · have : pre.length + (ws.length + 1) ≤ s._dHTable.size := by omega
          simp [hws, hle, this]
        · have : ¬ pre.length + (ws.length + 1) ≤ s._dHTable.size := by omega
          simp [hws, hle, this]
    · have hget : s._dHTable.get pre.length = none := by
        simp only [DHTable.get, List.getElem?_eq_none_iff]; omega
      have hn : ¬ (pre.length + (ws.length + 1) ≤ s._dHTable.size) := by
        simp only [DHTable.size]; omega
      simp [hget, hn]

theorem subtractHome_eq (s : PieperSolver F) (q : Q F) :
    solve.subtractHome s q
      = if q.size ≤ s._dHTable.size then some (homeCorrected s q) else none := by
  have h := subtractHome_loop s q []
  simp only [List.length_nil, List.nil_append, Nat.zero_add, List.drop_zero] at h
  rw [solve.subtractHome, List.range_eq_range', Q.size, h, homeCorrected]
  by_cases hq : q = []
  · subst hq; simp
  · simp [hq]

theorem case1Vectors_size (m : Extern F) (s : PieperSolver F) (T06 : HTransform3D F)
    (q : Q F) (hq : q ∈ case1Vectors m s T06) : q.size = 6 := by
  simp only [case1Vectors, List.mem_flatMap] at hq
  obtain ⟨_, _, _, _, h⟩ := hq
  exact wristBranches_size _ _ _ _ _ _ _ h

theorem case2Vectors_size (m : Extern F) (s : PieperSolver F) (T06 : HTransform3D F)
    (q : Q F) (hq : q ∈ case2Vectors m s T06) : q.size = 6 := by
  simp only [case2Vectors, List.mem_flatMap] at hq
  obtain ⟨_, _, _, _, h⟩ := hq
  exact wristBranches_size _ _ _ _ _ _ _ h

theorem case3Vectors_size (m : Extern F) (s : PieperSolver F) (T06 : HTransform3D F)
    (q : Q F) (hq : q ∈ case3Vectors m s T06) : q.size = 6 := by
  simp only [case3Vectors, List.mem_flatMap] at hq
  obtain ⟨_, _, h⟩ := hq
  exact wristBranches_size _ _ _ _ _ _ _ h

theorem solve_result_size (m : Extern F) (s : PieperSolver F) (T06 : HTransform3D F)
    (q : Q F) (hq : q ∈ (solve.result m s T06).1) : q.size = 6 := by
  by_cases h1 : s.a1 = 0
  · rw [solve_result_case1 m s T06 h1] at hq
    exact case1Vectors_size m s T06 q hq
  · by_cases h2 : |s.salpha1| < 1e-12
    · rw [solve_result_case2 m s T06 h1 h2] at hq
      exact case2Vectors_size m s T06 q hq
    · rw [solve_result_case3 m s T06 h1 h2] at hq
      exact case3Vectors_size m s T06 q hq

theorem solve_result_dHTable (m : Extern F) (s : PieperSolver F) (T06 : HTransform3D F) :
    (solve.result m s T06).2._dHTable = s._dHTable := by
  by_cases h1 : s.a1 = 0
  · rw [solve_result_case1 m s T06 h1]
  · by_cases h2 : |s.salpha1| < 1e-12
    · rw [solve_result_case2 m s T06 h1 h2]
    · rw [solve_result_case3 m s T06 h1 h2]; rfl

theorem homeCorrected_congr (s s' : PieperSolver F) (h : s'._dHTable = s._dHTable) (q : Q F) :
    homeCorrected s' q = homeCorrected s q := by
  simp [homeCorrected, h]

/-- The value of `solve`: the vectors of `solve.result`, each corrected by the
home angles, unless a vector exists and the table has fewer than 6 rows. -/
theorem solve_eq (m : Extern F) (s : PieperSolver F) (T06 : HTransform3D F) :
    solve m s T06
      = if (solve.result m s T06).1 = [] ∨ 6 ≤ s._dHTable.size then
          some ((solve.result m s T06).1.map (homeCorrected s), (solve.result m s T06).2)
        else none := by
  have hsz := solve_result_size m s T06
  have htab := solve_result_dHTable m s T06
  rw [solve]
  generalize solve.result m s T06 = p at hsz htab
  obtain ⟨raw, s'⟩ := p
  simp only at hsz htab ⊢
  by_cases h : raw = [] ∨ 6 ≤ s._dHTable.size
  · rw [if_pos h]
    have hall : ∀ q ∈ raw, solve.subtractHome s' q = some (homeCorrected s q) := by
      intro q hq
      rw [subtractHome_eq, hsz q hq, htab]
      rcases h with h | h
      · subst h; simp at hq
      · rw [if_pos h, homeCorrected_congr s s' htab]
    rw [mapM_option_eq_some _ _ raw hall]; rfl
  · rw [if_neg h]
    push_neg at h
    obtain ⟨q, hq⟩ := List.exists_mem_of_ne_nil raw h.1
    have hnone : solve.subtractHome s' q = none := by
      rw [subtractHome_eq, hsz q hq, htab, if_neg (by omega)]
    rw [mapM_option_eq_none _ raw q hq hnone]; rfl

theorem solveTheta3Case1_length_le (m : Extern F) (s : PieperSolver F) (r : F) :
    (solveTheta3Case1 m s r).length ≤ 2 := by
  simp only [solveTheta3Case1, List.length_map]
  split_ifs <;> simp

theorem solveTheta3Case2_length_le (m : Extern F) (s : PieperSolver F) (z : F) :
    (solveTheta3Case2 m s z).length ≤ 2 := by
  simp only [solveTheta3Case2, List.length_map]
  split_ifs <;> simp

theorem solveTheta2Case1_length_le (m : Extern F) (s : PieperSolver F) (z theta3 : F) :
    (solveTheta2Case1 m s z theta3).length ≤ 2 := by
  simp only [solveTheta2Case1, List.length_map]
  split_ifs <;> simp

theorem solveTheta2Case2_length_le (m : Extern F) (s : PieperSolver F) (r theta3 : F) :
    (solveTheta2Case2 m s r theta3).length ≤ 2 := by
  simp only [solveTheta2Case2, List.length_map]
  split_ifs <;> simp

theorem foldl_push_if_eq {α β : Type} (p : α → Prop) [DecidablePred p] (f : α → β)
    (l : List α) (init : List β) :
    l.foldl (fun result i => if p i then result ++ [f i] else result) init
      = init ++ (l.filter fun i => decide (p i)).map f := by
  induction l generalizing init with
  | nil => simp
  | cons x xs ih =>
    by_cases hx : p x <;> simp [ih, hx, List.filter_cons]

theorem fSolve_eq (m : Extern F) (s : PieperSolver F) :
    fSolve m s = ((List.finRange 4).filter fun i =>
        decide ((m.eigenDecomposition (fSolve.A s) i).2 = 0)).map
          fun i => (m.eigenDecomposition (fSolve.A s) i).1 := by
  simp only [fSolve, foldl_push_if_eq, List.nil_append]

theorem fSolve_length_le (m : Extern F) (s : PieperSolver F) : (fSolve m s).length ≤ 4 := by
  rw [fSolve_eq, List.length_map]
  exact (List.length_filter_le _ _).trans (by simp)

theorem solveTheta3Case3_length (m : Extern F) (s : PieperSolver F) (r z : F) :
    (solveTheta3Case3 m s r z).1.length = (fSolve m (setupCoefficients s r z)).length := by
  simp [solveTheta3Case3]

theorem length_flatMap_const {α β : Type} (l : List α) (f : α → List β) (n : Nat)
    (h : ∀ x ∈ l, (f x).length = n) : (l.flatMap f).length = n * l.length := by
  induction l with
  | nil => simp
  | cons x xs ih =>
    have hx := h x (List.mem_cons_self _ _)
    have hxs := ih (fun y hy => h y (List.mem_cons_of_mem _ hy))
    simp only [List.flatMap_cons, List.length_append, hx, hxs, List.length_cons]
    ring

theorem case1Vectors_length (m : Extern F) (s : PieperSolver F) (T06 : HTransform3D F) :
    (case1Vectors m s T06).length
      = 2 * ((solveTheta3Case1 m s (m.getLengh T06.getPosition)).map fun theta3 =>
          (solveTheta2Case1 m s (T06.getPosition 2) theta3).length).sum := by
  rw [case1Vectors, List.length_flatMap, ← List.sum_map_mul_left]
  congr 1
  apply List.map_congr_left
  intro theta3 _
  simp only [Function.comp]
  exact length_flatMap_const _ _ 2 (fun _ _ => wristBranches_length _ _ _ _ _ _)

theorem case2Vectors_length (m : Extern F) (s : PieperSolver F) (T06 : HTransform3D F) :
    (case2Vectors m s T06).length
      = 2 * ((solveTheta3Case2 m s (T06.getPosition 2)).map fun theta3 =>
          (solveTheta2Case2 m s (m.getLengh T06.getPosition) theta3).length).sum := by
  rw [case2Vectors, List.length_flatMap, ← List.sum_map_mul_left]
  congr 1
  apply List.map_congr_left
  intro theta3 _
  simp only [Function.comp]
  exact length_flatMap_const _ _ 2 (fun _ _ => wristBranches_length _ _ _ _ _ _)

theorem case3Vectors_length (m : Extern F) (s : PieperSolver F) (T06 : HTransform3D F) :
    (case3Vectors m s T06).length
      = 2 * (fSolve m (setupCoefficients s (m.getLengh T06.getPosition)
          (T06.getPosition 2))).length := by
  rw [case3Vectors]
  simp only
  rw [length_flatMap_const _ _ 2 (fun _ _ => wristBranches_length _ _ _ _ _ _),
    solveTheta3Case3_length]

theorem sum_le_of_each_le (l : List Nat) (n : Nat) (h : ∀ x ∈ l, x ≤ n) :
    l.sum ≤ n * l.length := by
  induction l with
  | nil => simp
  | cons x xs ih =>
    have hx := h x (List.mem_cons_self _ _)
    have hxs := ih (fun y hy => h y (List.mem_cons_of_mem _ hy))
    simp only [List.sum_cons, List.length_cons]
    nlinarith

theorem solve_result_length_even_le (m : Extern F) (s : PieperSolver F) (T06 : HTransform3D F) :
    Even (solve.result m s T06).1.length ∧ (solve.result m s T06).1.length ≤ 8 := by
  by_cases h1 : s.a1 = 0
  · rw [solve_result_case1 m s T06 h1]
    simp only [case1Vectors_length]
    refine ⟨even_two_mul _, ?_⟩
    have h3 := solveTheta3Case1_length_le m s (m.getLengh T06.getPosition)
    have hsum := sum_le_of_each_le
      ((solveTheta3Case1 m s (m.getLengh T06.getPosition)).map fun theta3 =>
          (solveTheta2Case1 m s (T06.getPosition 2) theta3).length) 2
      (by
        intro x hx
        simp only [List.mem_map] at hx
        obtain ⟨t, _, rfl⟩ := hx
        exact solveTheta2Case1_length_le m s _ t)
    simp only [List.length_map] at hsum
    omega
  · by_cases h2 : |s.salpha1| < 1e-12
    · rw [solve_result_case2 m s T06 h1 h2]
      simp only [case2Vectors_length]
      refine ⟨even_two_mul _, ?_⟩
      have h3 := solveTheta3Case2_length_le m s (T06.getPosition 2)
      have hsum := sum_le_of_each_le
        ((solveTheta3Case2 m s (T06.getPosition 2)).map fun theta3 =>
            (solveTheta2Case2 m s (m.getLengh T06.getPosition) theta3).length) 2
        (by
          intro x hx
          simp only [List.mem_map] at hx
          obtain ⟨t, _, rfl⟩ := hx
          exact solveTheta2Case2_length_le m s _ t)
      simp only [List.length_map] at hsum
      omega
    · rw [solve_result_case3 m s T06 h1 h2]
      simp only [case3Vectors_length]
      refine ⟨even_two_mul _, ?_⟩
      have := fSolve_length_le m (setupCoefficients s (m.getLengh T06.getPosition)
          (T06.getPosition 2))
      omega

end Aux

/-! ## Forward kinematics of the returned vectors -/

section Trig

open PieperSolver

theorem cos_sin_arg_of_unit (c s : ℝ) (h : c*c + s*s = 1) :
    Real.cos (Complex.arg ⟨c, s⟩) = c ∧ Real.sin (Complex.arg ⟨c, s⟩) = s := by
  have habs : Complex.abs ⟨c, s⟩ = 1 := by
    rw [Complex.abs_apply, Complex.normSq_mk, h, Real.sqrt_one]
  have hne : (⟨c, s⟩ : ℂ) ≠ 0 := by
    intro h0
    rw [h0, map_zero] at habs
    exact zero_ne_one habs
  constructor
  · rw [Complex.cos_arg hne, habs, div_one]
  · rw [Complex.sin_arg, habs, div_one]

theorem real_cos_sin_atan2 (len : (Fin 3 → ℝ) → ℝ) (eig : Matrix (Fin 4) (Fin 4) ℝ → Fin 4 → ℝ × ℝ)
    (y x : ℝ) (h : x*x + y*y = 1) :
    Real.cos ((Extern.realWith len eig).atan2 y x) = x ∧
    Real.sin ((Extern.realWith len eig).atan2 y x) = y :=
  cos_sin_arg_of_unit x y h

theorem halfAngle_unit (u : ℝ) :
    ((1 - u*u)/(1 + u*u)) * ((1 - u*u)/(1 + u*u)) + (2*u/(1 + u*u)) * (2*u/(1 + u*u)) = 1 := by
  have h : 1 + u*u ≠ 0 := by nlinarith [mul_self_nonneg u]
  field_simp
  ring

theorem real_cos_sin_halfAngle (len : (Fin 3 → ℝ) → ℝ)
    (eig : Matrix (Fin 4) (Fin 4) ℝ → Fin 4 → ℝ × ℝ) (u : ℝ) :
    Real.cos (halfAngle (Extern.realWith len eig) u) = (1 - u*u)/(1 + u*u) ∧
    Real.sin (halfAngle (Extern.realWith len eig) u) = 2*u/(1 + u*u) :=
  cos_sin_arg_of_unit _ _ (halfAngle_unit u)

theorem quadratic_root_of_sq (A B C w : ℝ) (hA : A ≠ 0) (hw : w*w = B*B - 4*A*C) :
    A*((-B - w)/(2*A) * ((-B - w)/(2*A))) + B*((-B - w)/(2*A)) + C = 0 ∧
    A*((-B + w)/(2*A) * ((-B + w)/(2*A))) + B*((-B + w)/(2*A)) + C = 0 := by
  have k1 : A*((-B - w)/(2*A) * ((-B - w)/(2*A))) + B*((-B - w)/(2*A)) + C
      = (w*w - (B*B - 4*A*C))/(4*A) := by
    field_simp
    ring
  have k2 : A*((-B + w)/(2*A) * ((-B + w)/(2*A))) + B*((-B + w)/(2*A)) + C
      = (w*w - (B*B - 4*A*C))/(4*A) := by
    field_simp
    ring
  rw [k1, k2, hw, sub_self, zero_div]
  exact ⟨rfl, rfl⟩

end Trig

section Algebra

variable {F : Type} [LinearOrderedField F]

open PieperSolver

theorem solveTheta1_P_eq (s : PieperSolver F) (c2 s2 c3 s3 : F) :
    solveTheta1.P s c2 s2 c3 s3 = wristCentre.g1 s c2 s2 c3 s3 := by
  simp only [solveTheta1.P, wristCentre.g1, wristCentre.f1, wristCentre.f2]
  ring

theorem solveTheta1_Q_eq (s : PieperSolver F) (c2 s2 c3 s3 : F) :
    solveTheta1.Q s c2 s2 c3 s3 = wristCentre.g2 s c2 s2 c3 s3 := by
  simp only [solveTheta1.Q, wristCentre.g2, wristCentre.f1, wristCentre.f2, wristCentre.f3]
  ring

theorem solveTheta1_den_eq (s : PieperSolver F) (c2 s2 c3 s3 : F) :
    solveTheta1.den s c2 s2 c3 s3
      = wristCentre.g1 s c2 s2 c3 s3 * wristCentre.g1 s c2 s2 c3 s3
        + wristCentre.g2 s c2 s2 c3 s3 * wristCentre.g2 s c2 s2 c3 s3 := by
  simp only [solveTheta1.den, wristCentre.g1, wristCentre.g2, wristCentre.f1, wristCentre.f2,
    wristCentre.f3, Power_two]
  ring

theorem solveTheta1_c1_eq (s : PieperSolver F) (x y c2 s2 c3 s3 : F) :
    solveTheta1.c1 s x y c2 s2 c3 s3
      = (solveTheta1.P s c2 s2 c3 s3 * x + solveTheta1.Q s c2 s2 c3 s3 * y)
        / solveTheta1.den s c2 s2 c3 s3 := rfl

theorem solveTheta1_s1_eq (s : PieperSolver F) (x y c2 s2 c3 s3 : F) :
    solveTheta1.s1 s x y c2 s2 c3 s3
      = (-(solveTheta1.Q s c2 s2 c3 s3 * x) + solveTheta1.P s c2 s2 c3 s3 * y)
        / solveTheta1.den s c2 s2 c3 s3 := rfl

end Algebra

section Rigid

open PieperSolver

variable (sn cs : ℝ → ℝ) (alpha a d theta : ℝ)

theorem craigDH_R00 : (HTransform3D.craigDH sn cs alpha a d theta).R 0 0 = cs theta := rfl
theorem craigDH_R01 : (HTransform3D.craigDH sn cs alpha a d theta).R 0 1 = -sn theta := rfl
theorem craigDH_R02 : (HTransform3D.craigDH sn cs alpha a d theta).R 0 2 = 0 := rfl
theorem craigDH_R10 : (HTransform3D.craigDH sn cs alpha a d theta).R 1 0 = sn theta * cs alpha := rfl
theorem craigDH_R11 : (HTransform3D.craigDH sn cs alpha a d theta).R 1 1 = cs theta * cs alpha := rfl
theorem craigDH_R12 : (HTransform3D.craigDH sn cs alpha a d theta).R 1 2 = -sn alpha := rfl
theorem craigDH_R20 : (HTransform3D.craigDH sn cs alpha a d theta).R 2 0 = sn theta * sn alpha := rfl
theorem craigDH_R21 : (HTransform3D.craigDH sn cs alpha a d theta).R 2 1 = cs theta * sn alpha := rfl
theorem craigDH_R22 : (HTransform3D.craigDH sn cs alpha a d theta).R 2 2 = cs alpha := rfl
theorem HTransform3D.ext' {T1 T2 : HTransform3D ℝ} (hR : T1.R = T2.R) (hP : T1.P = T2.P) : T1 = T2 := by
  cases T1; cases T2; simp_all

theorem HTransform3D.mul_R (T1 T2 : HTransform3D ℝ) : (T1.mul T2).R = T1.R * T2.R := rfl

theorem HTransform3D.mul_P (T1 T2 : HTransform3D ℝ) :
    (T1.mul T2).P = T1.R.mulVec T2.P + T1.P := rfl

theorem craigDH_R_orthogonal (alpha a d theta : ℝ) :
    (HTransform3D.craigDH Real.sin Real.cos alpha a d theta).R
      * (HTransform3D.craigDH Real.sin Real.cos alpha a d theta).R.transpose = 1 := by
  have h1 := Real.sin_sq_add_cos_sq alpha
  have h2 := Real.sin_sq_add_cos_sq theta
  ext i j
  fin_cases i <;> fin_cases j <;>
    simp [Matrix.mul_apply, Fin.sum_univ_three, Matrix.one_apply, craigDH_R00, craigDH_R01,
      craigDH_R02, craigDH_R10, craigDH_R11, craigDH_R12, craigDH_R20, craigDH_R21,
      craigDH_R22] <;>
    first
      | ring1
      | linear_combination h2
      | linear_combination (Real.cos alpha)^2 * h2 + h1
      | linear_combination (Real.cos alpha * Real.sin alpha) * h2
      | linear_combination (Real.sin alpha)^2 * h2 + h1

theorem craigDH_R_det (alpha a d theta : ℝ) :
    (HTransform3D.craigDH Real.sin Real.cos alpha a d theta).R.det = 1 := by
  have h1 := Real.sin_sq_add_cos_sq alpha
  have h2 := Real.sin_sq_add_cos_sq theta
  rw [Matrix.det_fin_three]
  simp only [craigDH_R00, craigDH_R01, craigDH_R02,
      craigDH_R10, craigDH_R11, craigDH_R12, craigDH_R20, craigDH_R21, craigDH_R22]
  linear_combination ((Real.cos alpha)^2 + (Real.sin alpha)^2) * h2 + h1

end Rigid

section Position

open PieperSolver

variable (len : (Fin 3 → ℝ) → ℝ) (eig : Matrix (Fin 4) (Fin 4) ℝ → Fin 4 → ℝ × ℝ)

end Position

section Wrist

open PieperSolver

theorem rotation_adjugate (M : Matrix (Fin 3) (Fin 3) ℝ) (hO : M * M.transpose = 1)
    (hdet : M.det = 1) : M.adjugate = M.transpose := by
  calc M.adjugate = M.adjugate * (M * M.transpose) := by rw [hO, mul_one]
    _ = (M.adjugate * M) * M.transpose := by rw [Matrix.mul_assoc]
    _ = M.transpose := by rw [Matrix.adjugate_mul, hdet, one_smul, one_mul]

/-- Entry relations of a rotation matrix: unit third row and column, unit
first row, and four cofactor identities. -/
theorem rotation_relations (M : Matrix (Fin 3) (Fin 3) ℝ) (hO : M * M.transpose = 1)
    (hdet : M.det = 1) :
    (M 2 0 * M 2 0 + M 2 1 * M 2 1 + M 2 2 * M 2 2 = 1) ∧
    (M 0 2 * M 0 2 + M 1 2 * M 1 2 + M 2 2 * M 2 2 = 1) ∧
    (M 0 0 * M 0 0 + M 0 1 * M 0 1 + M 0 2 * M 0 2 = 1) ∧
    (M 0 0 = M 1 1 * M 2 2 - M 1 2 * M 2 1) ∧
    (M 1 1 = M 0 0 * M 2 2 - M 0 2 * M 2 0) ∧
    (M 0 1 = M 1 2 * M 2 0 - M 1 0 * M 2 2) ∧
    (M 1 0 = M 0 2 * M 2 1 - M 0 1 * M 2 2) := by
  have hT : M.transpose * M = 1 := Matrix.mul_eq_one_comm.mp hO
  have hA := rotation_adjugate M hO hdet
  rw [Matrix.adjugate_fin_three] at hA
  have e1 := congrFun (congrFun hO 2) 2
  have e2 := congrFun (congrFun hT 2) 2
  have e3 := congrFun (congrFun hO 0) 0
  have a00 := congrFun (congrFun hA 0) 0
  have a11 := congrFun (congrFun hA 1) 1
  have a10 := congrFun (congrFun hA 1) 0
  have a01 := congrFun (congrFun hA 0) 1
  simp [Matrix.mul_apply, Fin.sum_univ_three] at e1 e2 e3
  simp at a00 a11 a10 a01
  refine ⟨e1, ?_, e3, ?_, ?_, ?_, ?_⟩
  · linear_combination e2
  · linear_combination -a00
  · linear_combination -a11
  · linear_combination -a10
  · linear_combination -a01

theorem real_atan2_eq_zero_or_pi (len : (Fin 3 → ℝ) → ℝ)
    (eig : Matrix (Fin 4) (Fin 4) ℝ → Fin 4 → ℝ × ℝ) (y x : ℝ)
    (h : Real.sin ((Extern.realWith len eig).atan2 y x) = 0) :
    (Extern.realWith len eig).atan2 y x = 0 ∨ (Extern.realWith len eig).atan2 y x = Real.pi := by
  have h1 : -Real.pi < (Extern.realWith len eig).atan2 y x := Complex.neg_pi_lt_arg _
  have h2 : (Extern.realWith len eig).atan2 y x ≤ Real.pi := Complex.arg_le_pi _
  rcases lt_or_eq_of_le h2 with h3 | h3
  · exact Or.inl ((Real.sin_eq_zero_iff_of_lt_of_lt h1 h3).mp h)
  · exact Or.inr h3

/-- The cosine and sine of `theta5` as `solveTheta456` computes it from a
rotation: the entry `(3,3)` and the norm of the rest of the third row. -/
theorem real_cos_sin_theta5 (len : (Fin 3 → ℝ) → ℝ)
    (eig : Matrix (Fin 4) (Fin 4) ℝ → Fin 4 → ℝ × ℝ) (T46 : HTransform3D ℝ)
    (hO : T46.R * T46.R.transpose = 1) (hdet : T46.R.det = 1) :
    Real.cos (solveTheta456.theta5 (Extern.realWith len eig) T46) = T46.R 2 2 ∧
    Real.sin (solveTheta456.theta5 (Extern.realWith len eig) T46)
      = Real.sqrt (T46.R 2 0 * T46.R 2 0 + T46.R 2 1 * T46.R 2 1) := by
  obtain ⟨r3, -⟩ := rotation_relations T46.R hO hdet
  have hnn : 0 ≤ T46.R 2 0 * T46.R 2 0 + T46.R 2 1 * T46.R 2 1 :=
    add_nonneg (mul_self_nonneg _) (mul_self_nonneg _)
  exact real_cos_sin_atan2 len eig _ _ (by
    show T46.R 2 2 * T46.R 2 2
      + Real.sqrt (T46.R 2 0 * T46.R 2 0 + T46.R 2 1 * T46.R 2 1)
        * Real.sqrt (T46.R 2 0 * T46.R 2 0 + T46.R 2 1 * T46.R 2 1) = 1
    rw [Real.mul_self_sqrt hnn]
    linear_combination r3)

theorem orthogonal_mul (A B : Matrix (Fin 3) (Fin 3) ℝ) (hA : A * A.transpose = 1)
    (hB : B * B.transpose = 1) : (A * B) * (A * B).transpose = 1 := by
  rw [Matrix.transpose_mul, Matrix.mul_assoc, ← Matrix.mul_assoc B, hB, Matrix.one_mul, hA]

theorem orthogonal_transpose (A : Matrix (Fin 3) (Fin 3) ℝ) (hA : A * A.transpose = 1) :
    A.transpose * A.transpose.transpose = 1 := by
  rw [Matrix.transpose_transpose]
  exact Matrix.mul_eq_one_comm.mp hA

/-- The transform `T04` of `solveTheta456` is rigid. -/
theorem T04_rigid (len : (Fin 3 → ℝ) → ℝ) (eig : Matrix (Fin 4) (Fin 4) ℝ → Fin 4 → ℝ × ℝ)
    (s : PieperSolver ℝ) (theta1 theta2 theta3 : ℝ) :
    (solveTheta456.T04 (Extern.realWith len eig) s theta1 theta2 theta3).IsRigid := by
  constructor
  · exact orthogonal_mul _ _ (orthogonal_mul _ _ (orthogonal_mul _ _
      (craigDH_R_orthogonal _ _ _ _) (craigDH_R_orthogonal _ _ _ _))
      (craigDH_R_orthogonal _ _ _ _)) (craigDH_R_orthogonal _ _ _ _)
  · show (((HTransform3D.craigDH Real.sin Real.cos s.alpha0 s.a0 s.d1 theta1).R
        * (HTransform3D.craigDH Real.sin Real.cos s.alpha1 s.a1 s.d2 theta2).R)
        * (HTransform3D.craigDH Real.sin Real.cos s.alpha2 s.a2 s.d3 theta3).R
        * (HTransform3D.craigDH Real.sin Real.cos s.alpha3 s.a3 s.d4 0).R).det = 1
    rw [Matrix.det_mul, Matrix.det_mul, Matrix.det_mul, craigDH_R_det, craigDH_R_det,
      craigDH_R_det, craigDH_R_det]
    norm_num

/-- The transform `T46` of `solveTheta456` is rigid when the pose is, and it
has no translation when `T04` reaches the position of the pose. -/
theorem T46_rigid (len : (Fin 3 → ℝ) → ℝ) (eig : Matrix (Fin 4) (Fin 4) ℝ → Fin 4 → ℝ × ℝ)
    (s : PieperSolver ℝ) (theta1 theta2 theta3 : ℝ) (T06 : HTransform3D ℝ) (hT : T06.IsRigid) :
    (solveTheta456.T46 (Extern.realWith len eig) s theta1 theta2 theta3 T06).IsRigid := by
  obtain ⟨h1, h2⟩ := T04_rigid len eig s theta1 theta2 theta3
  constructor
  · exact orthogonal_mul _ _ (orthogonal_transpose _ h1) hT.1
  · show ((solveTheta456.T04 (Extern.realWith len eig) s theta1 theta2 theta3).R.transpose
        * T06.R).det = 1
    rw [Matrix.det_mul, Matrix.det_transpose, h2, hT.2]
    norm_num

end Wrist

/-! ## The wrist branches, the quadratics and the companion matrix -/

section WristBranches

open PieperSolver

variable {F : Type} [LinearOrderedField F]

theorem theta5_eq (m : Extern F) (T46 : HTransform3D F) :
    solveTheta456.theta5 m T46
      = m.atan2 (m.sqrt (T46.R 2 0 * T46.R 2 0 + T46.R 2 1 * T46.R 2 1)) (T46.R 2 2) := rfl

theorem theta46_singular_zero (m : Extern F) (s : PieperSolver F) (T46 : HTransform3D F)
    (h : |solveTheta456.theta5 m T46| < 1e-12) :
    solveTheta456.theta46 m s T46 = (0, m.atan2 (-(T46.R 0 1)) (T46.R 0 0)) := by
  simp only [solveTheta456.theta46, if_pos h]
  rfl

theorem theta46_singular_pi (m : Extern F) (s : PieperSolver F) (T46 : HTransform3D F)
    (h0 : ¬ |solveTheta456.theta5 m T46| < 1e-12)
    (h : |m.M_PI - solveTheta456.theta5 m T46| < 1e-12) :
    solveTheta456.theta46 m s T46 = (0, m.atan2 (T46.R 0 1) (-(T46.R 0 0))) := by
  simp only [solveTheta456.theta46, if_neg h0, if_pos h]
  rfl

theorem theta46_regular_neg (m : Extern F) (s : PieperSolver F) (T46 : HTransform3D F)
    (h0 : ¬ |solveTheta456.theta5 m T46| < 1e-12)
    (hpi : ¬ |m.M_PI - solveTheta456.theta5 m T46| < 1e-12) (h5 : s.alpha5 < 0) :
    solveTheta456.theta46 m s T46
      = (m.atan2 (-(T46.R 1 2) / m.sin (solveTheta456.theta5 m T46))
            (-(T46.R 0 2) / m.sin (solveTheta456.theta5 m T46)),
          m.atan2 (-(T46.R 2 1) / m.sin (solveTheta456.theta5 m T46))
            (T46.R 2 0 / m.sin (solveTheta456.theta5 m T46))) := by
  simp only [solveTheta456.theta46, if_neg h0, if_neg hpi, if_pos h5]
  rfl

theorem theta46_regular_pos (m : Extern F) (s : PieperSolver F) (T46 : HTransform3D F)
    (h0 : ¬ |solveTheta456.theta5 m T46| < 1e-12)
    (hpi : ¬ |m.M_PI - solveTheta456.theta5 m T46| < 1e-12) (h5 : ¬ s.alpha5 < 0) :
    solveTheta456.theta46 m s T46
      = (m.atan2 (T46.R 1 2 / m.sin (solveTheta456.theta5 m T46))
            (T46.R 0 2 / m.sin (solveTheta456.theta5 m T46)),
          m.atan2 (T46.R 2 1 / m.sin (solveTheta456.theta5 m T46))
            (-(T46.R 2 0) / m.sin (solveTheta456.theta5 m T46))) := by
  simp only [solveTheta456.theta46, if_neg h0, if_neg hpi, if_neg h5]
  rfl

/-- The vector `solveTheta456` appends first: the primary wrist solution. -/
theorem solveTheta456_primary (m : Extern F) (s : PieperSolver F) (theta1 theta2 theta3 : F)
    (T06 : HTransform3D F) (result : List (Q F)) :
    (solveTheta456 m s theta1 theta2 theta3 T06 result)[result.length]?
      = some [theta1, theta2, theta3,
          (solveTheta456.theta46 m s (solveTheta456.T46 m s theta1 theta2 theta3 T06)).1,
          solveTheta456.theta5 m (solveTheta456.T46 m s theta1 theta2 theta3 T06),
          (solveTheta456.theta46 m s (solveTheta456.T46 m s theta1 theta2 theta3 T06)).2] := by
  rw [solveTheta456_eq, List.getElem?_append_right (le_refl _), Nat.sub_self]
  rfl

/-- The vector `solveTheta456` appends second: the flipped wrist solution. -/
theorem solveTheta456_flipped (m : Extern F) (s : PieperSolver F) (theta1 theta2 theta3 : F)
    (T06 : HTransform3D F) (result : List (Q F)) :
    (solveTheta456 m s theta1 theta2 theta3 T06 result)[result.length + 1]?
      = some [theta1, theta2, theta3,
          if (solveTheta456.theta46 m s (solveTheta456.T46 m s theta1 theta2 theta3 T06)).1 > 0
          then (solveTheta456.theta46 m s (solveTheta456.T46 m s theta1 theta2 theta3 T06)).1
            - m.M_PI
          else (solveTheta456.theta46 m s (solveTheta456.T46 m s theta1 theta2 theta3 T06)).1
            + m.M_PI,
          -solveTheta456.theta5 m (solveTheta456.T46 m s theta1 theta2 theta3 T06),
          if (solveTheta456.theta46 m s (solveTheta456.T46 m s theta1 theta2 theta3 T06)).2 > 0
          then (solveTheta456.theta46 m s (solveTheta456.T46 m s theta1 theta2 theta3 T06)).2
            - m.M_PI
          else (solveTheta456.theta46 m s (solveTheta456.T46 m s theta1 theta2 theta3 T06)).2
            + m.M_PI] := by
  rw [solveTheta456_eq, List.getElem?_append_right (Nat.le_succ _),
    show result.length + 1 - result.length = 1 by omega]
  rfl

theorem solveTheta456_length (m : Extern F) (s : PieperSolver F) (theta1 theta2 theta3 : F)
    (T06 : HTransform3D F) (result : List (Q F)) :
    (solveTheta456 m s theta1 theta2 theta3 T06 result).length = result.length + 2 := by
  rw [solveTheta456_eq, List.length_append, wristBranches_length]

end WristBranches

section WristAngles

open PieperSolver

variable (len : (Fin 3 → ℝ) → ℝ) (eig : Matrix (Fin 4) (Fin 4) ℝ → Fin 4 → ℝ × ℝ)

theorem real_theta5_range (T46 : HTransform3D ℝ) :
    0 ≤ solveTheta456.theta5 (Extern.realWith len eig) T46 ∧
    solveTheta456.theta5 (Extern.realWith len eig) T46 ≤ Real.pi := by
  constructor
  · exact Complex.arg_nonneg_iff.mpr (Real.sqrt_nonneg _)
  · exact Complex.arg_le_pi _

theorem not_small_of_near_pi (theta5 : ℝ) (h : |Real.pi - theta5| < 1e-12) :
    ¬ |theta5| < 1e-12 := by
  intro h0
  have hpi := Real.pi_gt_three
  have h1 := abs_lt.mp h
  have h2 := abs_lt.mp h0
  norm_num at h1 h2
  linarith [h1.2, h2.2]

/-- The arguments of a nonzero point and of its mirror image through the
origin differ by exactly `π`. -/
theorem real_atan2_neg (x y : ℝ) (h : x ≠ 0 ∨ y ≠ 0) :
    |(Extern.realWith len eig).atan2 (-y) (-x) - (Extern.realWith len eig).atan2 y x|
      = Real.pi := by
  have hneg : (⟨-x, -y⟩ : ℂ) = -⟨x, y⟩ := by
    apply Complex.ext <;> simp
  show |Complex.arg ⟨-x, -y⟩ - Complex.arg ⟨x, y⟩| = Real.pi
  rw [hneg]
  have hpi := Real.pi_pos
  by_cases hsub : 0 < y ∨ y = 0 ∧ x < 0
  · have := (Complex.arg_neg_eq_arg_sub_pi_iff (x := ⟨x, y⟩)).mpr hsub
    rw [this, sub_sub_cancel_left, abs_neg, abs_of_pos hpi]
  · have hadd : y < 0 ∨ y = 0 ∧ 0 < x := by
      rcases lt_trichotomy y 0 with hy | hy | hy
      · exact Or.inl hy
      · right
        refine ⟨hy, ?_⟩
        rcases lt_trichotomy x 0 with hx | hx | hx
        · exact absurd (Or.inr ⟨hy, hx⟩) hsub
        · rcases h with h | h
          · exact absurd hx h
          · exact absurd hy h
        · exact hx
      · exact absurd (Or.inl hy) hsub
    have := (Complex.arg_neg_eq_arg_add_pi_iff (x := ⟨x, y⟩)).mpr hadd
    rw [this, add_sub_cancel_left, abs_of_pos hpi]

/-- Away from both singular tests the sine of `theta5` is not `0`. -/
theorem real_sin_theta5_ne_zero (T46 : HTransform3D ℝ)
    (h0 : ¬ |solveTheta456.theta5 (Extern.realWith len eig) T46| < 1e-12)
    (hpi : ¬ |Real.pi - solveTheta456.theta5 (Extern.realWith len eig) T46| < 1e-12) :
    Real.sin (solveTheta456.theta5 (Extern.realWith len eig) T46) ≠ 0 := by
  intro h
  rcases real_atan2_eq_zero_or_pi len eig _ _ h with h' | h'
  · apply h0
    rw [show solveTheta456.theta5 (Extern.realWith len eig) T46 = 0 from h', abs_zero]
    norm_num
  · apply hpi
    rw [show solveTheta456.theta5 (Extern.realWith len eig) T46 = Real.pi from h', sub_self,
      abs_zero]
    norm_num

/-- For a rotation the third column and the third row off the corner have
the squared norm `sin^2(theta5)`. -/
theorem real_sin_theta5_sq (T46 : HTransform3D ℝ)
    (hO : T46.R * T46.R.transpose = 1) (hdet : T46.R.det = 1) :
    T46.R 0 2 * T46.R 0 2 + T46.R 1 2 * T46.R 1 2
      = Real.sin (solveTheta456.theta5 (Extern.realWith len eig) T46)
        * Real.sin (solveTheta456.theta5 (Extern.realWith len eig) T46) ∧
    T46.R 2 0 * T46.R 2 0 + T46.R 2 1 * T46.R 2 1
      = Real.sin (solveTheta456.theta5 (Extern.realWith len eig) T46)
        * Real.sin (solveTheta456.theta5 (Extern.realWith len eig) T46) := by
  obtain ⟨hc5, -⟩ := real_cos_sin_theta5 len eig T46 hO hdet
  obtain ⟨r3, k3, -⟩ := rotation_relations T46.R hO hdet
  have hsq := Real.sin_sq_add_cos_sq (solveTheta456.theta5 (Extern.realWith len eig) T46)
  constructor
  · linear_combination k3 - hsq
      + (Real.cos (solveTheta456.theta5 (Extern.realWith len eig) T46) + T46.R 2 2) * hc5
  · linear_combination r3 - hsq
      + (Real.cos (solveTheta456.theta5 (Extern.realWith len eig) T46) + T46.R 2 2) * hc5

theorem ne_zero_of_sq_sum (a b c : ℝ) (h : a * a + b * b = c * c) (hc : c ≠ 0) :
    a ≠ 0 ∨ b ≠ 0 := by
  by_contra hn
  push_neg at hn
  rw [hn.1, hn.2] at h
  have : c * c = 0 := by linarith
  exact hc (mul_self_eq_zero.mp this)

theorem div_ne_zero_or (a b c : ℝ) (h : a ≠ 0 ∨ b ≠ 0) (hc : c ≠ 0) :
    a / c ≠ 0 ∨ b / c ≠ 0 := by
  rcases h with h | h
  · exact Or.inl (div_ne_zero h hc)
  · exact Or.inr (div_ne_zero h hc)

/-- The transform `T46` of `solveTheta456` for a pose `T04 * X` is `X`. -/
theorem T46_of_mul (s : PieperSolver ℝ) (theta1 theta2 theta3 : ℝ) (X : HTransform3D ℝ) :
    solveTheta456.T46 (Extern.realWith len eig) s theta1 theta2 theta3
      ((solveTheta456.T04 (Extern.realWith len eig) s theta1 theta2 theta3).mul X) = X := by
  have hT := Matrix.mul_eq_one_comm.mp (T04_rigid len eig s theta1 theta2 theta3).1
  rw [solveTheta456.T46]
  generalize solveTheta456.T04 (Extern.realWith len eig) s theta1 theta2 theta3 = T at hT
  apply HTransform3D.ext'
  · simp only [HTransform3D.mul_R, HTransform3D.inverse, ← Matrix.mul_assoc, hT, Matrix.one_mul]
  · funext i
    simp only [HTransform3D.mul_P, HTransform3D.mul_R, HTransform3D.inverse, Matrix.mulVec_add,
      Matrix.mulVec_mulVec, hT, Matrix.one_mulVec, Pi.add_apply]
    ring

end WristAngles

section Quadratics

open PieperSolver

variable {F : Type} [LinearOrderedField F]

/-- The `|D| < 1e-12` branch of a guarded quadratic. -/
theorem roots_repeated (A B C : F) (sq : F → F) (hA : 1e-12 ≤ |A|)
    (hD : |B*B - 4*A*C| < 1e-12) :
    (if |A| < 1e-12 then [-C/B]
      else if |B*B - 4*A*C| < 1e-12 then [-B/(2*A)]
      else if B*B - 4*A*C > 0 then
        [(-B - sq (B*B - 4*A*C))/(2*A), (-B + sq (B*B - 4*A*C))/(2*A)]
      else []) = [-B/(2*A)] := by
  rw [if_neg (not_lt.mpr hA), if_pos hD]

/-- The `D > 0` branch of a guarded quadratic. -/
theorem roots_two (A B C : F) (sq : F → F) (hA : 1e-12 ≤ |A|) (hD : 1e-12 ≤ B*B - 4*A*C) :
    (if |A| < 1e-12 then [-C/B]
      else if |B*B - 4*A*C| < 1e-12 then [-B/(2*A)]
      else if B*B - 4*A*C > 0 then
        [(-B - sq (B*B - 4*A*C))/(2*A), (-B + sq (B*B - 4*A*C))/(2*A)]
      else [])
      = [(-B - sq (B*B - 4*A*C))/(2*A), (-B + sq (B*B - 4*A*C))/(2*A)] := by
  have hpos : B*B - 4*A*C > 0 := lt_of_lt_of_le (by norm_num) hD
  rw [if_neg (not_lt.mpr hA), if_neg (not_lt.mpr (hD.trans (le_abs_self _))), if_pos hpos]

/-- The `D > 0` branch of the quadratic of `solveTheta3Case2`. -/
theorem roots_two_unguarded (A B C : F) (sq : F → F) (hD : 1e-12 ≤ B*B - 4*A*C) :
    (if |B*B - 4*A*C| < 1e-12 then [-B/(2*A)]
      else if B*B - 4*A*C > 0 then
        [(-B - sq (B*B - 4*A*C))/(2*A), (-B + sq (B*B - 4*A*C))/(2*A)]
      else [])
      = [(-B - sq (B*B - 4*A*C))/(2*A), (-B + sq (B*B - 4*A*C))/(2*A)] := by
  have hpos : B*B - 4*A*C > 0 := lt_of_lt_of_le (by norm_num) hD
  rw [if_neg (not_lt.mpr (hD.trans (le_abs_self _))), if_pos hpos]

theorem solveTheta3Case1_eq_map (m : Extern F) (s : PieperSolver F) (r : F) :
    solveTheta3Case1 m s r
      = (if |solveTheta3Case1.a s r| < 1e-12 then [-solveTheta3Case1.c s r/solveTheta3Case1.b s r]
          else if |solveTheta3Case1.b s r*solveTheta3Case1.b s r
              - 4*solveTheta3Case1.a s r*solveTheta3Case1.c s r| < 1e-12 then
            [-solveTheta3Case1.b s r/(2*solveTheta3Case1.a s r)]
          else if solveTheta3Case1.b s r*solveTheta3Case1.b s r
              - 4*solveTheta3Case1.a s r*solveTheta3Case1.c s r > 0 then
            [(-solveTheta3Case1.b s r - m.sqrt (solveTheta3Case1.b s r*solveTheta3Case1.b s r
                - 4*solveTheta3Case1.a s r*solveTheta3Case1.c s r))/(2*solveTheta3Case1.a s r),
             (-solveTheta3Case1.b s r + m.sqrt (solveTheta3Case1.b s r*solveTheta3Case1.b s r
                - 4*solveTheta3Case1.a s r*solveTheta3Case1.c s r))/(2*solveTheta3Case1.a s r)]
          else []).map (halfAngle m) := rfl

theorem solveTheta3Case2_eq_map (m : Extern F) (s : PieperSolver F) (z : F) :
    solveTheta3Case2 m s z
      = (if |solveTheta3Case2.b s z*solveTheta3Case2.b s z
              - 4*solveTheta3Case2.a s z*solveTheta3Case2.c s z| < 1e-12 then
            [-solveTheta3Case2.b s z/(2*solveTheta3Case2.a s z)]
          else if solveTheta3Case2.b s z*solveTheta3Case2.b s z
              - 4*solveTheta3Case2.a s z*solveTheta3Case2.c s z > 0 then
            [(-solveTheta3Case2.b s z - m.sqrt (solveTheta3Case2.b s z*solveTheta3Case2.b s z
                - 4*solveTheta3Case2.a s z*solveTheta3Case2.c s z))/(2*solveTheta3Case2.a s z),
             (-solveTheta3Case2.b s z + m.sqrt (solveTheta3Case2.b s z*solveTheta3Case2.b s z
                - 4*solveTheta3Case2.a s z*solveTheta3Case2.c s z))/(2*solveTheta3Case2.a s z)]
          else []).map (halfAngle m) := rfl

theorem solveTheta2Case1_eq_map (m : Extern F) (s : PieperSolver F) (z theta3 A B C : F)
    (hA : A = solveTheta2Case1.a s z (m.cos theta3) (m.sin theta3))
    (hB : B = solveTheta2Case1.b s z (m.cos theta3) (m.sin theta3))
    (hC : C = solveTheta2Case1.c s z (m.cos theta3) (m.sin theta3)) :
    solveTheta2Case1 m s z theta3
      = (if |A| < 1e-12 then [-C/B]
          else if |B*B - 4*A*C| < 1e-12 then [-B/(2*A)]
          else if B*B - 4*A*C > 0 then
            [(-B - m.sqrt (B*B - 4*A*C))/(2*A), (-B + m.sqrt (B*B - 4*A*C))/(2*A)]
          else []).map (halfAngle m) := by
  subst hA hB hC
  rfl

theorem solveTheta2Case2_eq_map (m : Extern F) (s : PieperSolver F) (r theta3 A B C : F)
    (hA : A = solveTheta2Case2.a s r (m.cos theta3) (m.sin theta3))
    (hB : B = solveTheta2Case2.b s r (m.cos theta3) (m.sin theta3))
    (hC : C = solveTheta2Case2.c s r (m.cos theta3) (m.sin theta3)) :
    solveTheta2Case2 m s r theta3
      = (if |A| < 1e-12 then [-C/B]
          else if |B*B - 4*A*C| < 1e-12 then [-B/(2*A)]
          else if B*B - 4*A*C > 0 then
            [(-B - m.sqrt (B*B - 4*A*C))/(2*A), (-B + m.sqrt (B*B - 4*A*C))/(2*A)]
          else []).map (halfAngle m) := by
  subst hA hB hC
  rfl

theorem repeated_root_value (A B C : F) (hA : 1e-12 ≤ |A|) :
    A*((-B/(2*A))*(-B/(2*A))) + B*(-B/(2*A)) + C = -(B*B - 4*A*C)/(4*A) := by
  have hA0 : A ≠ 0 := by
    intro h
    rw [h, abs_zero] at hA
    exact absurd hA (by norm_num)
  field_simp
  ring

end Quadratics

section RealRoots

open PieperSolver

theorem twoRootResult_of_roots (len : (Fin 3 → ℝ) → ℝ)
    (eig : Matrix (Fin 4) (Fin 4) ℝ → Fin 4 → ℝ × ℝ) (A B C : ℝ) (result : List ℝ)
    (hA : 1e-12 ≤ |A|) (hD : 1e-12 ≤ B*B - 4*A*C)
    (hres : result = [halfAngle (Extern.realWith len eig)
        ((-B - Real.sqrt (B*B - 4*A*C))/(2*A)),
      halfAngle (Extern.realWith len eig) ((-B + Real.sqrt (B*B - 4*A*C))/(2*A))]) :
    TwoRootResult (Extern.realWith len eig) A B C result := by
  have hA0 : A ≠ 0 := by
    intro h
    rw [h, abs_zero] at hA
    exact absurd hA (by norm_num)
  have hDpos : 0 < B*B - 4*A*C := lt_of_lt_of_le (by norm_num) hD
  have hw : 0 < Real.sqrt (B*B - 4*A*C) := Real.sqrt_pos.mpr hDpos
  have hroots := quadratic_root_of_sq A B C (Real.sqrt (B*B - 4*A*C)) hA0
    (Real.mul_self_sqrt hDpos.le)
  refine ⟨hres, ?_, hroots.1, hroots.2⟩
  intro h
  have h2 : -B - Real.sqrt (B*B - 4*A*C) = -B + Real.sqrt (B*B - 4*A*C) :=
    (div_left_inj' (mul_ne_zero two_ne_zero hA0)).mp h
  linarith

end RealRoots

section HalfAngle

open PieperSolver

variable (len : (Fin 3 → ℝ) → ℝ) (eig : Matrix (Fin 4) (Fin 4) ℝ → Fin 4 → ℝ × ℝ)

theorem real_halfAngle_range (u : ℝ) :
    -Real.pi < halfAngle (Extern.realWith len eig) u ∧
    halfAngle (Extern.realWith len eig) u < Real.pi := by
  have hW : 0 < 1 + u*u := by nlinarith [mul_self_nonneg u]
  refine ⟨Complex.neg_pi_lt_arg _, lt_of_le_of_ne (Complex.arg_le_pi _) ?_⟩
  intro h
  have hc := (real_cos_sin_halfAngle len eig u).1
  rw [show halfAngle (Extern.realWith len eig) u = Real.pi from h, Real.cos_pi] at hc
  have h2 : (-1 : ℝ) * (1 + u*u) = 1 - u*u := by
    rw [hc, div_mul_cancel₀ _ hW.ne']
  linarith

/-- The tangent of half the back-substituted angle is the substitution
variable. -/
theorem real_tan_halfAngle (u : ℝ) :
    Real.tan (halfAngle (Extern.realWith len eig) u / 2) = u := by
  have hW : 0 < 1 + u*u := by nlinarith [mul_self_nonneg u]
  obtain ⟨hlo, hhi⟩ := real_halfAngle_range len eig u
  obtain ⟨hc, hs⟩ := real_cos_sin_halfAngle len eig u
  have hcpos : 0 < Real.cos (halfAngle (Extern.realWith len eig) u / 2) :=
    Real.cos_pos_of_mem_Ioo ⟨by linarith, by linarith⟩
  have h2 : halfAngle (Extern.realWith len eig) u
      = 2 * (halfAngle (Extern.realWith len eig) u / 2) := by ring
  rw [h2, Real.cos_two_mul] at hc
  rw [h2, Real.sin_two_mul] at hs
  rw [Real.tan_eq_sin_div_cos, div_eq_iff hcpos.ne']
  have hc2 : Real.cos (halfAngle (Extern.realWith len eig) u / 2) ^ 2 * (1 + u*u) = 1 := by
    have := congrArg (fun t => t * (1 + u*u)) hc
    simp only [div_mul_cancel₀ _ hW.ne'] at this
    linarith
  have hs2 : Real.sin (halfAngle (Extern.realWith len eig) u / 2)
      * Real.cos (halfAngle (Extern.realWith len eig) u / 2) * (1 + u*u) = u := by
    have := congrArg (fun t => t * (1 + u*u)) hs
    simp only [div_mul_cancel₀ _ hW.ne'] at this
    linarith
  have hne : Real.cos (halfAngle (Extern.realWith len eig) u / 2) * (1 + u*u) ≠ 0 :=
    mul_ne_zero hcpos.ne' hW.ne'
  apply mul_right_cancel₀ hne
  linear_combination hs2 - u * hc2

end HalfAngle

section PowerLoop

variable {F : Type} [LinearOrderedField F]

theorem foldl_mul_eq_pow (arg : F) (n : Nat) :
    (List.range n).foldl (fun res _ => res * arg) arg = arg ^ (n + 1) := by
  induction n with
  | zero => simp
  | succ k ih =>
    rw [List.range_succ, List.foldl_append, ih, List.foldl_cons, List.foldl_nil]
    ring

end PowerLoop

section Companion

open PieperSolver Polynomial

theorem det_fin_four {R : Type} [CommRing R] (M : Matrix (Fin 4) (Fin 4) R) :
    M.det
      = M 0 0 * (M 1 1 * M 2 2 * M 3 3 - M 1 1 * M 2 3 * M 3 2 - M 1 2 * M 2 1 * M 3 3
          + M 1 2 * M 2 3 * M 3 1 + M 1 3 * M 2 1 * M 3 2 - M 1 3 * M 2 2 * M 3 1)
        - M 0 1 * (M 1 0 * M 2 2 * M 3 3 - M 1 0 * M 2 3 * M 3 2 - M 1 2 * M 2 0 * M 3 3
          + M 1 2 * M 2 3 * M 3 0 + M 1 3 * M 2 0 * M 3 2 - M 1 3 * M 2 2 * M 3 0)
        + M 0 2 * (M 1 0 * M 2 1 * M 3 3 - M 1 0 * M 2 3 * M 3 1 - M 1 1 * M 2 0 * M 3 3
          + M 1 1 * M 2 3 * M 3 0 + M 1 3 * M 2 0 * M 3 1 - M 1 3 * M 2 1 * M 3 0)
        - M 0 3 * (M 1 0 * M 2 1 * M 3 2 - M 1 0 * M 2 2 * M 3 1 - M 1 1 * M 2 0 * M 3 2
          + M 1 1 * M 2 2 * M 3 0 + M 1 2 * M 2 0 * M 3 1 - M 1 2 * M 2 1 * M 3 0) := by
  have h00 : Fin.succAbove (0 : Fin 4) (0 : Fin 3) = 1 := rfl
  have h01 : Fin.succAbove (0 : Fin 4) (1 : Fin 3) = 2 := rfl
  have h02 : Fin.succAbove (0 : Fin 4) (2 : Fin 3) = 3 := rfl
  have h10 : Fin.succAbove (1 : Fin 4) (0 : Fin 3) = 0 := rfl
  have h11 : Fin.succAbove (1 : Fin 4) (1 : Fin 3) = 2 := rfl
  have h12 : Fin.succAbove (1 : Fin 4) (2 : Fin 3) = 3 := rfl
  have h20 : Fin.succAbove (2 : Fin 4) (0 : Fin 3) = 0 := rfl
  have h21 : Fin.succAbove (2 : Fin 4) (1 : Fin 3) = 1 := rfl
  have h22 : Fin.succAbove (2 : Fin 4) (2 : Fin 3) = 3 := rfl
  have h30 : Fin.succAbove (3 : Fin 4) (0 : Fin 3) = 0 := rfl
  have h31 : Fin.succAbove (3 : Fin 4) (1 : Fin 3) = 1 := rfl
  have h32 : Fin.succAbove (3 : Fin 4) (2 : Fin 3) = 2 := rfl
  have hs0 : Fin.succ (0 : Fin 3) = 1 := rfl
  have hs1 : Fin.succ (1 : Fin 3) = 2 := rfl
  have hs2 : Fin.succ (2 : Fin 3) = 3 := rfl
  have hv0 : ((0 : Fin 4) : Nat) = 0 := rfl
  have hv1 : ((1 : Fin 4) : Nat) = 1 := rfl
  have hv2 : ((2 : Fin 4) : Nat) = 2 := rfl
  have hv3 : ((3 : Fin 4) : Nat) = 3 := rfl
  rw [Matrix.det_succ_row_zero, Fin.sum_univ_four]
  simp only [Matrix.det_fin_three, Matrix.submatrix_apply, h00, h01, h02, h10, h11, h12, h20,
    h21, h22, h30, h31, h32, hs0, hs1, hs2, hv0, hv1, hv2, hv3]
  ring

end Companion

section CompanionMatrix

open PieperSolver Polynomial

variable {F : Type} [LinearOrderedField F] (s : PieperSolver F)

theorem fSolve_A_00 : fSolve.A s 0 0 = -s.b/s.a := rfl
theorem fSolve_A_01 : fSolve.A s 0 1 = -s.c/s.a := rfl
theorem fSolve_A_02 : fSolve.A s 0 2 = -s.d/s.a := rfl
theorem fSolve_A_03 : fSolve.A s 0 3 = -s.e/s.a := rfl
theorem fSolve_A_10 : fSolve.A s 1 0 = 1 := rfl
theorem fSolve_A_11 : fSolve.A s 1 1 = 0 := rfl
theorem fSolve_A_12 : fSolve.A s 1 2 = 0 := rfl
theorem fSolve_A_13 : fSolve.A s 1 3 = 0 := rfl
theorem fSolve_A_20 : fSolve.A s 2 0 = 0 := rfl
theorem fSolve_A_21 : fSolve.A s 2 1 = 1 := rfl
theorem fSolve_A_22 : fSolve.A s 2 2 = 0 := rfl
theorem fSolve_A_23 : fSolve.A s 2 3 = 0 := rfl
theorem fSolve_A_30 : fSolve.A s 3 0 = 0 := rfl
theorem fSolve_A_31 : fSolve.A s 3 1 = 0 := rfl
theorem fSolve_A_32 : fSolve.A s 3 2 = 1 := rfl
theorem fSolve_A_33 : fSolve.A s 3 3 = 0 := rfl

/-- The characteristic polynomial of the matrix of `fSolve()`. -/
theorem fSolve_A_charpoly :
    (fSolve.A s).charpoly
      = X^4 + C (s.b/s.a) * X^3 + C (s.c/s.a) * X^2 + C (s.d/s.a) * X + C (s.e/s.a) := by
  rw [Matrix.charpoly, det_fin_four]
  simp only [Matrix.charmatrix_apply, Matrix.diagonal_apply, fSolve_A_00, fSolve_A_01,
    fSolve_A_02, fSolve_A_03, fSolve_A_10, fSolve_A_11, fSolve_A_12, fSolve_A_13, fSolve_A_20,
    fSolve_A_21, fSolve_A_22, fSolve_A_23, fSolve_A_30, fSolve_A_31, fSolve_A_32, fSolve_A_33]
  simp only [Fin.reduceEq, if_true, if_false, map_zero, map_one, neg_div, map_neg]
  ring

end CompanionMatrix

section CompanionVectors

open PieperSolver

variable {F : Type} [LinearOrderedField F]

theorem fSolve_A_mulVec (s : PieperSolver F) (v : Fin 4 → F) :
    (fSolve.A s).mulVec v
      = ![-s.b/s.a * v 0 + -s.c/s.a * v 1 + -s.d/s.a * v 2 + -s.e/s.a * v 3, v 0, v 1, v 2] := by
  funext i
  fin_cases i <;>
    simp [Matrix.mulVec, Matrix.dotProduct, Fin.sum_univ_four, fSolve_A_00, fSolve_A_01,
      fSolve_A_02, fSolve_A_03, fSolve_A_10, fSolve_A_11, fSolve_A_12, fSolve_A_13, fSolve_A_20,
      fSolve_A_21, fSolve_A_22, fSolve_A_23, fSolve_A_30, fSolve_A_31, fSolve_A_32, fSolve_A_33]

theorem f_eq_mul_monic (s : PieperSolver F) (ha : s.a ≠ 0) (x : F) :
    s.f x = s.a * (x^4 + s.b/s.a * x^3 + s.c/s.a * x^2 + s.d/s.a * x + s.e/s.a) := by
  rw [PieperSolver.f]
  field_simp
  ring

end CompanionVectors

/-! ## The case dispatch, the quartic and the loops of the bracketing solver -/

section Dispatch

variable {F : Type} [LinearOrderedField F]

open PieperSolver

end Dispatch

section Theta1

open PieperSolver

theorem real_atan2_div_pos (len : (Fin 3 → ℝ) → ℝ) (eig : Matrix (Fin 4) (Fin 4) ℝ → Fin 4 → ℝ × ℝ)
    (y x D : ℝ) (hD : 0 < D) :
    (Extern.realWith len eig).atan2 (y / D) (x / D) = (Extern.realWith len eig).atan2 y x := by
  show Complex.arg ⟨x / D, y / D⟩ = Complex.arg ⟨x, y⟩
  have h : (⟨x / D, y / D⟩ : ℂ) = ((D⁻¹ : ℝ) : ℂ) * ⟨x, y⟩ := by
    apply Complex.ext
    · simp only [Complex.mul_re, Complex.ofReal_re, Complex.ofReal_im, zero_mul, sub_zero]
      ring
    · simp only [Complex.mul_im, Complex.ofReal_re, Complex.ofReal_im, zero_mul, add_zero]
      ring
  rw [h, Complex.arg_real_mul _ (inv_pos.mpr hD)]

end Theta1

section Quartic

open PieperSolver

theorem f_eq_poly {F : Type} [LinearOrderedField F] (s : PieperSolver F) (x : F) :
    s.f x = s.a*x^4 + s.b*x^3 + s.c*x^2 + s.d*x + s.e := by
  simp only [f]
  ring

theorem df_eq_poly {F : Type} [LinearOrderedField F] (s : PieperSolver F) (x : F) :
    s.df x = 4*s.a*x^3 + 3*s.b*x^2 + 2*s.c*x + s.d := by
  simp only [df]
  ring

theorem ddf_eq_poly {F : Type} [LinearOrderedField F] (s : PieperSolver F) (x : F) :
    s.ddf x = 12*s.a*x^2 + 6*s.b*x + 2*s.c := by
  simp only [ddf]
  ring

theorem hasDerivAt_f (s : PieperSolver ℝ) (x : ℝ) : HasDerivAt s.f (s.df x) x := by
  have h : s.f = fun x => s.a*x^4 + s.b*x^3 + s.c*x^2 + s.d*x + s.e := funext (f_eq_poly s)
  rw [h, df_eq_poly]
  have h4 := (hasDerivAt_pow 4 x).const_mul s.a
  have h3 := (hasDerivAt_pow 3 x).const_mul s.b
  have h2 := (hasDerivAt_pow 2 x).const_mul s.c
  have h1 := (hasDerivAt_id x).const_mul s.d
  have h0 := (((h4.add h3).add h2).add h1).add_const s.e
  convert h0 using 1
  simp only [Nat.cast_ofNat, Nat.add_one_sub_one, pow_one, mul_one]
  ring

theorem hasDerivAt_df (s : PieperSolver ℝ) (x : ℝ) : HasDerivAt s.df (s.ddf x) x := by
  have h : s.df = fun x => 4*s.a*x^3 + 3*s.b*x^2 + 2*s.c*x + s.d := funext (df_eq_poly s)
  rw [h, ddf_eq_poly]
  have h3 := (hasDerivAt_pow 3 x).const_mul (4*s.a)
  have h2 := (hasDerivAt_pow 2 x).const_mul (3*s.b)
  have h1 := (hasDerivAt_id x).const_mul (2*s.c)
  have h0 := ((h3.add h2).add h1).add_const s.d
  convert h0 using 1
  simp only [Nat.cast_ofNat, Nat.add_one_sub_one, pow_one, mul_one]
  ring

theorem ddf_quadratic_root {F : Type} [LinearOrderedField F] (s : PieperSolver F) (ha : s.a ≠ 0)
    (q sgn : F) (hq : q*q = (6*s.b)*(6*s.b) - 4*(12*s.a)*(2*s.c)) (hsgn : sgn = 1 ∨ sgn = -1) :
    s.ddf ((-(6*s.b) + sgn*q)/(2*(12*s.a))) = 0 := by
  have h : s.ddf ((-(6*s.b) + sgn*q)/(2*(12*s.a)))
      = (sgn*sgn*(q*q) - ((6*s.b)*(6*s.b) - 4*(12*s.a)*(2*s.c)))/(48*s.a) := by
    rw [ddf_eq_poly]
    field_simp
    ring
  have h1 : sgn*sgn = 1 := by
    rcases hsgn with h | h <;> rw [h] <;> norm_num
  rw [h, h1, one_mul, hq, sub_self, zero_div]

theorem setupCoefficients_update {F : Type} [LinearOrderedField F] (s : PieperSolver F)
    (r z a' b' c' d' e' : F) :
    setupCoefficients { s with a := a', b := b', c := c', d := d', e := e' } r z
      = setupCoefficients s r z := rfl

end Quartic

section Loops

variable {F : Type} [LinearOrderedField F]

open PieperSolver

theorem fSolve3_bisect_stop (s : PieperSolver F) (fuel : Nat) (s1 s2 f1 x : F)
    (h : ¬ 1e-12 < |s2 - s1|) : fSolve3.bisect s fuel s1 s2 f1 x = some x := by
  cases fuel <;> simp only [fSolve3.bisect, h, if_false]

theorem fSolve3_bisect_step (s : PieperSolver F) (fuel : Nat) (s1 s2 f1 x : F)
    (h : 1e-12 < |s2 - s1|) :
    fSolve3.bisect s (fuel + 1) s1 s2 f1 x
      = if s.f x * f1 < 0 then fSolve3.bisect s fuel s1 x f1 ((s1 + x)/2)
        else fSolve3.bisect s fuel x s2 (s.f x) ((x + s2)/2) := by
  simp only [fSolve3.bisect, h, if_true]

end Loops

section Concrete

open PieperSolver Instances

theorem quarticA_f (x : ℝ) : quarticA.f x = x^4 + 2*x := by
  simp only [f, quarticA]
  ring

theorem quarticB_f (x : ℝ) : quarticB.f x = x^4 - 6*x^2 + 8*x - 3 := by
  simp only [f, quarticB]
  ring

theorem quarticA_f_nonneg (x : ℝ) (h : 0 ≤ x) : 0 ≤ quarticA.f x := by
  rw [quarticA_f]
  positivity

theorem quarticA_root_nonpos (rho : ℝ) (h : quarticA.f rho = 0) : rho ≤ 0 := by
  by_contra hpos
  rw [not_le] at hpos
  rw [quarticA_f] at h
  have : 0 < rho^4 + 2*rho := by positivity
  linarith

theorem two_pow_39_lt : (1e-12 : ℝ) < 1/2^39 := by norm_num

theorem two_pow_40_le : (1 : ℝ)/2^40 ≤ 1e-12 := by norm_num

theorem quarticA_walk : ∀ (j k fuel : Nat) (f1 : ℝ), j + k = 40 → j ≤ fuel → 0 ≤ f1 →
    fSolve3.bisect quarticA fuel (1 - 1/2^k) 1 f1 (1 - 1/2^(k+1)) = some (1 - 1/2^41) := by
  intro j
  induction j with
  | zero =>
    intro k fuel f1 hk _ _
    obtain rfl : k = 40 := by omega
    rw [fSolve3_bisect_stop]
    rw [sub_sub_cancel, abs_of_pos (by positivity)]
    exact not_lt.mpr two_pow_40_le
  | succ j ih =>
    intro k fuel f1 hk hfuel hf1
    obtain ⟨fuel1, rfl⟩ : ∃ fuel1, fuel = fuel1 + 1 := ⟨fuel - 1, by omega⟩
    have hk39 : k ≤ 39 := by omega
    have hc : (1e-12 : ℝ) < |1 - (1 - 1/2^k)| := by
      rw [sub_sub_cancel, abs_of_pos (by positivity)]
      refine lt_of_lt_of_le two_pow_39_lt ?_
      exact one_div_le_one_div_of_le (by positivity)
        (pow_le_pow_right₀ (by norm_num) hk39)
    have hx : (0 : ℝ) ≤ 1 - 1/2^(k+1) := by
      rw [sub_nonneg, div_le_one (by positivity)]
      exact one_le_pow₀ (by norm_num)
    rw [fSolve3_bisect_step _ _ _ _ _ _ hc,
      if_neg (not_lt.mpr (mul_nonneg (quarticA_f_nonneg _ hx) hf1))]
    have hmid : ((1 : ℝ) - 1/2^(k+1) + 1)/2 = 1 - 1/2^(k+1+1) := by
      rw [pow_succ 2 (k+1)]
      field_simp
      ring
    rw [hmid]
    exact ih (k+1) fuel1 _ (by omega) (by omega) (quarticA_f_nonneg _ hx)

end Concrete

/-! ## The claims -/

section Claims

variable {F : Type} [LinearOrderedField F]

open PieperSolver

theorem solve_eq_withHomeOffsets (m : Extern F) (s : PieperSolver F) (T06 : HTransform3D F) :
    solve m s T06 = withHomeOffsets s (solve.result m s T06).1 (solve.result m s T06).2 := by
  rw [solve_eq, withHomeOffsets]

theorem solve_isSome (m : Extern F) (s : PieperSolver F) (T06 : HTransform3D F)
    (h6 : 6 ≤ s._dHTable.size) : (solve m s T06).isSome := by
  rw [solve_eq, if_pos (Or.inr h6)]; rfl

theorem solve_some_iff (m : Extern F) (s : PieperSolver F) (T06 : HTransform3D F)
    (res : List (Q F)) (s1 : PieperSolver F) (h : solve m s T06 = some (res, s1)) :
    res = (solve.result m s T06).1.map (homeCorrected s) ∧ s1 = (solve.result m s T06).2
      ∧ ((solve.result m s T06).1 = [] ∨ 6 ≤ s._dHTable.size) := by
  rw [solve_eq] at h
  split_ifs at h with hc
  simp only [Option.some.injEq, Prod.mk.injEq] at h
  exact ⟨h.1.symm, h.2.symm, hc⟩

theorem solve_case1_eq (m : Extern F) (s : PieperSolver F) (T06 : HTransform3D F)
    (h1 : s.a1 = 0) : solve m s T06 = withHomeOffsets s (case1Vectors m s T06) s := by
  rw [solve_eq_withHomeOffsets, solve_result_case1 m s T06 h1]

theorem solve_case2_eq (m : Extern F) (s : PieperSolver F) (T06 : HTransform3D F)
    (h1 : s.a1 ≠ 0) (h2 : |s.salpha1| < 1e-12) :
    solve m s T06 = withHomeOffsets s (case2Vectors m s T06) s := by
  rw [solve_eq_withHomeOffsets, solve_result_case2 m s T06 h1 h2]

theorem solve_case3_eq (m : Extern F) (s : PieperSolver F) (T06 : HTransform3D F)
    (h1 : s.a1 ≠ 0) (h2 : ¬ |s.salpha1| < 1e-12) :
    solve m s T06 = withHomeOffsets s (case3Vectors m s T06)
      (setupCoefficients s (m.getLengh T06.getPosition) (T06.getPosition 2)) := by
  rw [solve_eq_withHomeOffsets, solve_result_case3 m s T06 h1 h2]

/-- C2: `solve` takes the case-1 path when `a1 == 0` (whatever `salpha1` is), the
case-2 path when `a1 != 0` and `|salpha1| < 1e-12`, and the case-3 path
otherwise; in each case the returned vectors are the home-corrected wrist
branches of the triples obtained from the solvers of that case, `theta1`
always coming from `solveTheta1`. -/
theorem solve_case_dispatch (m : Extern F) (s : PieperSolver F) (T06 : HTransform3D F) :
    (s.a1 = 0 → solve m s T06 = withHomeOffsets s (case1Vectors m s T06) s) ∧
    (s.a1 ≠ 0 → |s.salpha1| < 1e-12 →
        solve m s T06 = withHomeOffsets s (case2Vectors m s T06) s) ∧
    (s.a1 ≠ 0 → ¬ |s.salpha1| < 1e-12 →
        solve m s T06 = withHomeOffsets s (case3Vectors m s T06)
          (setupCoefficients s (m.getLengh T06.getPosition) (T06.getPosition 2))) :=
  ⟨solve_case1_eq m s T06, solve_case2_eq m s T06, solve_case3_eq m s T06⟩

theorem homeCorrected_size (s : PieperSolver F) (q : Q F) (hq : q.size = 6)
    (h6 : 6 ≤ s._dHTable.size) : (homeCorrected s q).size = 6 := by
  simp only [Q.size, DHTable.size] at *
  simp only [homeCorrected, List.length_zipWith]
  omega

/-- C5: whatever the pose and the case, the number of joint vectors `solve`
returns is even and at most 8, and each returned vector has 6 components;
`solve` does return when the DH table has at least six rows. -/
theorem solve_count_even_le_eight (m : Extern F) (s : PieperSolver F) (T06 : HTransform3D F) :
    (6 ≤ s._dHTable.size → (solve m s T06).isSome) ∧
    ∀ res s1, solve m s T06 = some (res, s1) →
      Even res.length ∧ res.length ≤ 8 ∧ ∀ q ∈ res, q.size = 6 := by
  refine ⟨solve_isSome m s T06, fun res s1 h => ?_⟩
  obtain ⟨hres, -, hc⟩ := solve_some_iff m s T06 res s1 h
  have hlen := solve_result_length_even_le m s T06
  subst hres
  rw [List.length_map]
  refine ⟨hlen.1, hlen.2, fun q hq => ?_⟩
  obtain ⟨q0, hq0, rfl⟩ := List.mem_map.mp hq
  rcases hc with hc | hc
  · rw [hc] at hq0; simp at hq0
  · exact homeCorrected_size s q0 (solve_result_size m s T06 q0 hq0) hc

/-- C6: in cases 1 and 2 the number of vectors `solve` returns is twice the
sum, over the `theta3` candidates, of the number of `theta2` candidates found
for that `theta3`. -/
theorem solve_case12_count (m : Extern F) (s : PieperSolver F) (T06 : HTransform3D F) :
    (s.a1 = 0 → ∀ res s1, solve m s T06 = some (res, s1) →
      res.length = 2 * ((solveTheta3Case1 m s (m.getLengh T06.getPosition)).map fun theta3 =>
        (solveTheta2Case1 m s (T06.getPosition 2) theta3).length).sum) ∧
    (s.a1 ≠ 0 → |s.salpha1| < 1e-12 → ∀ res s1, solve m s T06 = some (res, s1) →
      res.length = 2 * ((solveTheta3Case2 m s (T06.getPosition 2)).map fun theta3 =>
        (solveTheta2Case2 m s (m.getLengh T06.getPosition) theta3).length).sum) ∧
    (6 ≤ s._dHTable.size → (solve m s T06).isSome) := by
  refine ⟨fun h1 res s1 h => ?_, fun h1 h2 res s1 h => ?_, solve_isSome m s T06⟩
  · obtain ⟨hres, -, -⟩ := solve_some_iff m s T06 res s1 h
    rw [hres, List.length_map, solve_result_case1 m s T06 h1, case1Vectors_length]
  · obtain ⟨hres, -, -⟩ := solve_some_iff m s T06 res s1 h
    rw [hres, List.length_map, solve_result_case2 m s T06 h1 h2, case2Vectors_length]

theorem eps_pos : (0 : F) < 1e-12 := by norm_num

theorem solveTheta3Case1_eq_nil (m : Extern F) (s : PieperSolver F) (r : F)
    (hA : 1e-12 ≤ |solveTheta3Case1.a s r|)
    (hD : solveTheta3Case1.b s r * solveTheta3Case1.b s r
        - 4 * solveTheta3Case1.a s r * solveTheta3Case1.c s r ≤ -1e-12) :
    solveTheta3Case1 m s r = [] := by
  have he : (0 : F) < 1e-12 := eps_pos
  have h1 : ¬ |solveTheta3Case1.a s r| < 1e-12 := not_lt.mpr hA
  have h2 : ¬ |solveTheta3Case1.b s r * solveTheta3Case1.b s r
        - 4 * solveTheta3Case1.a s r * solveTheta3Case1.c s r| < 1e-12 := by
    rw [abs_lt]; intro h; linarith [h.1]
  have h3 : ¬ solveTheta3Case1.b s r * solveTheta3Case1.b s r
        - 4 * solveTheta3Case1.a s r * solveTheta3Case1.c s r > 0 := by
    intro h; linarith
  simp only [solveTheta3Case1, if_neg h1, if_neg h2, if_neg h3, List.map_nil]

theorem solveTheta3Case2_eq_nil (m : Extern F) (s : PieperSolver F) (z : F)
    (hD : solveTheta3Case2.b s z * solveTheta3Case2.b s z
        - 4 * solveTheta3Case2.a s z * solveTheta3Case2.c s z ≤ -1e-12) :
    solveTheta3Case2 m s z = [] := by
  have he : (0 : F) < 1e-12 := eps_pos
  have h2 : ¬ |solveTheta3Case2.b s z * solveTheta3Case2.b s z
        - 4 * solveTheta3Case2.a s z * solveTheta3Case2.c s z| < 1e-12 := by
    rw [abs_lt]; intro h; linarith [h.1]
  have h3 : ¬ solveTheta3Case2.b s z * solveTheta3Case2.b s z
        - 4 * solveTheta3Case2.a s z * solveTheta3Case2.c s z > 0 := by
    intro h; linarith
  simp only [solveTheta3Case2, if_neg h2, if_neg h3, List.map_nil]

/-- C7: when the `theta3` half-angle quadratic has `|A| >= 1e-12` and
discriminant `B^2 - 4AC <= -1e-12`, the `theta3` solver of case 1 (resp.
case 2) returns the empty list and `solve` returns the empty list, with no
error and the solver unchanged. -/
theorem solve_negative_discriminant_empty (m : Extern F) (s : PieperSolver F)
    (T06 : HTransform3D F) :
    (s.a1 = 0 →
      1e-12 ≤ |solveTheta3Case1.a s (m.getLengh T06.getPosition)| →
      solveTheta3Case1.b s (m.getLengh T06.getPosition)
          * solveTheta3Case1.b s (m.getLengh T06.getPosition)
        - 4 * solveTheta3Case1.a s (m.getLengh T06.getPosition)
          * solveTheta3Case1.c s (m.getLengh T06.getPosition) ≤ -1e-12 →
      solveTheta3Case1 m s (m.getLengh T06.getPosition) = [] ∧
        solve m s T06 = some ([], s)) ∧
    (s.a1 ≠ 0 → |s.salpha1| < 1e-12 →
      1e-12 ≤ |solveTheta3Case2.a s (T06.getPosition 2)| →
      solveTheta3Case2.b s (T06.getPosition 2) * solveTheta3Case2.b s (T06.getPosition 2)
        - 4 * solveTheta3Case2.a s (T06.getPosition 2)
          * solveTheta3Case2.c s (T06.getPosition 2) ≤ -1e-12 →
      solveTheta3Case2 m s (T06.getPosition 2) = [] ∧
        solve m s T06 = some ([], s)) := by
  refine ⟨fun h1 hA hD => ?_, fun h1 h2 _ hD => ?_⟩
  · have hnil := solveTheta3Case1_eq_nil m s _ hA hD
    refine ⟨hnil, ?_⟩
    rw [solve_eq_withHomeOffsets, solve_result_case1 m s T06 h1]
    simp [case1Vectors, hnil, withHomeOffsets]
  · have hnil := solveTheta3Case2_eq_nil m s _ hD
    refine ⟨hnil, ?_⟩
    rw [solve_eq_withHomeOffsets, solve_result_case2 m s T06 h1 h2]
    simp [case2Vectors, hnil, withHomeOffsets]

/-- C8: every vector `solve` returns is the vector produced by
`solveTheta1/2/3/456` at the same position of the raw result, with the home
angle `_dHTable(i).theta()` subtracted from component `i` for `i = 0..5`;
adding the home angles back recovers the raw angles. -/
theorem solve_subtracts_home (m : Extern F) (s : PieperSolver F) (T06 : HTransform3D F)
    (res : List (Q F)) (s1 : PieperSolver F) (h : solve m s T06 = some (res, s1)) :
    res.length = (solve.result m s T06).1.length ∧
    ∀ (k : Nat) (q : Q F), (solve.result m s T06).1[k]? = some q →
      ∃ q1 : Q F, res[k]? = some q1 ∧ q1.size = 6 ∧
        ∀ i, i < 6 → ∃ p w, s._dHTable.get i = some p ∧ q[i]? = some w ∧
          q1[i]? = some (w - p.theta) ∧ (w - p.theta) + p.theta = w := by
  obtain ⟨hres, -, hc⟩ := solve_some_iff m s T06 res s1 h
  subst hres
  refine ⟨List.length_map _ _, fun k q hk => ?_⟩
  have hmem : q ∈ (solve.result m s T06).1 := List.getElem?_mem hk
  have hq6 : q.length = 6 := solve_result_size m s T06 q hmem
  have h6 : 6 ≤ s._dHTable._dHParam.length := by
    rcases hc with hc | hc
    · rw [hc] at hmem; simp at hmem
    · exact hc
  refine ⟨homeCorrected s q, by simp [hk], ?_, fun i hi => ?_⟩
  · simp only [Q.size, homeCorrected, List.length_zipWith]; omega
  · have hiq : i < q.length := by omega
    have hit : i < s._dHTable._dHParam.length := by omega
    refine ⟨s._dHTable._dHParam[i], q[i], ?_, ?_, ?_, by ring⟩
    · simp [DHTable.get, hit]
    · simp [hiq]
    · simp [homeCorrected, List.getElem?_zipWith, hiq, hit]

theorem real_atan2_range (y x : ℝ) :
    -Real.pi < Extern.real.atan2 y x ∧ Extern.real.atan2 y x ≤ Real.pi :=
  ⟨Complex.neg_pi_lt_arg _, Complex.arg_le_pi _⟩

theorem real_theta46_range (s : PieperSolver ℝ) (T46 : HTransform3D ℝ) :
    (-Real.pi < (solveTheta456.theta46 Extern.real s T46).1 ∧
      (solveTheta456.theta46 Extern.real s T46).1 ≤ Real.pi) ∧
    (-Real.pi < (solveTheta456.theta46 Extern.real s T46).2 ∧
      (solveTheta456.theta46 Extern.real s T46).2 ≤ Real.pi) := by
  have hpi := Real.pi_pos
  simp only [solveTheta456.theta46]
  split_ifs
  · exact ⟨⟨by simp only; linarith, by simp only; linarith⟩, real_atan2_range _ _⟩
  · exact ⟨⟨by simp only; linarith, by simp only; linarith⟩, real_atan2_range _ _⟩
  · exact ⟨real_atan2_range _ _, real_atan2_range _ _⟩
  · exact ⟨real_atan2_range _ _, real_atan2_range _ _⟩

theorem flip_range (t : ℝ) (h : -Real.pi < t ∧ t ≤ Real.pi) :
    -Real.pi < (if t > 0 then t - Real.pi else t + Real.pi) ∧
    (if t > 0 then t - Real.pi else t + Real.pi) ≤ Real.pi ∧
    |(if t > 0 then t - Real.pi else t + Real.pi) - t| = Real.pi := by
  have hpi := Real.pi_pos
  split_ifs with ht
  · refine ⟨by linarith, by linarith [h.2], ?_⟩
    rw [show t - Real.pi - t = -Real.pi by ring, abs_neg, abs_of_pos hpi]
  · push_neg at ht
    refine ⟨by linarith [h.1], by linarith, ?_⟩
    rw [show t + Real.pi - t = Real.pi by ring, abs_of_pos hpi]

/-- C10: one call of `solveTheta456` appends exactly two vectors to `result`
and keeps the earlier entries: first the primary
`(theta1, theta2, theta3, theta4, theta5, theta6)`, then the flip
`(theta1, theta2, theta3, theta4', -theta5, theta6')` with
`theta4' = theta4 - pi` if `theta4 > 0` and `theta4 + pi` otherwise (likewise
`theta6'`); over the reals `theta4'` and `theta6'` lie in `(-pi, pi]` and are
at distance exactly `pi` from `theta4`, `theta6`. -/
theorem solveTheta456_appends_primary_and_flip (s : PieperSolver ℝ) (theta1 theta2 theta3 : ℝ)
    (T06 : HTransform3D ℝ) (result : List (Q ℝ)) :
    let T46 := solveTheta456.T46 Extern.real s theta1 theta2 theta3 T06
    let theta5 := solveTheta456.theta5 Extern.real T46
    let theta4 := (solveTheta456.theta46 Extern.real s T46).1
    let theta6 := (solveTheta456.theta46 Extern.real s T46).2
    let alt4 := if theta4 > 0 then theta4 - Real.pi else theta4 + Real.pi
    let alt6 := if theta6 > 0 then theta6 - Real.pi else theta6 + Real.pi
    solveTheta456 Extern.real s theta1 theta2 theta3 T06 result
        = result ++ [[theta1, theta2, theta3, theta4, theta5, theta6],
                     [theta1, theta2, theta3, alt4, -theta5, alt6]] ∧
      (-Real.pi < alt4 ∧ alt4 ≤ Real.pi ∧ |alt4 - theta4| = Real.pi) ∧
      (-Real.pi < alt6 ∧ alt6 ≤ Real.pi ∧ |alt6 - theta6| = Real.pi) := by
  intro T46 theta5 theta4 theta6 alt4 alt6
  have hr := real_theta46_range s T46
  refine ⟨?_, flip_range theta4 hr.1, flip_range theta6 hr.2⟩
  rw [solveTheta456_eq]
  rfl

/-- C9 (as amended): a call of `solve` changes no field of the solver other
than the quartic coefficients `a, b, c, d, e`; in cases 1 and 2 it changes no
field at all, and in case 3 it leaves the solver as `setupCoefficients(r, z)`
wrote it. -/
theorem solve_changes_only_coefficients (m : Extern F) (s : PieperSolver F)
    (T06 : HTransform3D F) (res : List (Q F)) (s1 : PieperSolver F)
    (h : solve m s T06 = some (res, s1)) :
    { s1 with a := s.a, b := s.b, c := s.c, d := s.d, e := s.e } = s ∧
    (s.a1 = 0 ∨ |s.salpha1| < 1e-12 → s1 = s) ∧
    (s.a1 ≠ 0 → ¬ |s.salpha1| < 1e-12 →
      s1 = setupCoefficients s (m.getLengh T06.getPosition) (T06.getPosition 2)) := by
  obtain ⟨-, hs1, -⟩ := solve_some_iff m s T06 res s1 h
  subst hs1
  by_cases h1 : s.a1 = 0
  · rw [solve_result_case1 m s T06 h1]
    exact ⟨rfl, fun _ => rfl, fun h => absurd h1 h⟩
  · by_cases h2 : |s.salpha1| < 1e-12
    · rw [solve_result_case2 m s T06 h1 h2]
      exact ⟨rfl, fun _ => rfl, fun _ h => absurd h2 h⟩
    · rw [solve_result_case3 m s T06 h1 h2]
      refine ⟨rfl, fun h => ?_, fun _ _ => rfl⟩
      rcases h with h | h
      · exact absurd h h1
      · exact absurd h h2

/-- C3 (as amended): in case 1 the `theta3` candidates depend on the target
pose only through `r`, the length `getLengh()` of its position vector: two
poses with the same `r` give the same list of `theta3` candidates. -/
theorem theta3_case1_depends_only_on_length (m : Extern F) (s : PieperSolver F)
    (T06 T06' : HTransform3D F) (h1 : s.a1 = 0)
    (hr : m.getLengh T06.getPosition = m.getLengh T06'.getPosition) :
    solve.theta3 m s T06 = solve.theta3 m s T06' ∧
    solve.theta3 m s T06 = solveTheta3Case1 m s (m.getLengh T06.getPosition) := by
  simp only [solve.theta3, h1, if_true, hr, and_self]

/-- C11: in `solveTheta456`, whenever the computed `theta5` satisfies
`|theta5| < 1e-12` the primary vector has `theta4 = 0` and
`theta6 = atan2(-r12, r11)`, and whenever `|pi - theta5| < 1e-12` it has
`theta4 = 0` and `theta6 = atan2(r12, -r11)`, with `r11`, `r12` entries of the
rotation of `T46 = inverse(T04) * T06`; the primary vector is the one appended
first to `result`. -/
theorem solveTheta456_singular_branches (len : (Fin 3 → ℝ) → ℝ)
    (eig : Matrix (Fin 4) (Fin 4) ℝ → Fin 4 → ℝ × ℝ) (s : PieperSolver ℝ)
    (theta1 theta2 theta3 : ℝ) (T06 : HTransform3D ℝ) (result : List (Q ℝ)) :
    (|solveTheta456.theta5 (Extern.realWith len eig)
        ((solveTheta456.T04 (Extern.realWith len eig) s theta1 theta2 theta3).inverse.mul T06)|
        < 1e-12 →
      (solveTheta456 (Extern.realWith len eig) s theta1 theta2 theta3 T06 result)[result.length]?
        = some [theta1, theta2, theta3, 0,
            solveTheta456.theta5 (Extern.realWith len eig)
              ((solveTheta456.T04 (Extern.realWith len eig) s theta1 theta2 theta3).inverse.mul
                T06),
            (Extern.realWith len eig).atan2
              (-(((solveTheta456.T04 (Extern.realWith len eig) s theta1 theta2
                  theta3).inverse.mul T06).R 0 1))
              (((solveTheta456.T04 (Extern.realWith len eig) s theta1 theta2
                  theta3).inverse.mul T06).R 0 0)]) ∧
    (|Real.pi - solveTheta456.theta5 (Extern.realWith len eig)
        ((solveTheta456.T04 (Extern.realWith len eig) s theta1 theta2 theta3).inverse.mul T06)|
        < 1e-12 →
      (solveTheta456 (Extern.realWith len eig) s theta1 theta2 theta3 T06 result)[result.length]?
        = some [theta1, theta2, theta3, 0,
            solveTheta456.theta5 (Extern.realWith len eig)
              ((solveTheta456.T04 (Extern.realWith len eig) s theta1 theta2 theta3).inverse.mul
                T06),
            (Extern.realWith len eig).atan2
              (((solveTheta456.T04 (Extern.realWith len eig) s theta1 theta2
                  theta3).inverse.mul T06).R 0 1)
              (-(((solveTheta456.T04 (Extern.realWith len eig) s theta1 theta2
                  theta3).inverse.mul T06).R 0 0))]) := by
  constructor
  · intro h
    rw [solveTheta456_primary, solveTheta456.T46, theta46_singular_zero _ s _ h]
  · intro h
    rw [solveTheta456_primary, solveTheta456.T46,
      theta46_singular_pi _ s _ (not_small_of_near_pi _ h) h]

/-- C12: in `solveTheta456` the primary `theta5` is
`atan2(sqrt(r31^2 + r32^2), r33)` for the entries of `T46`; it lies in
`[0, pi]`, it is the joint-5 value of the vector appended first, and the
vector appended second has the joint-5 value `-theta5`, in `[-pi, 0]`. -/
theorem solveTheta456_theta5_range (len : (Fin 3 → ℝ) → ℝ)
    (eig : Matrix (Fin 4) (Fin 4) ℝ → Fin 4 → ℝ × ℝ) (s : PieperSolver ℝ)
    (theta1 theta2 theta3 : ℝ) (T06 : HTransform3D ℝ) (result : List (Q ℝ)) :
    let T46 := (solveTheta456.T04 (Extern.realWith len eig) s theta1 theta2 theta3).inverse.mul T06
    let theta5 := (Extern.realWith len eig).atan2
      ((Extern.realWith len eig).sqrt (T46.R 2 0 * T46.R 2 0 + T46.R 2 1 * T46.R 2 1))
      (T46.R 2 2)
    (∃ theta4 theta6 alt4 alt6,
      solveTheta456 (Extern.realWith len eig) s theta1 theta2 theta3 T06 result
        = result ++ [[theta1, theta2, theta3, theta4, theta5, theta6],
                     [theta1, theta2, theta3, alt4, -theta5, alt6]]) ∧
      0 ≤ theta5 ∧ theta5 ≤ Real.pi ∧ -Real.pi ≤ -theta5 ∧ -theta5 ≤ 0 := by
  intro T46 theta5
  have hr := real_theta5_range len eig T46
  rw [theta5_eq] at hr
  refine ⟨⟨(solveTheta456.theta46 (Extern.realWith len eig) s T46).1,
    (solveTheta456.theta46 (Extern.realWith len eig) s T46).2,
    if (solveTheta456.theta46 (Extern.realWith len eig) s T46).1 > 0
      then (solveTheta456.theta46 (Extern.realWith len eig) s T46).1 - Real.pi
      else (solveTheta456.theta46 (Extern.realWith len eig) s T46).1 + Real.pi,
    if (solveTheta456.theta46 (Extern.realWith len eig) s T46).2 > 0
      then (solveTheta456.theta46 (Extern.realWith len eig) s T46).2 - Real.pi
      else (solveTheta456.theta46 (Extern.realWith len eig) s T46).2 + Real.pi, ?_⟩,
    hr.1, hr.2, neg_le_neg hr.2, neg_nonpos.mpr hr.1⟩
  rw [solveTheta456_eq]
  rfl

/-- C13: in the non-singular branch of `solveTheta456` (`theta5 >= 1e-12` and
`pi - theta5 >= 1e-12`), with `s5 = sin(theta5)`: if `alpha5 < 0` the primary
vector has `theta4 = atan2(-r23/s5, -r13/s5)` and
`theta6 = atan2(-r32/s5, r31/s5)`; otherwise (also for `alpha5 = 0`) it has
`theta4 = atan2(r23/s5, r13/s5)` and `theta6 = atan2(r32/s5, -r31/s5)`; for the
`T46` of a rigid pose the two values of `theta4`, and the two of `theta6`,
are at distance exactly `pi`. -/
theorem solveTheta456_regular_branches (len : (Fin 3 → ℝ) → ℝ)
    (eig : Matrix (Fin 4) (Fin 4) ℝ → Fin 4 → ℝ × ℝ) (s : PieperSolver ℝ)
    (theta1 theta2 theta3 : ℝ) (T06 : HTransform3D ℝ) (result : List (Q ℝ))
    (T46 : HTransform3D ℝ) (theta5 s5 : ℝ)
    (hT46 : T46
      = (solveTheta456.T04 (Extern.realWith len eig) s theta1 theta2 theta3).inverse.mul T06)
    (h5 : theta5 = solveTheta456.theta5 (Extern.realWith len eig) T46)
    (hs5 : s5 = (Extern.realWith len eig).sin theta5)
    (hT : T06.IsRigid) (h0 : 1e-12 ≤ theta5) (hpi : 1e-12 ≤ Real.pi - theta5) :
    (s.alpha5 < 0 →
      (solveTheta456 (Extern.realWith len eig) s theta1 theta2 theta3 T06 result)[result.length]?
        = some [theta1, theta2, theta3,
            (Extern.realWith len eig).atan2 (-(T46.R 1 2) / s5) (-(T46.R 0 2) / s5), theta5,
            (Extern.realWith len eig).atan2 (-(T46.R 2 1) / s5) (T46.R 2 0 / s5)]) ∧
    (¬ s.alpha5 < 0 →
      (solveTheta456 (Extern.realWith len eig) s theta1 theta2 theta3 T06 result)[result.length]?
        = some [theta1, theta2, theta3,
            (Extern.realWith len eig).atan2 (T46.R 1 2 / s5) (T46.R 0 2 / s5), theta5,
            (Extern.realWith len eig).atan2 (T46.R 2 1 / s5) (-(T46.R 2 0) / s5)]) ∧
    |(Extern.realWith len eig).atan2 (-(T46.R 1 2) / s5) (-(T46.R 0 2) / s5)
      - (Extern.realWith len eig).atan2 (T46.R 1 2 / s5) (T46.R 0 2 / s5)| = Real.pi ∧
    |(Extern.realWith len eig).atan2 (-(T46.R 2 1) / s5) (T46.R 2 0 / s5)
      - (Extern.realWith len eig).atan2 (T46.R 2 1 / s5) (-(T46.R 2 0) / s5)| = Real.pi := by
  have hn0 : ¬ |solveTheta456.theta5 (Extern.realWith len eig) T46| < 1e-12 := by
    rw [← h5]
    exact not_lt.mpr (h0.trans (le_abs_self _))
  have hnpi : ¬ |Real.pi - solveTheta456.theta5 (Extern.realWith len eig) T46| < 1e-12 := by
    rw [← h5]
    exact not_lt.mpr (hpi.trans (le_abs_self _))
  have hrig : T46.IsRigid := by
    rw [hT46]
    exact T46_rigid len eig s theta1 theta2 theta3 T06 hT
  have hsne : s5 ≠ 0 := by
    rw [hs5, h5]
    exact real_sin_theta5_ne_zero len eig T46 hn0 hnpi
  obtain ⟨hcol, hrow⟩ := real_sin_theta5_sq len eig T46 hrig.1 hrig.2
  have hs5' : s5 = Real.sin (solveTheta456.theta5 (Extern.realWith len eig) T46) := by
    rw [hs5, h5]; rfl
  rw [← hs5'] at hcol hrow
  have hc := div_ne_zero_or _ _ s5 (ne_zero_of_sq_sum _ _ _ hcol hsne) hsne
  have hr := div_ne_zero_or _ _ s5 (ne_zero_of_sq_sum _ _ _ hrow hsne) hsne
  refine ⟨fun ha => ?_, fun ha => ?_, ?_, ?_⟩
  · rw [solveTheta456_primary, solveTheta456.T46, ← hT46,
      theta46_regular_neg _ s T46 hn0 hnpi ha, ← h5, ← hs5]
  · rw [solveTheta456_primary, solveTheta456.T46, ← hT46,
      theta46_regular_pos _ s T46 hn0 hnpi ha, ← h5, ← hs5]
  · rw [neg_div, neg_div]
    exact real_atan2_neg len eig _ _ hc
  · have h := real_atan2_neg len eig (-(T46.R 2 0) / s5) (T46.R 2 1 / s5)
      (by rcases hr with h | h
          · left; rw [neg_div]; exact neg_ne_zero.mpr h
          · right; exact h)
    simp only [neg_div, neg_neg] at h ⊢
    exact h

/-- C16: for each of the four half-angle quadratic solvers: whenever
`|A| >= 1e-12` and the discriminant `D = B^2 - 4AC` satisfies `D >= 1e-12`,
the result has exactly two angles, obtained in this order from
`u1 = (-B - sqrt(D))/(2A)` and `u2 = (-B + sqrt(D))/(2A)`; `u1 != u2` and each
satisfies `A u^2 + B u + C = 0`. -/
theorem half_angle_solvers_two_roots (len : (Fin 3 → ℝ) → ℝ)
    (eig : Matrix (Fin 4) (Fin 4) ℝ → Fin 4 → ℝ × ℝ) (s : PieperSolver ℝ) (r z theta3 : ℝ) :
    (1e-12 ≤ |solveTheta3Case1.a s r| →
      1e-12 ≤ solveTheta3Case1.b s r * solveTheta3Case1.b s r
        - 4 * solveTheta3Case1.a s r * solveTheta3Case1.c s r →
      TwoRootResult (Extern.realWith len eig) (solveTheta3Case1.a s r) (solveTheta3Case1.b s r)
        (solveTheta3Case1.c s r) (solveTheta3Case1 (Extern.realWith len eig) s r)) ∧
    (1e-12 ≤ |solveTheta3Case2.a s z| →
      1e-12 ≤ solveTheta3Case2.b s z * solveTheta3Case2.b s z
        - 4 * solveTheta3Case2.a s z * solveTheta3Case2.c s z →
      TwoRootResult (Extern.realWith len eig) (solveTheta3Case2.a s z) (solveTheta3Case2.b s z)
        (solveTheta3Case2.c s z) (solveTheta3Case2 (Extern.realWith len eig) s z)) ∧
    (1e-12 ≤ |solveTheta2Case1.a s z (Real.cos theta3) (Real.sin theta3)| →
      1e-12 ≤ solveTheta2Case1.b s z (Real.cos theta3) (Real.sin theta3)
          * solveTheta2Case1.b s z (Real.cos theta3) (Real.sin theta3)
        - 4 * solveTheta2Case1.a s z (Real.cos theta3) (Real.sin theta3)
          * solveTheta2Case1.c s z (Real.cos theta3) (Real.sin theta3) →
      TwoRootResult (Extern.realWith len eig)
        (solveTheta2Case1.a s z (Real.cos theta3) (Real.sin theta3))
        (solveTheta2Case1.b s z (Real.cos theta3) (Real.sin theta3))
        (solveTheta2Case1.c s z (Real.cos theta3) (Real.sin theta3))
        (solveTheta2Case1 (Extern.realWith len eig) s z theta3)) ∧
    (1e-12 ≤ |solveTheta2Case2.a s r (Real.cos theta3) (Real.sin theta3)| →
      1e-12 ≤ solveTheta2Case2.b s r (Real.cos theta3) (Real.sin theta3)
          * solveTheta2Case2.b s r (Real.cos theta3) (Real.sin theta3)
        - 4 * solveTheta2Case2.a s r (Real.cos theta3) (Real.sin theta3)
          * solveTheta2Case2.c s r (Real.cos theta3) (Real.sin theta3) →
      TwoRootResult (Extern.realWith len eig)
        (solveTheta2Case2.a s r (Real.cos theta3) (Real.sin theta3))
        (solveTheta2Case2.b s r (Real.cos theta3) (Real.sin theta3))
        (solveTheta2Case2.c s r (Real.cos theta3) (Real.sin theta3))
        (solveTheta2Case2 (Extern.realWith len eig) s r theta3)) := by
  refine ⟨fun hA hD => ?_, fun hA hD => ?_, fun hA hD => ?_, fun hA hD => ?_⟩
  · apply twoRootResult_of_roots len eig _ _ _ _ hA hD
    rw [solveTheta3Case1_eq_map, roots_two _ _ _ _ hA hD]
    rfl
  · apply twoRootResult_of_roots len eig _ _ _ _ hA hD
    rw [solveTheta3Case2_eq_map, roots_two_unguarded _ _ _ _ hD]
    rfl
  · apply twoRootResult_of_roots len eig _ _ _ _ hA hD
    rw [solveTheta2Case1_eq_map _ s z theta3 _ _ _ rfl rfl rfl]
    erw [roots_two _ _ _ _ hA hD]
    rfl
  · apply twoRootResult_of_roots len eig _ _ _ _ hA hD
    rw [solveTheta2Case2_eq_map _ s r theta3 _ _ _ rfl rfl rfl]
    erw [roots_two _ _ _ _ hA hD]
    rfl

/-- C17: for each of the four half-angle quadratic solvers: whenever
`|A| >= 1e-12` and `|B^2 - 4AC| < 1e-12`, the result has exactly one angle,
obtained from `u = -B/(2A)`, and that `u` satisfies
`A u^2 + B u + C = -(B^2 - 4AC)/(4A)`. -/
theorem half_angle_solvers_repeated_root (m : Extern F)
    (s : PieperSolver F) (r z theta3 : F) :
    (1e-12 ≤ |solveTheta3Case1.a s r| →
      |solveTheta3Case1.b s r * solveTheta3Case1.b s r
        - 4 * solveTheta3Case1.a s r * solveTheta3Case1.c s r| < 1e-12 →
      RepeatedRootResult m (solveTheta3Case1.a s r) (solveTheta3Case1.b s r)
        (solveTheta3Case1.c s r) (solveTheta3Case1 m s r)) ∧
    (1e-12 ≤ |solveTheta3Case2.a s z| →
      |solveTheta3Case2.b s z * solveTheta3Case2.b s z
        - 4 * solveTheta3Case2.a s z * solveTheta3Case2.c s z| < 1e-12 →
      RepeatedRootResult m (solveTheta3Case2.a s z) (solveTheta3Case2.b s z)
        (solveTheta3Case2.c s z) (solveTheta3Case2 m s z)) ∧
    (1e-12 ≤ |solveTheta2Case1.a s z (m.cos theta3) (m.sin theta3)| →
      |solveTheta2Case1.b s z (m.cos theta3) (m.sin theta3)
          * solveTheta2Case1.b s z (m.cos theta3) (m.sin theta3)
        - 4 * solveTheta2Case1.a s z (m.cos theta3) (m.sin theta3)
          * solveTheta2Case1.c s z (m.cos theta3) (m.sin theta3)| < 1e-12 →
      RepeatedRootResult m (solveTheta2Case1.a s z (m.cos theta3) (m.sin theta3))
        (solveTheta2Case1.b s z (m.cos theta3) (m.sin theta3))
        (solveTheta2Case1.c s z (m.cos theta3) (m.sin theta3))
        (solveTheta2Case1 m s z theta3)) ∧
    (1e-12 ≤ |solveTheta2Case2.a s r (m.cos theta3) (m.sin theta3)| →
      |solveTheta2Case2.b s r (m.cos theta3) (m.sin theta3)
          * solveTheta2Case2.b s r (m.cos theta3) (m.sin theta3)
        - 4 * solveTheta2Case2.a s r (m.cos theta3) (m.sin theta3)
          * solveTheta2Case2.c s r (m.cos theta3) (m.sin theta3)| < 1e-12 →
      RepeatedRootResult m (solveTheta2Case2.a s r (m.cos theta3) (m.sin theta3))
        (solveTheta2Case2.b s r (m.cos theta3) (m.sin theta3))
        (solveTheta2Case2.c s r (m.cos theta3) (m.sin theta3))
        (solveTheta2Case2 m s r theta3)) := by
  refine ⟨fun hA hD => ⟨?_, repeated_root_value _ _ _ hA⟩,
    fun hA hD => ⟨?_, repeated_root_value _ _ _ hA⟩,
    fun hA hD => ⟨?_, repeated_root_value _ _ _ hA⟩,
    fun hA hD => ⟨?_, repeated_root_value _ _ _ hA⟩⟩
  · rw [solveTheta3Case1_eq_map, roots_repeated _ _ _ _ hA hD]
    rfl
  · rw [solveTheta3Case2_eq_map, if_pos hD]
    rfl
  · rw [solveTheta2Case1_eq_map m s z theta3 _ _ _ rfl rfl rfl, roots_repeated _ _ _ _ hA hD]
    rfl
  · rw [solveTheta2Case2_eq_map m s r theta3 _ _ _ rfl rfl rfl, roots_repeated _ _ _ _ hA hD]
    rfl

/-- C18: the half-angle back-substitution of the `theta2`/`theta3` solvers
maps every real `u` to `theta = atan2(2u/(1+u^2), (1-u^2)/(1+u^2))` with
`cos(theta) = (1-u^2)/(1+u^2)`, `sin(theta) = 2u/(1+u^2)`, `tan(theta/2) = u`
and `-pi < theta < pi`; no `u` yields `theta = pi`, and distinct `u` give
distinct `theta`. Every angle returned by `solveTheta3Case1` and by
`solveTheta3Case3` is such an image. -/
theorem halfAngle_substitution (len : (Fin 3 → ℝ) → ℝ)
    (eig : Matrix (Fin 4) (Fin 4) ℝ → Fin 4 → ℝ × ℝ) (s : PieperSolver ℝ) (r z : ℝ) :
    (∀ u : ℝ,
      halfAngle (Extern.realWith len eig) u
        = (Extern.realWith len eig).atan2 (2*u/(1 + u^2)) ((1 - u^2)/(1 + u^2)) ∧
      Real.cos (halfAngle (Extern.realWith len eig) u) = (1 - u^2)/(1 + u^2) ∧
      Real.sin (halfAngle (Extern.realWith len eig) u) = 2*u/(1 + u^2) ∧
      Real.tan (halfAngle (Extern.realWith len eig) u / 2) = u ∧
      -Real.pi < halfAngle (Extern.realWith len eig) u ∧
      halfAngle (Extern.realWith len eig) u < Real.pi ∧
      halfAngle (Extern.realWith len eig) u ≠ Real.pi) ∧
    Function.Injective (halfAngle (Extern.realWith len eig)) ∧
    (∀ theta3 ∈ solveTheta3Case1 (Extern.realWith len eig) s r,
      ∃ u, theta3 = halfAngle (Extern.realWith len eig) u) ∧
    (∀ theta3 ∈ (solveTheta3Case3 (Extern.realWith len eig) s r z).1,
      ∃ u, theta3 = halfAngle (Extern.realWith len eig) u) := by
  refine ⟨fun u => ?_, fun u v h => ?_, fun theta3 h => ?_, fun theta3 h => ?_⟩
  · obtain ⟨hc, hs⟩ := real_cos_sin_halfAngle len eig u
    obtain ⟨hlo, hhi⟩ := real_halfAngle_range len eig u
    refine ⟨?_, ?_, ?_, real_tan_halfAngle len eig u, hlo, hhi, hhi.ne⟩
    · rw [sq]; rfl
    · rw [sq]; exact hc
    · rw [sq]; exact hs
  · have hu := real_tan_halfAngle len eig u
    have hv := real_tan_halfAngle len eig v
    rw [← hu, ← hv, h]
  · rw [solveTheta3Case1_eq_map] at h
    obtain ⟨u, -, hu⟩ := List.mem_map.mp h
    exact ⟨u, hu.symm⟩
  · simp only [solveTheta3Case3, List.mem_map] at h
    obtain ⟨u, -, hu⟩ := h
    exact ⟨u, hu.symm⟩

/-- C19: for every `arg` and every integer `exp >= 1`, `Power(arg, exp)` is
`arg` raised to the power `exp`. -/
theorem Power_eq_pow (arg : F) (exp : Int) (h : 1 ≤ exp) : Power arg exp = arg ^ exp := by
  obtain ⟨n, hn⟩ : ∃ n : Nat, exp = (n : Int) + 1 :=
    ⟨(exp - 1).toNat, by rw [Int.toNat_of_nonneg (by linarith)]; ring⟩
  subst hn
  rw [Power, show ((n : Int) + 1 - 1).toNat = n by simp, foldl_mul_eq_pow]
  rw [show ((n : Int) + 1) = ((n + 1 : Nat) : Int) by push_cast; rfl, zpow_natCast]

/-- C20: for coefficients with `a != 0` the 4x4 matrix built by `fSolve()` is
the companion matrix of the monic quartic `f/a`: its characteristic
polynomial is `x^4 + (b/a) x^3 + (c/a) x^2 + (d/a) x + e/a`, and a number is
an eigenvalue of it (a root of the characteristic polynomial, the factor of
a nonzero eigenvector) if and only if it is a root of
`f(x) = a x^4 + b x^3 + c x^2 + d x + e`. -/
theorem fSolve_companion_matrix (s : PieperSolver F) (ha : s.a ≠ 0) :
    (fSolve.A s).charpoly
      = Polynomial.X^4 + Polynomial.C (s.b/s.a) * Polynomial.X^3
        + Polynomial.C (s.c/s.a) * Polynomial.X^2 + Polynomial.C (s.d/s.a) * Polynomial.X
        + Polynomial.C (s.e/s.a) ∧
    (∀ x : F, s.f x = s.a*x^4 + s.b*x^3 + s.c*x^2 + s.d*x + s.e) ∧
    (∀ x : F, (fSolve.A s).charpoly.IsRoot x ↔ s.f x = 0) ∧
    (∀ x : F, (∃ v : Fin 4 → F, v ≠ 0 ∧ (fSolve.A s).mulVec v = x • v) ↔ s.f x = 0) := by
  refine ⟨fSolve_A_charpoly s, fun x => ?_, fun x => ?_, fun x => ?_⟩
  · rw [PieperSolver.f]; ring
  · rw [fSolve_A_charpoly, f_eq_mul_monic s ha, Polynomial.IsRoot.def]
    simp only [Polynomial.eval_add, Polynomial.eval_mul, Polynomial.eval_pow, Polynomial.eval_X,
      Polynomial.eval_C]
    constructor
    · intro h; rw [h, mul_zero]
    · intro h
      rcases mul_eq_zero.mp h with h | h
      · exact absurd h ha
      · exact h
  · rw [f_eq_mul_monic s ha]
    constructor
    · rintro ⟨v, hv, h⟩
      rw [fSolve_A_mulVec] at h
      have e0 := congrFun h 0
      have e1 := congrFun h 1
      have e2 := congrFun h 2
      have e3 := congrFun h 3
      simp only [Matrix.cons_val_zero, Matrix.cons_val_one, Matrix.head_cons, Matrix.cons_val_two,
        Matrix.tail_cons, Matrix.cons_val_three, Pi.smul_apply, smul_eq_mul] at e0 e1 e2 e3
      have h3 : v 3 ≠ 0 := by
        intro h3
        apply hv
        have h2 : v 2 = 0 := by rw [e3, h3, mul_zero]
        have h1 : v 1 = 0 := by rw [e2, h2, mul_zero]
        have h0 : v 0 = 0 := by rw [e1, h1, mul_zero]
        funext i
        fin_cases i <;> assumption
      have key : (x^4 + s.b/s.a * x^3 + s.c/s.a * x^2 + s.d/s.a * x + s.e/s.a) * v 3 = 0 := by
        have hv2 : v 2 = x * v 3 := e3
        have hv1 : v 1 = x^2 * v 3 := by rw [e2, hv2]; ring
        have hv0 : v 0 = x^3 * v 3 := by rw [e1, hv1]; ring
        rw [hv0, hv1, hv2] at e0
        linear_combination -e0
      rcases mul_eq_zero.mp key with h | h
      · rw [h, mul_zero]
      · exact absurd h h3
    · intro h
      have hm : x^4 + s.b/s.a * x^3 + s.c/s.a * x^2 + s.d/s.a * x + s.e/s.a = 0 := by
        rcases mul_eq_zero.mp h with h | h
        · exact absurd h ha
        · exact h
      refine ⟨![x^3, x^2, x, 1], ?_, ?_⟩
      · intro h0
        have := congrFun h0 3
        simp at this
      · rw [fSolve_A_mulVec]
        funext i
        fin_cases i
        · simp only [Fin.zero_eta, Matrix.cons_val_zero, Matrix.cons_val_one, Matrix.head_cons,
            Matrix.cons_val_two, Matrix.tail_cons, Matrix.cons_val_three, Pi.smul_apply,
            smul_eq_mul]
          linear_combination -hm
        · simp
          ring
        · simp
          ring
        · simp

/-- C22: in `solveTheta1` the quotients `c1` and `s1` have one and the same
divisor `D`, with `c1 = (P*x + Q*y)/D` and `s1 = (P*y - Q*x)/D` for the two
bracketed expressions `P` and `Q`; so whenever `D > 0` the angle returned is
`atan2(P*y - Q*x, P*x + Q*y)`. Both quotients are closed expressions in the
arguments and the DH constants. -/
theorem solveTheta1_shared_denominator (len : (Fin 3 → ℝ) → ℝ)
    (eig : Matrix (Fin 4) (Fin 4) ℝ → Fin 4 → ℝ × ℝ) (s : PieperSolver ℝ)
    (x y theta2 theta3 : ℝ)
    (hD : 0 < solveTheta1.den s (Real.cos theta2) (Real.sin theta2) (Real.cos theta3)
      (Real.sin theta3)) :
    (∀ c2 s2 c3 s3 : ℝ,
      solveTheta1.c1 s x y c2 s2 c3 s3
        = (solveTheta1.P s c2 s2 c3 s3 * x + solveTheta1.Q s c2 s2 c3 s3 * y)
          / solveTheta1.den s c2 s2 c3 s3 ∧
      solveTheta1.s1 s x y c2 s2 c3 s3
        = (solveTheta1.P s c2 s2 c3 s3 * y - solveTheta1.Q s c2 s2 c3 s3 * x)
          / solveTheta1.den s c2 s2 c3 s3) ∧
    solveTheta1 (Extern.realWith len eig) s x y theta2 theta3
      = (Extern.realWith len eig).atan2
          (solveTheta1.P s (Real.cos theta2) (Real.sin theta2) (Real.cos theta3) (Real.sin theta3) * y
            - solveTheta1.Q s (Real.cos theta2) (Real.sin theta2) (Real.cos theta3)
                (Real.sin theta3) * x)
          (solveTheta1.P s (Real.cos theta2) (Real.sin theta2) (Real.cos theta3) (Real.sin theta3) * x
            + solveTheta1.Q s (Real.cos theta2) (Real.sin theta2) (Real.cos theta3)
                (Real.sin theta3) * y) := by
  have hs : ∀ c2 s2 c3 s3 : ℝ, solveTheta1.s1 s x y c2 s2 c3 s3
      = (solveTheta1.P s c2 s2 c3 s3 * y - solveTheta1.Q s c2 s2 c3 s3 * x)
        / solveTheta1.den s c2 s2 c3 s3 := by
    intro c2 s2 c3 s3
    rw [solveTheta1_s1_eq]
    congr 1
    ring
  refine ⟨fun c2 s2 c3 s3 => ⟨solveTheta1_c1_eq s x y c2 s2 c3 s3, hs c2 s2 c3 s3⟩, ?_⟩
  show (Extern.realWith len eig).atan2
      (solveTheta1.s1 s x y (Real.cos theta2) (Real.sin theta2) (Real.cos theta3) (Real.sin theta3))
      (solveTheta1.c1 s x y (Real.cos theta2) (Real.sin theta2) (Real.cos theta3) (Real.sin theta3))
    = _
  rw [hs, solveTheta1_c1_eq, real_atan2_div_pos len eig _ _ _ hD]

/-- C23: for all coefficients and all `x`, `f(x) = a x^4 + b x^3 + c x^2 + d x + e`,
`df(x) = 4a x^3 + 3b x^2 + 2c x + d` is the derivative of `f` at `x`, and
`ddf(x) = 12a x^2 + 6b x + 2c` is the derivative of `df` at `x`. -/
theorem f_df_ddf_derivatives (s : PieperSolver ℝ) (x : ℝ) :
    s.f x = s.a*x^4 + s.b*x^3 + s.c*x^2 + s.d*x + s.e ∧
    s.df x = 4*s.a*x^3 + 3*s.b*x^2 + 2*s.c*x + s.d ∧
    s.ddf x = 12*s.a*x^2 + 6*s.b*x + 2*s.c ∧
    HasDerivAt s.f (s.df x) x ∧ deriv s.f x = s.df x ∧
    HasDerivAt s.df (s.ddf x) x ∧ deriv s.df x = s.ddf x :=
  ⟨f_eq_poly s x, df_eq_poly s x, ddf_eq_poly s x, hasDerivAt_f s x, (hasDerivAt_f s x).deriv,
    hasDerivAt_df s x, (hasDerivAt_df s x).deriv⟩

/-- C24: for coefficients with `a != 0`, `ddfSolve` returns the empty list when
`(6b)^2 - 4*(12a)*(2c) < 0` and otherwise exactly the two values
`(-6b + sqrt(dc))/(2*12a)` and `(-6b - sqrt(dc))/(2*12a)`, which are equal when
the discriminant `dc` is `0` and are both roots of `ddf`; the list never has
exactly one entry. -/
theorem ddfSolve_roots (len : (Fin 3 → ℝ) → ℝ) (eig : Matrix (Fin 4) (Fin 4) ℝ → Fin 4 → ℝ × ℝ)
    (s : PieperSolver ℝ) (ha : s.a ≠ 0) :
    ((6*s.b)*(6*s.b) - 4*(12*s.a)*(2*s.c) < 0 → ddfSolve (Extern.realWith len eig) s = []) ∧
    (0 ≤ (6*s.b)*(6*s.b) - 4*(12*s.a)*(2*s.c) →
      ddfSolve (Extern.realWith len eig) s
        = [(-(6*s.b) + Real.sqrt ((6*s.b)*(6*s.b) - 4*(12*s.a)*(2*s.c)))/(2*(12*s.a)),
           (-(6*s.b) - Real.sqrt ((6*s.b)*(6*s.b) - 4*(12*s.a)*(2*s.c)))/(2*(12*s.a))] ∧
      s.ddf ((-(6*s.b) + Real.sqrt ((6*s.b)*(6*s.b) - 4*(12*s.a)*(2*s.c)))/(2*(12*s.a))) = 0 ∧
      s.ddf ((-(6*s.b) - Real.sqrt ((6*s.b)*(6*s.b) - 4*(12*s.a)*(2*s.c)))/(2*(12*s.a))) = 0 ∧
      ((6*s.b)*(6*s.b) - 4*(12*s.a)*(2*s.c) = 0 →
        (-(6*s.b) + Real.sqrt ((6*s.b)*(6*s.b) - 4*(12*s.a)*(2*s.c)))/(2*(12*s.a))
          = (-(6*s.b) - Real.sqrt ((6*s.b)*(6*s.b) - 4*(12*s.a)*(2*s.c)))/(2*(12*s.a)))) ∧
    (ddfSolve (Extern.realWith len eig) s).length ≠ 1 := by
  refine ⟨fun h => ?_, fun h => ⟨?_, ?_, ?_, fun h0 => ?_⟩, ?_⟩
  · simp only [ddfSolve, h, if_true]
  · simp only [ddfSolve, not_lt.mpr h, if_false]
    rfl
  · have h1 := ddf_quadratic_root s ha (Real.sqrt ((6*s.b)*(6*s.b) - 4*(12*s.a)*(2*s.c))) 1
      (Real.mul_self_sqrt h) (Or.inl rfl)
    rw [one_mul] at h1
    exact h1
  · have h2 := ddf_quadratic_root s ha (Real.sqrt ((6*s.b)*(6*s.b) - 4*(12*s.a)*(2*s.c))) (-1)
      (Real.mul_self_sqrt h) (Or.inr rfl)
    rw [neg_one_mul, ← sub_eq_add_neg] at h2
    exact h2
  · rw [h0, Real.sqrt_zero, add_zero, sub_zero]
  · unfold ddfSolve
    simp only []
    split_ifs <;> simp

/-- C28: the result of `solveTheta3Case3(r, z)` is fixed by `r`, `z` and the
DH constants: `setupCoefficients` assigns all five fields `a .. e` before
`fSolve()` reads them, so solvers that differ only in the previous contents of
these fields give the same roots (and are left in the same state), the roots
being the half-angle images of what `fSolve()` finds for the new fields. -/
theorem solveTheta3Case3_ignores_old_coefficients (m : Extern F) (s : PieperSolver F)
    (r z a' b' c' d' e' : F) :
    solveTheta3Case3 m { s with a := a', b := b', c := c', d := d', e := e' } r z
      = solveTheta3Case3 m s r z ∧
    (solveTheta3Case3 m s r z).1 = (fSolve m (setupCoefficients s r z)).map (halfAngle m) ∧
    (setupCoefficients s r z).a = setupCoefficients.a s r z ∧
    (setupCoefficients s r z).b = setupCoefficients.b s r z ∧
    (setupCoefficients s r z).c = setupCoefficients.c s r z ∧
    (setupCoefficients s r z).d = setupCoefficients.d s r z ∧
    (setupCoefficients s r z).e = setupCoefficients.e s r z ∧
    setupCoefficients.a { s with a := a', b := b', c := c', d := d', e := e' } r z
      = setupCoefficients.a s r z ∧
    setupCoefficients.b { s with a := a', b := b', c := c', d := d', e := e' } r z
      = setupCoefficients.b s r z ∧
    setupCoefficients.c { s with a := a', b := b', c := c', d := d', e := e' } r z
      = setupCoefficients.c s r z ∧
    setupCoefficients.d { s with a := a', b := b', c := c', d := d', e := e' } r z
      = setupCoefficients.d s r z ∧
    setupCoefficients.e { s with a := a', b := b', c := c', d := d', e := e' } r z
      = setupCoefficients.e s r z := by
  refine ⟨?_, rfl, rfl, rfl, rfl, rfl, rfl, rfl, rfl, rfl, rfl, rfl⟩
  simp only [solveTheta3Case3, setupCoefficients_update]

/-- C30: the shared divisor `D` of `solveTheta1` is `P^2 + Q^2`, with `P` and
`Q` the factors of `x` and `y` in the dividend of `c1` (an identity in the DH
constants and `c2, s2, c3, s3`, whatever their values); hence `D >= 0`,
`D = 0` only when `P = Q = 0`, and `c1^2 + s1^2 = (x^2 + y^2)/D` whenever
`D != 0`. -/
theorem solveTheta1_denominator_sum_of_squares (s : PieperSolver F) (x y c2 s2 c3 s3 : F) :
    solveTheta1.c1 s x y c2 s2 c3 s3
      = (solveTheta1.P s c2 s2 c3 s3 * x + solveTheta1.Q s c2 s2 c3 s3 * y)
        / solveTheta1.den s c2 s2 c3 s3 ∧
    solveTheta1.den s c2 s2 c3 s3
      = solveTheta1.P s c2 s2 c3 s3 ^ 2 + solveTheta1.Q s c2 s2 c3 s3 ^ 2 ∧
    0 ≤ solveTheta1.den s c2 s2 c3 s3 ∧
    (solveTheta1.den s c2 s2 c3 s3 = 0 →
      solveTheta1.P s c2 s2 c3 s3 = 0 ∧ solveTheta1.Q s c2 s2 c3 s3 = 0) ∧
    (solveTheta1.den s c2 s2 c3 s3 ≠ 0 →
      solveTheta1.c1 s x y c2 s2 c3 s3 ^ 2 + solveTheta1.s1 s x y c2 s2 c3 s3 ^ 2
        = (x^2 + y^2) / solveTheta1.den s c2 s2 c3 s3) := by
  have hD : solveTheta1.den s c2 s2 c3 s3
      = solveTheta1.P s c2 s2 c3 s3 ^ 2 + solveTheta1.Q s c2 s2 c3 s3 ^ 2 := by
    rw [solveTheta1_den_eq, solveTheta1_P_eq, solveTheta1_Q_eq]
    ring
  refine ⟨solveTheta1_c1_eq s x y c2 s2 c3 s3, hD, ?_, fun h0 => ?_, fun hne => ?_⟩
  · rw [hD]
    positivity
  · rw [hD] at h0
    have hP := sq_nonneg (solveTheta1.P s c2 s2 c3 s3)
    have hQ := sq_nonneg (solveTheta1.Q s c2 s2 c3 s3)
    constructor
    · exact pow_eq_zero_iff (two_ne_zero) |>.mp (le_antisymm (by linarith) hP)
    · exact pow_eq_zero_iff (two_ne_zero) |>.mp (le_antisymm (by linarith) hQ)
  · rw [solveTheta1_c1_eq, solveTheta1_s1_eq, div_pow, div_pow, ← add_div, div_eq_div_iff
      (pow_ne_zero 2 hne) hne]
    generalize solveTheta1.P s c2 s2 c3 s3 = P at hD ⊢
    generalize solveTheta1.Q s c2 s2 c3 s3 = Q at hD ⊢
    rw [hD]
    ring

/-- C29: `ikInterpolator::x(t)` throws if and only if the solver returns an
empty list for the pose at `t` or throws itself (for a solver whose lists have
fewer than `2^31` entries, so that `(int)result.size()` is the size);
otherwise it returns the first element of the solver's list. For the empty
list it throws the text of line 173 behind that of line 179, a `std::string`
of the solver is thrown again behind the text of line 179, and anything else
the solver throws passes through. -/
theorem ikInterpolator_x_raises_iff {K Config E : Type} (ip : ikInterpolator K Config E) (t : K)
    (hsize : ∀ result,
      ip._ikSolver ⟨ip._rotInterpolator t, ip._posInterpolator t⟩ ip._config = .ok result →
        result.length < 2147483648) :
    ((∃ err, ip.x t = .error err) ↔
      (ip._ikSolver ⟨ip._rotInterpolator t, ip._posInterpolator t⟩ ip._config = .ok [] ∨
        ∃ err, ip._ikSolver ⟨ip._rotInterpolator t, ip._posInterpolator t⟩ ip._config
          = .error err)) ∧
    (∀ q rest, ip._ikSolver ⟨ip._rotInterpolator t, ip._posInterpolator t⟩ ip._config
        = .ok (q :: rest) → ip.x t = .ok q) ∧
    (ip._ikSolver ⟨ip._rotInterpolator t, ip._posInterpolator t⟩ ip._config = .ok [] →
      ip.x t = .error (.string (ikInterpolator.rethrown ++ ikInterpolator.noSolution))) ∧
    (∀ msg, ip._ikSolver ⟨ip._rotInterpolator t, ip._posInterpolator t⟩ ip._config
        = .error (.string msg) → ip.x t = .error (.string (ikInterpolator.rethrown ++ msg))) ∧
    (∀ e, ip._ikSolver ⟨ip._rotInterpolator t, ip._posInterpolator t⟩ ip._config
        = .error (.other e) → ip.x t = .error (.other e)) := by
  have hcons : ∀ q rest,
      ip._ikSolver ⟨ip._rotInterpolator t, ip._posInterpolator t⟩ ip._config = .ok (q :: rest) →
        ip.x t = .ok q := by
    intro q rest h
    have hlen := hsize _ h
    have hpos : ¬ intOfSize (q :: rest).length ≤ 0 := by
      simp only [intOfSize, List.length_cons] at hlen ⊢
      omega
    simp only [ikInterpolator.x, h, hpos, if_false]
  have hnil : ip._ikSolver ⟨ip._rotInterpolator t, ip._posInterpolator t⟩ ip._config = .ok [] →
      ip.x t = .error (.string (ikInterpolator.rethrown ++ ikInterpolator.noSolution)) := by
    intro h
    simp only [ikInterpolator.x, h, intOfSize, List.length_nil]
    rfl
  have hstr : ∀ msg, ip._ikSolver ⟨ip._rotInterpolator t, ip._posInterpolator t⟩ ip._config
      = .error (.string msg) → ip.x t = .error (.string (ikInterpolator.rethrown ++ msg)) := by
    intro msg h
    simp only [ikInterpolator.x, h]
  have hoth : ∀ e, ip._ikSolver ⟨ip._rotInterpolator t, ip._posInterpolator t⟩ ip._config
      = .error (.other e) → ip.x t = .error (.other e) := by
    intro e h
    simp only [ikInterpolator.x, h]
  refine ⟨⟨fun hx => ?_, fun hs => ?_⟩, hcons, hnil, hstr, hoth⟩
  · obtain ⟨err, hx⟩ := hx
    cases hsol : ip._ikSolver ⟨ip._rotInterpolator t, ip._posInterpolator t⟩ ip._config with
    | error err1 => exact Or.inr ⟨err1, rfl⟩
    | ok result =>
      cases result with
      | nil => exact Or.inl rfl
      | cons q rest =>
        rw [hcons q rest hsol] at hx
        cases hx
  · rcases hs with h | ⟨err, h⟩
    · exact ⟨_, hnil h⟩
    · cases err with
      | string msg => exact ⟨_, hstr msg h⟩
      | other e => exact ⟨_, hoth e h⟩

/-- C31: in the non-singular branch of `solveTheta456` (neither
`|theta5| < 1e-12` nor `|pi - theta5| < 1e-12`) the angle satisfies
`1e-12 <= theta5 <= pi - 1e-12`, the divisor `s5 = sin(theta5)` is strictly
positive, and the divisions by it do not change the angles: for `alpha5 >= 0`
the primary vector has `theta4 = atan2(r23, r13)` and
`theta6 = atan2(r32, -r31)`, for `alpha5 < 0` it has
`theta4 = atan2(-r23, -r13)` and `theta6 = atan2(-r32, r31)`, with the entries
of the rotation of `T46 = inverse(T04) * T06`. -/
theorem solveTheta456_regular_divisions_redundant (len : (Fin 3 → ℝ) → ℝ)
    (eig : Matrix (Fin 4) (Fin 4) ℝ → Fin 4 → ℝ × ℝ) (s : PieperSolver ℝ)
    (theta1 theta2 theta3 : ℝ) (T06 : HTransform3D ℝ) (result : List (Q ℝ))
    (T46 : HTransform3D ℝ) (theta5 s5 : ℝ)
    (hT46 : T46
      = (solveTheta456.T04 (Extern.realWith len eig) s theta1 theta2 theta3).inverse.mul T06)
    (h5 : theta5 = solveTheta456.theta5 (Extern.realWith len eig) T46)
    (hs5 : s5 = (Extern.realWith len eig).sin theta5)
    (h0 : ¬ |theta5| < 1e-12) (hpi : ¬ |(Extern.realWith len eig).M_PI - theta5| < 1e-12) :
    1e-12 ≤ theta5 ∧ theta5 ≤ Real.pi - 1e-12 ∧ 0 < s5 ∧
    (0 ≤ s.alpha5 →
      (solveTheta456.theta46 (Extern.realWith len eig) s T46
        = ((Extern.realWith len eig).atan2 (T46.R 1 2 / s5) (T46.R 0 2 / s5),
            (Extern.realWith len eig).atan2 (T46.R 2 1 / s5) (-(T46.R 2 0) / s5))) ∧
      (solveTheta456 (Extern.realWith len eig) s theta1 theta2 theta3 T06 result)[result.length]?
        = some [theta1, theta2, theta3,
            (Extern.realWith len eig).atan2 (T46.R 1 2) (T46.R 0 2), theta5,
            (Extern.realWith len eig).atan2 (T46.R 2 1) (-(T46.R 2 0))]) ∧
    (s.alpha5 < 0 →
      (solveTheta456.theta46 (Extern.realWith len eig) s T46
        = ((Extern.realWith len eig).atan2 (-(T46.R 1 2) / s5) (-(T46.R 0 2) / s5),
            (Extern.realWith len eig).atan2 (-(T46.R 2 1) / s5) (T46.R 2 0 / s5))) ∧
      (solveTheta456 (Extern.realWith len eig) s theta1 theta2 theta3 T06 result)[result.length]?
        = some [theta1, theta2, theta3,
            (Extern.realWith len eig).atan2 (-(T46.R 1 2)) (-(T46.R 0 2)), theta5,
            (Extern.realWith len eig).atan2 (-(T46.R 2 1)) (T46.R 2 0)]) := by
  have hr := real_theta5_range len eig T46
  rw [← h5] at hr
  have hpi' : ¬ |Real.pi - theta5| < 1e-12 := hpi
  rw [abs_of_nonneg hr.1, not_lt] at h0
  rw [abs_of_nonneg (sub_nonneg.mpr hr.2), not_lt] at hpi'
  have hpos : 0 < s5 := by
    rw [hs5]
    exact Real.sin_pos_of_pos_of_lt_pi (by linarith [(eps_pos : (0 : ℝ) < 1e-12)])
      (by linarith [(eps_pos : (0 : ℝ) < 1e-12)])
  have hn0 : ¬ |solveTheta456.theta5 (Extern.realWith len eig) T46| < 1e-12 := by
    rw [← h5]
    exact not_lt.mpr (h0.trans (le_abs_self _))
  have hnpi : ¬ |(Extern.realWith len eig).M_PI
      - solveTheta456.theta5 (Extern.realWith len eig) T46| < 1e-12 := by
    rw [← h5]
    exact hpi
  refine ⟨h0, by linarith, hpos, fun ha => ?_, fun ha => ?_⟩
  · have h46 := theta46_regular_pos _ s T46 hn0 hnpi (not_lt.mpr ha)
    rw [← h5, ← hs5] at h46
    refine ⟨h46, ?_⟩
    rw [solveTheta456_primary, solveTheta456.T46, ← hT46, h46, ← h5,
      real_atan2_div_pos len eig _ _ _ hpos, real_atan2_div_pos len eig _ _ _ hpos]
  · have h46 := theta46_regular_neg _ s T46 hn0 hnpi ha
    rw [← h5, ← hs5] at h46
    refine ⟨h46, ?_⟩
    rw [solveTheta456_primary, solveTheta456.T46, ← hT46, h46, ← h5,
      real_atan2_div_pos len eig _ _ _ hpos, real_atan2_div_pos len eig _ _ _ hpos]

end Claims

/-! ## Concrete runs: witnesses and counterexamples -/

section Witnesses

open PieperSolver Instances

theorem homeTable_size : (6 : Nat) ≤ homeTable.size := by
  simp [homeTable, DHTable.size]

theorem real_getLengh_poseAt (x y z : ℝ) :
    Extern.real.getLengh (poseAt x y z).getPosition = Real.sqrt (x * x + y * y + z * z) := by
  simp [Extern.real, Extern.realWith, Vector3D.length, poseAt, HTransform3D.getPosition]

theorem poseAt_z (x y z : ℝ) : (poseAt x y z).getPosition 2 = z := by
  simp [poseAt, HTransform3D.getPosition]

theorem real_getLengh_origin : Extern.real.getLengh (poseAt 0 0 0).getPosition = 0 := by
  rw [real_getLengh_poseAt]; simp

theorem offsetArm_case3 : offsetArm.a1 ≠ 0 ∧ ¬ |offsetArm.salpha1| < 1e-12 := by
  constructor <;> norm_num [offsetArm]

theorem scaraArm_case2 : scaraArm.a1 ≠ 0 ∧ |scaraArm.salpha1| < 1e-12 := by
  constructor <;> norm_num [scaraArm]

theorem elbowArm_solve (T06 : HTransform3D ℝ) :
    solve Extern.real elbowArm T06
      = some ((case1Vectors Extern.real elbowArm T06).map (homeCorrected elbowArm), elbowArm) := by
  rw [solve_case1_eq Extern.real elbowArm T06 rfl, withHomeOffsets,
    if_pos (Or.inr (show 6 ≤ elbowArm._dHTable.size from homeTable_size))]

theorem offsetArm_solve (T06 : HTransform3D ℝ) :
    solve Extern.real offsetArm T06
      = some ((case3Vectors Extern.real offsetArm T06).map (homeCorrected offsetArm),
          setupCoefficients offsetArm (Extern.real.getLengh T06.getPosition)
            (T06.getPosition 2)) := by
  rw [solve_case3_eq Extern.real offsetArm T06 offsetArm_case3.1 offsetArm_case3.2,
    withHomeOffsets, if_pos (Or.inr (show 6 ≤ offsetArm._dHTable.size from homeTable_size))]

theorem elbowArm_origin_A :
    (1e-12 : ℝ) ≤ |solveTheta3Case1.a elbowArm (Extern.real.getLengh (poseAt 0 0 0).getPosition)| := by
  rw [real_getLengh_origin]
  norm_num [solveTheta3Case1.a, elbowArm, Power_two]

theorem elbowArm_origin_D :
    solveTheta3Case1.b elbowArm (Extern.real.getLengh (poseAt 0 0 0).getPosition)
        * solveTheta3Case1.b elbowArm (Extern.real.getLengh (poseAt 0 0 0).getPosition)
      - 4 * solveTheta3Case1.a elbowArm (Extern.real.getLengh (poseAt 0 0 0).getPosition)
        * solveTheta3Case1.c elbowArm (Extern.real.getLengh (poseAt 0 0 0).getPosition)
      ≤ -1e-12 := by
  rw [real_getLengh_origin]
  norm_num [solveTheta3Case1.a, solveTheta3Case1.b, solveTheta3Case1.c, elbowArm, Power_two]

theorem scaraArm_high_A :
    (1e-12 : ℝ) ≤ |solveTheta3Case2.a scaraArm ((poseAt 0 0 2).getPosition 2)| := by
  rw [poseAt_z]
  norm_num [solveTheta3Case2.a, scaraArm]

theorem scaraArm_high_D :
    solveTheta3Case2.b scaraArm ((poseAt 0 0 2).getPosition 2)
        * solveTheta3Case2.b scaraArm ((poseAt 0 0 2).getPosition 2)
      - 4 * solveTheta3Case2.a scaraArm ((poseAt 0 0 2).getPosition 2)
        * solveTheta3Case2.c scaraArm ((poseAt 0 0 2).getPosition 2)
      ≤ -1e-12 := by
  rw [poseAt_z]
  norm_num [solveTheta3Case2.a, solveTheta3Case2.b, solveTheta3Case2.c, scaraArm]

theorem real_getLengh_three : Extern.real.getLengh (poseAt 3 0 0).getPosition = 3 := by
  rw [real_getLengh_poseAt]
  rw [show (3 : ℝ) * 3 + 0 * 0 + 0 * 0 = 3 * 3 by ring]
  exact Real.sqrt_mul_self (by norm_num)

theorem elbowArm_theta3_origin :
    solveTheta3Case1 Extern.real elbowArm 0 = [] := by
  apply solveTheta3Case1_eq_nil
  · norm_num [solveTheta3Case1.a, elbowArm, Power_two]
  · norm_num [solveTheta3Case1.a, solveTheta3Case1.b, solveTheta3Case1.c, elbowArm, Power_two]

theorem elbowArm_theta3_three :
    (solveTheta3Case1 Extern.real elbowArm 3).length = 2 := by
  have ha : solveTheta3Case1.a elbowArm 3 = 2 := by
    norm_num [solveTheta3Case1.a, elbowArm, Power_two]
  have hb : solveTheta3Case1.b elbowArm 3 = 0 := by
    norm_num [solveTheta3Case1.b, elbowArm]
  have hc : solveTheta3Case1.c elbowArm 3 = -6 := by
    norm_num [solveTheta3Case1.c, elbowArm, Power_two]
  simp only [solveTheta3Case1, ha, hb, hc, List.length_map]
  norm_num

theorem scaraArm_solve (T06 : HTransform3D ℝ) :
    solve Extern.real scaraArm T06
      = some ((case2Vectors Extern.real scaraArm T06).map (homeCorrected scaraArm), scaraArm) := by
  rw [solve_case2_eq Extern.real scaraArm T06 scaraArm_case2.1 scaraArm_case2.2, withHomeOffsets,
    if_pos (Or.inr (show 6 ≤ scaraArm._dHTable.size from homeTable_size))]

theorem offsetArm_setup_a : setupCoefficients.a offsetArm 0 0 = 1 := by
  norm_num [setupCoefficients.a, offsetArm, Power_two]

/-- C3 (counterexample): for the elbow arm (`a1 = 0`, case 1) the poses at
`(0, 0, 0)` and `(3, 0, 0)` have the same `z`, yet the first has no `theta3`
candidate and the second has two. -/
theorem theta3_case1_not_function_of_z :
    elbowArm.a1 = 0 ∧
    (poseAt 0 0 0).getPosition 2 = (poseAt 3 0 0).getPosition 2 ∧
    solve.theta3 Extern.real elbowArm (poseAt 0 0 0) = [] ∧
    (solve.theta3 Extern.real elbowArm (poseAt 3 0 0)).length = 2 ∧
    solve.theta3 Extern.real elbowArm (poseAt 0 0 0)
      ≠ solve.theta3 Extern.real elbowArm (poseAt 3 0 0) := by
  have h1 : elbowArm.a1 = 0 := rfl
  have hA : solve.theta3 Extern.real elbowArm (poseAt 0 0 0) = [] := by
    simp only [solve.theta3, h1, if_true, real_getLengh_origin, elbowArm_theta3_origin]
  have hB : (solve.theta3 Extern.real elbowArm (poseAt 3 0 0)).length = 2 := by
    simp only [solve.theta3, h1, if_true, real_getLengh_three, elbowArm_theta3_three]
  refine ⟨h1, by simp [poseAt_z], hA, hB, ?_⟩
  intro h
  rw [← h, hA] at hB
  simp at hB

/-- C9 (counterexample): for the offset arm (case 3) the field `a` holds `0`
before `solve` is called on the pose at the origin and `1` after it. -/
theorem solve_overwrites_coefficient_a :
    offsetArm.a = 0 ∧
    (solve Extern.real offsetArm (poseAt 0 0 0)).map (fun out => out.2.a) = some 1 := by
  refine ⟨rfl, ?_⟩
  rw [solve_case3_eq Extern.real offsetArm (poseAt 0 0 0) offsetArm_case3.1 offsetArm_case3.2,
    withHomeOffsets, if_pos (Or.inr (show 6 ≤ offsetArm._dHTable.size from homeTable_size)),
    Option.map_some', real_getLengh_origin, poseAt_z]
  exact congrArg some offsetArm_setup_a

/-- C2 (witness): the three cases are taken by the elbow arm, the arm with
parallel first joints and the offset arm. -/
theorem solve_case_dispatch_witness :
    (elbowArm.a1 = 0 ∧
      solve Extern.real elbowArm (poseAt 3 0 0)
        = withHomeOffsets elbowArm (case1Vectors Extern.real elbowArm (poseAt 3 0 0)) elbowArm) ∧
    ((scaraArm.a1 ≠ 0 ∧ |scaraArm.salpha1| < 1e-12) ∧
      solve Extern.real scaraArm (poseAt 3 0 0)
        = withHomeOffsets scaraArm (case2Vectors Extern.real scaraArm (poseAt 3 0 0)) scaraArm) ∧
    ((offsetArm.a1 ≠ 0 ∧ ¬ |offsetArm.salpha1| < 1e-12) ∧
      solve Extern.real offsetArm (poseAt 3 0 0)
        = withHomeOffsets offsetArm (case3Vectors Extern.real offsetArm (poseAt 3 0 0))
            (setupCoefficients offsetArm (Extern.real.getLengh (poseAt 3 0 0).getPosition)
              ((poseAt 3 0 0).getPosition 2))) :=
  ⟨⟨rfl, (solve_case_dispatch Extern.real elbowArm (poseAt 3 0 0)).1 rfl⟩,
   ⟨scaraArm_case2,
    (solve_case_dispatch Extern.real scaraArm (poseAt 3 0 0)).2.1 scaraArm_case2.1
      scaraArm_case2.2⟩,
   ⟨offsetArm_case3,
    (solve_case_dispatch Extern.real offsetArm (poseAt 3 0 0)).2.2 offsetArm_case3.1
      offsetArm_case3.2⟩⟩

/-- C3 (witness of the amended claim): the poses at `(3, 0, 4)` and `(4, 0, 3)`
have the same length `5` and different `z`; the elbow arm gets the same
`theta3` candidates for both. -/
theorem theta3_case1_depends_only_on_length_witness :
    (elbowArm.a1 = 0 ∧
      Extern.real.getLengh (poseAt 3 0 4).getPosition
        = Extern.real.getLengh (poseAt 4 0 3).getPosition) ∧
    (poseAt 3 0 4).getPosition 2 ≠ (poseAt 4 0 3).getPosition 2 ∧
    solve.theta3 Extern.real elbowArm (poseAt 3 0 4)
      = solve.theta3 Extern.real elbowArm (poseAt 4 0 3) :=
  have hr : Extern.real.getLengh (poseAt 3 0 4).getPosition
      = Extern.real.getLengh (poseAt 4 0 3).getPosition := by
    rw [real_getLengh_poseAt, real_getLengh_poseAt]; norm_num
  ⟨⟨rfl, hr⟩, by rw [poseAt_z, poseAt_z]; norm_num,
    (theta3_case1_depends_only_on_length Extern.real elbowArm (poseAt 3 0 4) (poseAt 4 0 3)
      rfl hr).1⟩

/-- C5 (witness): the vectors returned for the elbow arm and the pose at
`(3, 0, 0)`. -/
theorem solve_count_even_le_eight_witness :
    solve Extern.real elbowArm (poseAt 3 0 0)
      = some ((case1Vectors Extern.real elbowArm (poseAt 3 0 0)).map (homeCorrected elbowArm),
          elbowArm) ∧
    Even ((case1Vectors Extern.real elbowArm (poseAt 3 0 0)).map
      (homeCorrected elbowArm)).length ∧
    ((case1Vectors Extern.real elbowArm (poseAt 3 0 0)).map (homeCorrected elbowArm)).length ≤ 8 ∧
    ∀ q ∈ (case1Vectors Extern.real elbowArm (poseAt 3 0 0)).map (homeCorrected elbowArm),
      q.size = 6 :=
  ⟨elbowArm_solve _,
    (solve_count_even_le_eight Extern.real elbowArm (poseAt 3 0 0)).2 _ _ (elbowArm_solve _)⟩

/-- C6 (witness): the count for the elbow arm (case 1) and the pose at
`(3, 0, 0)`. -/
theorem solve_case12_count_witness :
    elbowArm.a1 = 0 ∧
    solve Extern.real elbowArm (poseAt 3 0 0)
      = some ((case1Vectors Extern.real elbowArm (poseAt 3 0 0)).map (homeCorrected elbowArm),
          elbowArm) ∧
    ((case1Vectors Extern.real elbowArm (poseAt 3 0 0)).map (homeCorrected elbowArm)).length
      = 2 * ((solveTheta3Case1 Extern.real elbowArm
            (Extern.real.getLengh (poseAt 3 0 0).getPosition)).map fun theta3 =>
          (solveTheta2Case1 Extern.real elbowArm ((poseAt 3 0 0).getPosition 2)
            theta3).length).sum :=
  ⟨rfl, elbowArm_solve _,
    (solve_case12_count Extern.real elbowArm (poseAt 3 0 0)).1 rfl _ _ (elbowArm_solve _)⟩

/-- C7 (witness): the elbow arm with the pose at the origin (case 1) and the
arm with parallel first joints with the pose at `(0, 0, 2)` (case 2) have a
negative discriminant; `solve` returns the empty list for both. -/
theorem solve_negative_discriminant_empty_witness :
    (elbowArm.a1 = 0 ∧
      solveTheta3Case1 Extern.real elbowArm (Extern.real.getLengh (poseAt 0 0 0).getPosition) = [] ∧
      solve Extern.real elbowArm (poseAt 0 0 0) = some ([], elbowArm)) ∧
    ((scaraArm.a1 ≠ 0 ∧ |scaraArm.salpha1| < 1e-12) ∧
      solveTheta3Case2 Extern.real scaraArm ((poseAt 0 0 2).getPosition 2) = [] ∧
      solve Extern.real scaraArm (poseAt 0 0 2) = some ([], scaraArm)) :=
  ⟨⟨rfl, (solve_negative_discriminant_empty Extern.real elbowArm (poseAt 0 0 0)).1 rfl
      elbowArm_origin_A elbowArm_origin_D⟩,
   ⟨scaraArm_case2, (solve_negative_discriminant_empty Extern.real scaraArm (poseAt 0 0 2)).2
      scaraArm_case2.1 scaraArm_case2.2 scaraArm_high_A scaraArm_high_D⟩⟩

/-- C8 (witness): the vectors returned for the elbow arm and the pose at
`(3, 0, 0)` against the raw vectors of `solve.result`. -/
theorem solve_subtracts_home_witness :
    solve Extern.real elbowArm (poseAt 3 0 0)
      = some ((case1Vectors Extern.real elbowArm (poseAt 3 0 0)).map (homeCorrected elbowArm),
          elbowArm) ∧
    ((case1Vectors Extern.real elbowArm (poseAt 3 0 0)).map (homeCorrected elbowArm)).length
      = (solve.result Extern.real elbowArm (poseAt 3 0 0)).1.length ∧
    ∀ (k : Nat) (q : Q ℝ), (solve.result Extern.real elbowArm (poseAt 3 0 0)).1[k]? = some q →
      ∃ q1 : Q ℝ,
        ((case1Vectors Extern.real elbowArm (poseAt 3 0 0)).map (homeCorrected elbowArm))[k]?
          = some q1 ∧ q1.size = 6 ∧
        ∀ i, i < 6 → ∃ p w, elbowArm._dHTable.get i = some p ∧ q[i]? = some w ∧
          q1[i]? = some (w - p.theta) ∧ (w - p.theta) + p.theta = w :=
  ⟨elbowArm_solve _,
    solve_subtracts_home Extern.real elbowArm (poseAt 3 0 0) _ _ (elbowArm_solve _)⟩

/-- C9 (witness of the amended claim): the offset arm and the pose at the
origin. -/
theorem solve_changes_only_coefficients_witness :
    solve Extern.real offsetArm (poseAt 0 0 0)
      = some ((case3Vectors Extern.real offsetArm (poseAt 0 0 0)).map (homeCorrected offsetArm),
          setupCoefficients offsetArm (Extern.real.getLengh (poseAt 0 0 0).getPosition)
            ((poseAt 0 0 0).getPosition 2)) ∧
    { setupCoefficients offsetArm (Extern.real.getLengh (poseAt 0 0 0).getPosition)
        ((poseAt 0 0 0).getPosition 2) with
      a := offsetArm.a, b := offsetArm.b, c := offsetArm.c, d := offsetArm.d, e := offsetArm.e }
      = offsetArm :=
  ⟨offsetArm_solve _,
    (solve_changes_only_coefficients Extern.real offsetArm (poseAt 0 0 0) _ _
      (offsetArm_solve _)).1⟩

theorem rigid_mul (T U : HTransform3D ℝ) (hT : T.IsRigid) (hU : U.IsRigid) :
    (T.mul U).IsRigid := by
  constructor
  · exact orthogonal_mul _ _ hT.1 hU.1
  · show (T.R * U.R).det = 1
    rw [Matrix.det_mul, hT.2, hU.2, mul_one]

theorem wristPose_rigid (s : PieperSolver ℝ) (alpha : ℝ) : (wristPose s alpha).IsRigid :=
  rigid_mul _ _ (T04_rigid _ _ s 0 0 0) ⟨craigDH_R_orthogonal _ _ _ _, craigDH_R_det _ _ _ _⟩

theorem T46_wristPose (s : PieperSolver ℝ) (alpha : ℝ) :
    (solveTheta456.T04 Extern.real s 0 0 0).inverse.mul (wristPose s alpha)
      = HTransform3D.craigDH Real.sin Real.cos alpha 0 0 0 :=
  T46_of_mul Vector3D.length Extern.realEigenvalues s 0 0 0 _

/-- For the pose `wristPose s alpha` with `0 <= alpha <= π` the angle
`theta5` of `solveTheta456` is `alpha`. -/
theorem theta5_wristPose (s : PieperSolver ℝ) (alpha : ℝ) (h0 : 0 ≤ alpha)
    (hpi : alpha ≤ Real.pi) :
    solveTheta456.theta5 Extern.real
      ((solveTheta456.T04 Extern.real s 0 0 0).inverse.mul (wristPose s alpha)) = alpha := by
  rw [T46_wristPose, theta5_eq]
  simp only [craigDH_R20, craigDH_R21, craigDH_R22, Real.sin_zero, Real.cos_zero, zero_mul,
    one_mul, zero_add]
  show Complex.arg ⟨Real.cos alpha, Real.sqrt (Real.sin alpha * Real.sin alpha)⟩ = alpha
  rw [Real.sqrt_mul_self (Real.sin_nonneg_of_nonneg_of_le_pi h0 hpi)]
  have h : (⟨Real.cos alpha, Real.sin alpha⟩ : ℂ)
      = Complex.cos alpha + Complex.sin alpha * Complex.I := by
    apply Complex.ext
    · simp [Complex.cos_ofReal_re]
    · simp [Complex.sin_ofReal_re]
  rw [h]
  exact Complex.arg_cos_add_sin_mul_I ⟨by linarith [Real.pi_pos], hpi⟩

/-- C11 (witness): the jointed arm with the wrist poses of `alpha = 0`
(`theta5 = 0`) and `alpha = π` (`theta5 = π`). -/
theorem solveTheta456_singular_branches_witness :
    let T0 := (solveTheta456.T04 Extern.real (jointedArm 0) 0 0 0).inverse.mul
      (wristPose (jointedArm 0) 0)
    let Tpi := (solveTheta456.T04 Extern.real (jointedArm 0) 0 0 0).inverse.mul
      (wristPose (jointedArm 0) Real.pi)
    (|solveTheta456.theta5 Extern.real T0| < 1e-12 ∧
      (solveTheta456 Extern.real (jointedArm 0) 0 0 0 (wristPose (jointedArm 0) 0) [])[0]?
        = some [0, 0, 0, 0, solveTheta456.theta5 Extern.real T0,
            Extern.real.atan2 (-(T0.R 0 1)) (T0.R 0 0)]) ∧
    (|Real.pi - solveTheta456.theta5 Extern.real Tpi| < 1e-12 ∧
      (solveTheta456 Extern.real (jointedArm 0) 0 0 0 (wristPose (jointedArm 0) Real.pi) [])[0]?
        = some [0, 0, 0, 0, solveTheta456.theta5 Extern.real Tpi,
            Extern.real.atan2 (Tpi.R 0 1) (-(Tpi.R 0 0))]) := by
  intro T0 Tpi
  have h0 : |solveTheta456.theta5 Extern.real T0| < 1e-12 := by
    rw [theta5_wristPose _ 0 (le_refl 0) Real.pi_pos.le, abs_zero]
    norm_num
  have hpi : |Real.pi - solveTheta456.theta5 Extern.real Tpi| < 1e-12 := by
    rw [theta5_wristPose _ Real.pi Real.pi_pos.le (le_refl _), sub_self, abs_zero]
    norm_num
  exact ⟨⟨h0, (solveTheta456_singular_branches Vector3D.length Extern.realEigenvalues
      (jointedArm 0) 0 0 0 (wristPose (jointedArm 0) 0) []).1 h0⟩,
    ⟨hpi, (solveTheta456_singular_branches Vector3D.length Extern.realEigenvalues
      (jointedArm 0) 0 0 0 (wristPose (jointedArm 0) Real.pi) []).2 hpi⟩⟩

/-- C13 (witness): the wrist pose of `alpha = π/2` (`theta5 = π/2`) for the
jointed arm (`alpha5 = -π/2 < 0`) and for the elbow arm (`alpha5 = 0`). -/
theorem solveTheta456_regular_branches_witness :
    let Tj := (solveTheta456.T04 Extern.real (jointedArm 0) 0 0 0).inverse.mul
      (wristPose (jointedArm 0) (Real.pi / 2))
    let Te := (solveTheta456.T04 Extern.real elbowArm 0 0 0).inverse.mul
      (wristPose elbowArm (Real.pi / 2))
    let tj := solveTheta456.theta5 Extern.real Tj
    let te := solveTheta456.theta5 Extern.real Te
    ((1e-12 : ℝ) ≤ tj ∧ 1e-12 ≤ Real.pi - tj ∧ (jointedArm 0).alpha5 < 0 ∧
      (solveTheta456 Extern.real (jointedArm 0) 0 0 0
          (wristPose (jointedArm 0) (Real.pi / 2)) [])[0]?
        = some [0, 0, 0,
            Extern.real.atan2 (-(Tj.R 1 2) / Real.sin tj) (-(Tj.R 0 2) / Real.sin tj), tj,
            Extern.real.atan2 (-(Tj.R 2 1) / Real.sin tj) (Tj.R 2 0 / Real.sin tj)]) ∧
    ((1e-12 : ℝ) ≤ te ∧ 1e-12 ≤ Real.pi - te ∧ ¬ elbowArm.alpha5 < 0 ∧
      (solveTheta456 Extern.real elbowArm 0 0 0 (wristPose elbowArm (Real.pi / 2)) [])[0]?
        = some [0, 0, 0,
            Extern.real.atan2 (Te.R 1 2 / Real.sin te) (Te.R 0 2 / Real.sin te), te,
            Extern.real.atan2 (Te.R 2 1 / Real.sin te) (-(Te.R 2 0) / Real.sin te)] ∧
      |Extern.real.atan2 (-(Te.R 1 2) / Real.sin te) (-(Te.R 0 2) / Real.sin te)
        - Extern.real.atan2 (Te.R 1 2 / Real.sin te) (Te.R 0 2 / Real.sin te)| = Real.pi ∧
      |Extern.real.atan2 (-(Te.R 2 1) / Real.sin te) (Te.R 2 0 / Real.sin te)
        - Extern.real.atan2 (Te.R 2 1 / Real.sin te) (-(Te.R 2 0) / Real.sin te)| = Real.pi) := by
  intro Tj Te tj te
  have hpi := Real.pi_gt_three
  have hj : tj = Real.pi / 2 := theta5_wristPose _ _ (by linarith) (by linarith)
  have he : te = Real.pi / 2 := theta5_wristPose _ _ (by linarith) (by linarith)
  have hj0 : (1e-12 : ℝ) ≤ tj := by rw [hj]; norm_num; linarith
  have hj1 : (1e-12 : ℝ) ≤ Real.pi - tj := by rw [hj]; norm_num; linarith
  have he0 : (1e-12 : ℝ) ≤ te := by rw [he]; norm_num; linarith
  have he1 : (1e-12 : ℝ) ≤ Real.pi - te := by rw [he]; norm_num; linarith
  have ha : (jointedArm 0).alpha5 < 0 := by
    show -(Real.pi / 2) < 0
    linarith
  have hb : ¬ elbowArm.alpha5 < 0 := by
    show ¬ (0 : ℝ) < 0
    exact lt_irrefl 0
  have hJ := solveTheta456_regular_branches Vector3D.length Extern.realEigenvalues
    (jointedArm 0) 0 0 0 (wristPose (jointedArm 0) (Real.pi / 2)) [] Tj tj (Real.sin tj)
    rfl rfl rfl (wristPose_rigid _ _) hj0 hj1
  have hE := solveTheta456_regular_branches Vector3D.length Extern.realEigenvalues
    elbowArm 0 0 0 (wristPose elbowArm (Real.pi / 2)) [] Te te (Real.sin te)
    rfl rfl rfl (wristPose_rigid _ _) he0 he1
  exact ⟨⟨hj0, hj1, ha, hJ.1 ha⟩, ⟨he0, he1, hb, hE.2.1 hb, hE.2.2.1, hE.2.2.2⟩⟩

theorem real_cos_eq (theta : ℝ) : Extern.real.cos theta = Real.cos theta := rfl

theorem real_sin_eq (theta : ℝ) : Extern.real.sin theta = Real.sin theta := rfl

theorem pumaArm_theta3_coeffs (r : ℝ) :
    solveTheta3Case1.a pumaArm r = r - 8 ∧ solveTheta3Case1.b pumaArm r = 16 ∧
    solveTheta3Case1.c pumaArm r = r - 8 := by
  refine ⟨?_, ?_, ?_⟩ <;>
    norm_num [solveTheta3Case1.a, solveTheta3Case1.b, solveTheta3Case1.c, pumaArm, Power_two] <;>
    ring

theorem pumaArm_theta2_coeffs (z c3 s3 : ℝ) :
    solveTheta2Case1.a pumaArm z c3 s3 = z - 2*c3 ∧
    solveTheta2Case1.b pumaArm z c3 s3 = 4 - 4*s3 ∧
    solveTheta2Case1.c pumaArm z c3 s3 = z + 2*c3 := by
  refine ⟨?_, ?_, ?_⟩ <;>
    norm_num [solveTheta2Case1.a, solveTheta2Case1.b, solveTheta2Case1.c, pumaArm] <;>
    ring

theorem planarArm_theta2_coeffs (r c3 s3 : ℝ) :
    solveTheta2Case2.a planarArm r c3 s3 = r - 2 + 2*c3 ∧
    solveTheta2Case2.b planarArm r c3 s3 = 4*s3 ∧
    solveTheta2Case2.c planarArm r c3 s3 = r - 2 - 2*c3 := by
  refine ⟨?_, ?_, ?_⟩ <;>
    norm_num [solveTheta2Case2.a, solveTheta2Case2.b, solveTheta2Case2.c, planarArm, Power_two] <;>
    ring

theorem scaraArm_theta3_coeffs (z : ℝ) :
    solveTheta3Case2.a scaraArm z = z ∧ solveTheta3Case2.b scaraArm z = -2 ∧
    solveTheta3Case2.c scaraArm z = z := by
  refine ⟨?_, ?_, ?_⟩ <;>
    norm_num [solveTheta3Case2.a, solveTheta3Case2.b, solveTheta3Case2.c, scaraArm]

/-- C15 (failing input): for the SCARA-type arm and `z = 0` the quadratic of
`solveTheta3Case2` has `A = 0`, `B = -2`, `C = 0`; the solver does not return
the single angle of `u = -C/B` but two entries, both computed with a division
by `2A = 0`. -/
theorem solveTheta3Case2_misses_linear_case :
    |solveTheta3Case2.a scaraArm 0| < 1e-12 ∧
    solveTheta3Case2.b scaraArm 0 = -2 ∧ solveTheta3Case2.c scaraArm 0 = 0 ∧
    2 * solveTheta3Case2.a scaraArm 0 = 0 ∧
    solveTheta3Case2 Extern.real scaraArm 0
      = [halfAngle Extern.real
          ((-solveTheta3Case2.b scaraArm 0 - Extern.real.sqrt 4)
            / (2 * solveTheta3Case2.a scaraArm 0)),
         halfAngle Extern.real
          ((-solveTheta3Case2.b scaraArm 0 + Extern.real.sqrt 4)
            / (2 * solveTheta3Case2.a scaraArm 0))] ∧
    (solveTheta3Case2 Extern.real scaraArm 0).length = 2 ∧
    solveTheta3Case2 Extern.real scaraArm 0
      ≠ [halfAngle Extern.real (-solveTheta3Case2.c scaraArm 0 / solveTheta3Case2.b scaraArm 0)] := by
  obtain ⟨ha, hb, hc⟩ := scaraArm_theta3_coeffs 0
  have hD : solveTheta3Case2.b scaraArm 0 * solveTheta3Case2.b scaraArm 0
      - 4 * solveTheta3Case2.a scaraArm 0 * solveTheta3Case2.c scaraArm 0 = 4 := by
    rw [ha, hb, hc]; norm_num
  have hres : solveTheta3Case2 Extern.real scaraArm 0
      = [halfAngle Extern.real
          ((-solveTheta3Case2.b scaraArm 0 - Extern.real.sqrt 4)
            / (2 * solveTheta3Case2.a scaraArm 0)),
         halfAngle Extern.real
          ((-solveTheta3Case2.b scaraArm 0 + Extern.real.sqrt 4)
            / (2 * solveTheta3Case2.a scaraArm 0))] := by
    rw [solveTheta3Case2_eq_map, roots_two_unguarded _ _ _ _ (by rw [hD]; norm_num), hD]
    rfl
  refine ⟨by rw [ha, abs_zero]; norm_num, hb, hc, by rw [ha, mul_zero], hres, ?_, ?_⟩
  · rw [hres]; rfl
  · rw [hres]
    intro h
    have := congrArg List.length h
    simp at this

/-- C16 (witness): the PUMA-type arm at `r = 4` and at `z = 0`, `theta3 = 0`,
the SCARA-type arm at `z = 1/2`, the planar arm at `r = 2`, `theta3 = 0`. -/
theorem half_angle_solvers_two_roots_witness :
    ((1e-12 : ℝ) ≤ |solveTheta3Case1.a pumaArm 4| ∧
      TwoRootResult Extern.real (solveTheta3Case1.a pumaArm 4) (solveTheta3Case1.b pumaArm 4)
        (solveTheta3Case1.c pumaArm 4) (solveTheta3Case1 Extern.real pumaArm 4)) ∧
    ((1e-12 : ℝ) ≤ |solveTheta3Case2.a scaraArm (1/2)| ∧
      TwoRootResult Extern.real (solveTheta3Case2.a scaraArm (1/2))
        (solveTheta3Case2.b scaraArm (1/2)) (solveTheta3Case2.c scaraArm (1/2))
        (solveTheta3Case2 Extern.real scaraArm (1/2))) ∧
    ((1e-12 : ℝ) ≤ |solveTheta2Case1.a pumaArm 0 (Real.cos 0) (Real.sin 0)| ∧
      TwoRootResult Extern.real (solveTheta2Case1.a pumaArm 0 (Real.cos 0) (Real.sin 0))
        (solveTheta2Case1.b pumaArm 0 (Real.cos 0) (Real.sin 0))
        (solveTheta2Case1.c pumaArm 0 (Real.cos 0) (Real.sin 0))
        (solveTheta2Case1 Extern.real pumaArm 0 0)) ∧
    ((1e-12 : ℝ) ≤ |solveTheta2Case2.a planarArm 2 (Real.cos 0) (Real.sin 0)| ∧
      TwoRootResult Extern.real (solveTheta2Case2.a planarArm 2 (Real.cos 0) (Real.sin 0))
        (solveTheta2Case2.b planarArm 2 (Real.cos 0) (Real.sin 0))
        (solveTheta2Case2.c planarArm 2 (Real.cos 0) (Real.sin 0))
        (solveTheta2Case2 Extern.real planarArm 2 0)) := by
  obtain ⟨a1, b1, c1⟩ := pumaArm_theta3_coeffs 4
  obtain ⟨a2, b2, c2⟩ := scaraArm_theta3_coeffs (1/2)
  obtain ⟨a3, b3, c3⟩ := pumaArm_theta2_coeffs 0 (Real.cos 0) (Real.sin 0)
  obtain ⟨a4, b4, c4⟩ := planarArm_theta2_coeffs 2 (Real.cos 0) (Real.sin 0)
  rw [Real.cos_zero, Real.sin_zero] at a3 b3 c3 a4 b4 c4
  have hA1 : (1e-12 : ℝ) ≤ |solveTheta3Case1.a pumaArm 4| := by rw [a1]; norm_num
  have hA2 : (1e-12 : ℝ) ≤ |solveTheta3Case2.a scaraArm (1/2)| := by
    rw [a2, abs_of_pos (by norm_num : (0 : ℝ) < 1/2)]; norm_num
  have hA3 : (1e-12 : ℝ) ≤ |solveTheta2Case1.a pumaArm 0 (Real.cos 0) (Real.sin 0)| := by
    rw [Real.cos_zero, Real.sin_zero, a3]; norm_num
  have hA4 : (1e-12 : ℝ) ≤ |solveTheta2Case2.a planarArm 2 (Real.cos 0) (Real.sin 0)| := by
    rw [Real.cos_zero, Real.sin_zero, a4]; norm_num
  exact ⟨⟨hA1, (half_angle_solvers_two_roots Vector3D.length Extern.realEigenvalues pumaArm
      4 0 0).1 hA1 (by rw [a1, b1, c1]; norm_num)⟩,
    ⟨hA2, (half_angle_solvers_two_roots Vector3D.length Extern.realEigenvalues scaraArm
      0 (1/2) 0).2.1 hA2 (by rw [a2, b2, c2]; norm_num)⟩,
    ⟨hA3, (half_angle_solvers_two_roots Vector3D.length Extern.realEigenvalues pumaArm
      0 0 0).2.2.1 hA3 (by rw [Real.cos_zero, Real.sin_zero, a3, b3, c3]; norm_num)⟩,
    ⟨hA4, (half_angle_solvers_two_roots Vector3D.length Extern.realEigenvalues planarArm
      2 0 0).2.2.2 hA4 (by rw [Real.cos_zero, Real.sin_zero, a4, b4, c4]; norm_num)⟩⟩

/-- C17 (witness): the PUMA-type arm at `r = 16` and at `z = 4`,
`theta3 = -π/2`, the SCARA-type arm at `z = 1`, the planar arm at `r = 4`,
`theta3 = 0`; the discriminant is `0` in each. -/
theorem half_angle_solvers_repeated_root_witness :
    ((1e-12 : ℝ) ≤ |solveTheta3Case1.a pumaArm 16| ∧
      RepeatedRootResult Extern.real (solveTheta3Case1.a pumaArm 16)
        (solveTheta3Case1.b pumaArm 16) (solveTheta3Case1.c pumaArm 16)
        (solveTheta3Case1 Extern.real pumaArm 16)) ∧
    ((1e-12 : ℝ) ≤ |solveTheta3Case2.a scaraArm 1| ∧
      RepeatedRootResult Extern.real (solveTheta3Case2.a scaraArm 1)
        (solveTheta3Case2.b scaraArm 1) (solveTheta3Case2.c scaraArm 1)
        (solveTheta3Case2 Extern.real scaraArm 1)) ∧
    ((1e-12 : ℝ) ≤ |solveTheta2Case1.a pumaArm 4 (Extern.real.cos (-(Real.pi / 2)))
        (Extern.real.sin (-(Real.pi / 2)))| ∧
      RepeatedRootResult Extern.real
        (solveTheta2Case1.a pumaArm 4 (Extern.real.cos (-(Real.pi / 2)))
          (Extern.real.sin (-(Real.pi / 2))))
        (solveTheta2Case1.b pumaArm 4 (Extern.real.cos (-(Real.pi / 2)))
          (Extern.real.sin (-(Real.pi / 2))))
        (solveTheta2Case1.c pumaArm 4 (Extern.real.cos (-(Real.pi / 2)))
          (Extern.real.sin (-(Real.pi / 2))))
        (solveTheta2Case1 Extern.real pumaArm 4 (-(Real.pi / 2)))) ∧
    ((1e-12 : ℝ) ≤ |solveTheta2Case2.a planarArm 4 (Extern.real.cos 0) (Extern.real.sin 0)| ∧
      RepeatedRootResult Extern.real
        (solveTheta2Case2.a planarArm 4 (Extern.real.cos 0) (Extern.real.sin 0))
        (solveTheta2Case2.b planarArm 4 (Extern.real.cos 0) (Extern.real.sin 0))
        (solveTheta2Case2.c planarArm 4 (Extern.real.cos 0) (Extern.real.sin 0))
        (solveTheta2Case2 Extern.real planarArm 4 0)) := by
  obtain ⟨a1, b1, c1⟩ := pumaArm_theta3_coeffs 16
  obtain ⟨a2, b2, c2⟩ := scaraArm_theta3_coeffs 1
  have hc3 : Extern.real.cos (-(Real.pi / 2)) = 0 := by
    rw [real_cos_eq, Real.cos_neg, Real.cos_pi_div_two]
  have hs3 : Extern.real.sin (-(Real.pi / 2)) = -1 := by
    rw [real_sin_eq, Real.sin_neg, Real.sin_pi_div_two]
  have hc0 : Extern.real.cos 0 = 1 := Real.cos_zero
  have hs0 : Extern.real.sin 0 = 0 := Real.sin_zero
  obtain ⟨a3, b3, c3⟩ := pumaArm_theta2_coeffs 4 0 (-1)
  obtain ⟨a4, b4, c4⟩ := planarArm_theta2_coeffs 4 1 0
  have hA1 : (1e-12 : ℝ) ≤ |solveTheta3Case1.a pumaArm 16| := by rw [a1]; norm_num
  have hA2 : (1e-12 : ℝ) ≤ |solveTheta3Case2.a scaraArm 1| := by rw [a2]; norm_num
  have hA3 : (1e-12 : ℝ) ≤ |solveTheta2Case1.a pumaArm 4 (Extern.real.cos (-(Real.pi / 2)))
      (Extern.real.sin (-(Real.pi / 2)))| := by rw [hc3, hs3, a3]; norm_num
  have hA4 : (1e-12 : ℝ) ≤ |solveTheta2Case2.a planarArm 4 (Extern.real.cos 0)
      (Extern.real.sin 0)| := by rw [hc0, hs0, a4]; norm_num
  exact ⟨⟨hA1, (half_angle_solvers_repeated_root Extern.real pumaArm 16 0 0).1 hA1
      (by rw [a1, b1, c1]; norm_num)⟩,
    ⟨hA2, (half_angle_solvers_repeated_root Extern.real scaraArm 0 1 0).2.1 hA2
      (by rw [a2, b2, c2]; norm_num)⟩,
    ⟨hA3, (half_angle_solvers_repeated_root Extern.real pumaArm 0 4 (-(Real.pi / 2))).2.2.1 hA3
      (by rw [hc3, hs3, a3, b3, c3]; norm_num)⟩,
    ⟨hA4, (half_angle_solvers_repeated_root Extern.real planarArm 4 0 0).2.2.2 hA4
      (by rw [hc0, hs0, a4, b4, c4]; norm_num)⟩⟩

/-- C19 (witness): `Power(2, 3)` and `Power(-3, 1)`. -/
theorem Power_eq_pow_witness :
    ((1 : Int) ≤ 3 ∧ Power (2 : ℝ) 3 = 2 ^ (3 : Int) ∧ Power (2 : ℝ) 3 = 8) ∧
    ((1 : Int) ≤ 1 ∧ Power (-3 : ℝ) 1 = (-3) ^ (1 : Int)) :=
  ⟨⟨by norm_num, Power_eq_pow 2 3 (by norm_num),
      (Power_eq_pow 2 3 (by norm_num)).trans (by norm_num)⟩,
    ⟨le_refl 1, Power_eq_pow (-3) 1 (le_refl 1)⟩⟩

/-- C20 (witness): the coefficients of `x^4 - 5x^2 + 4`, with the roots
`1` and `2` among the eigenvalues. -/
theorem fSolve_companion_matrix_witness :
    ({ elbowArm with a := 1, b := 0, c := -5, d := 0, e := 4 } : PieperSolver ℝ).a ≠ 0 ∧
    (fSolve.A ({ elbowArm with a := 1, b := 0, c := -5, d := 0, e := 4 } :
        PieperSolver ℝ)).charpoly.IsRoot 2 ∧
    ∃ v : Fin 4 → ℝ, v ≠ 0 ∧
      (fSolve.A ({ elbowArm with a := 1, b := 0, c := -5, d := 0, e := 4 } :
        PieperSolver ℝ)).mulVec v = (1 : ℝ) • v := by
  have ha : ({ elbowArm with a := 1, b := 0, c := -5, d := 0, e := 4 } : PieperSolver ℝ).a ≠ 0 :=
    one_ne_zero
  have h := fSolve_companion_matrix
    ({ elbowArm with a := 1, b := 0, c := -5, d := 0, e := 4 } : PieperSolver ℝ) ha
  refine ⟨ha, (h.2.2.1 2).mpr ?_, (h.2.2.2 1).mpr ?_⟩
  · rw [h.2.1]; norm_num
  · rw [h.2.1]; norm_num

/-- C29 (witness): the resting interpolator returns the first of the two
vectors of its solver and does not throw; the interpolator whose solver finds
nothing throws. -/
theorem ikInterpolator_x_raises_iff_witness :
    (restingInterpolator.x 0 = .ok [0, 0, 0, 0, 0, 0] ∧
      ¬ ∃ err, restingInterpolator.x 0 = .error err) ∧
    (∃ err, unreachableInterpolator.x 0 = .error err) :=
  ⟨⟨(ikInterpolator_x_raises_iff restingInterpolator 0
      (fun result hr => by cases hr; simp)).2.1 _ _ rfl,
    fun hx => by
      rcases (ikInterpolator_x_raises_iff restingInterpolator 0
        (fun result hr => by cases hr; simp)).1.mp hx with h1 | ⟨err, h1⟩
      · cases h1
      · cases h1⟩,
   (ikInterpolator_x_raises_iff unreachableInterpolator 0
      (fun result hr => by cases hr; simp)).1.mpr (Or.inl rfl)⟩

/-- C25 (the code at the failing input): with the coefficients of
`(x - 1)^3 (x + 3)` and the inputs `1, 1, -2`, sorted to `t1 = -2`,
`t2 = t3 = 1`, the test `|f(t2)| < 1e-12` holds at the root `t2 = 1` and the
value recorded for the bracket `(t2, t3)` is `t1 = -2`, where `f` is `-27`;
so it is for every solver and coincident bracket that passes the test. -/
theorem fSolve3_coincident_bracket_records_t1 :
    min (min (1 : ℝ) 1) (-2) = -2 ∧
    max (max (min (1 : ℝ) 1) (min 1 (-2))) (min 1 (-2)) = 1 ∧
    max (max (1 : ℝ) 1) (-2) = 1 ∧
    |quarticB.f 1| < 1e-12 ∧ quarticB.f (-2) = -27 ∧
    (∀ fuel, fSolve3.between23 fuel quarticB (-2) 1 1 = some (some (-2))) ∧
    (∀ (fuel : Nat) (s : PieperSolver ℝ) (t1 t2 : ℝ), t1 ≠ t2 → |s.f t2| < 1e-12 →
      fSolve3.between23 fuel s t1 t2 t2 = some (some t1)) ∧
    (∀ (fuel : Nat) (s : PieperSolver ℝ) (t1 : ℝ), |s.f t1| < 1e-12 →
      fSolve3.between12 fuel s t1 t1 = some (some t1)) := by
  have hgen : ∀ (fuel : Nat) (s : PieperSolver ℝ) (t1 t2 : ℝ), t1 ≠ t2 → |s.f t2| < 1e-12 →
      fSolve3.between23 fuel s t1 t2 t2 = some (some t1) := by
    intro fuel s t1 t2 h12 hf
    simp only [fSolve3.between23, ne_eq, not_true_eq_false, if_false, h12, not_false_eq_true,
      hf, and_self, if_true]
  have hf1 : |quarticB.f 1| < 1e-12 := by
    rw [quarticB_f]
    norm_num
  refine ⟨by norm_num, by norm_num, by norm_num, hf1, ?_, fun fuel => hgen fuel _ _ _ (by norm_num) hf1,
    hgen, fun fuel s t1 hf => ?_⟩
  · rw [quarticB_f]
    norm_num
  · simp only [fSolve3.between12, ne_eq, not_true_eq_false, if_false, hf, if_true]

/-- C26 (the code at the failing input): with the coefficients of `x^4 + 2x`
and the bracket `t1 = -1 < t2 = 1`, where `f(t1) f(t2) < 0`, the first midpoint
`0` is a root, the test `fval*f1 < 0` fails there and from then on, and the
value recorded for the bracket is `1 - 2^-41`, farther than `1e-12` from every
real root of `f`. -/
theorem fSolve3_bisection_leaves_exact_root :
    quarticA.f (-1) * quarticA.f 1 < 0 ∧ quarticA.f 0 = 0 ∧
    (∀ fuel, 41 ≤ fuel →
      fSolve3.between12 fuel quarticA (-1) 1 = some (some (1 - 1/2^41))) ∧
    (∀ rho, quarticA.f rho = 0 → 1e-12 < |1 - 1/2^41 - rho|) := by
  have hm : quarticA.f (-1) = -1 := by
    rw [quarticA_f]
    norm_num
  have hp : quarticA.f 1 = 3 := by
    rw [quarticA_f]
    norm_num
  have hz : quarticA.f 0 = 0 := by
    rw [quarticA_f]
    norm_num
  refine ⟨by rw [hm, hp]; norm_num, hz, fun fuel hfuel => ?_, fun rho hrho => ?_⟩
  · obtain ⟨fuel1, rfl⟩ : ∃ fuel1, fuel = fuel1 + 1 := ⟨fuel - 1, by omega⟩
    have hne : (-1 : ℝ) ≠ 1 := by norm_num
    have hc : (1e-12 : ℝ) < |1 - (-1)| := by norm_num
    have hmid : ((-1 : ℝ) + 1)/2 = 0 := by norm_num
    have hw := quarticA_walk 40 0 fuel1 0 rfl (by omega) (le_refl 0)
    rw [pow_zero, div_one, sub_self, zero_add, pow_one] at hw
    simp only [fSolve3.between12, hne, ne_eq, not_false_eq_true, if_true]
    rw [hm, hp, if_pos (by norm_num), hmid, fSolve3_bisect_step _ _ _ _ _ _ hc, hz, zero_mul,
      if_neg (lt_irrefl 0)]
    have hhalf : ((0 : ℝ) + 1)/2 = 1 - 1/2 := by norm_num
    rw [hhalf, hw]
    rfl
  · have h0 := quarticA_root_nonpos rho hrho
    have h41 : (1 : ℝ)/2^41 ≤ 1/2 := by norm_num
    rw [abs_of_pos (by linarith)]
    have : (1e-12 : ℝ) < 1/2 := by norm_num
    linarith

/-- C22 (witness): the elbow arm at `theta2 = theta3 = 0`, where `D = 9`. -/
theorem solveTheta1_shared_denominator_witness :
    0 < solveTheta1.den elbowArm (Real.cos 0) (Real.sin 0) (Real.cos 0) (Real.sin 0) ∧
    solveTheta1 Extern.real elbowArm 3 0 0 0
      = Extern.real.atan2
          (solveTheta1.P elbowArm (Real.cos 0) (Real.sin 0) (Real.cos 0) (Real.sin 0) * 0
            - solveTheta1.Q elbowArm (Real.cos 0) (Real.sin 0) (Real.cos 0) (Real.sin 0) * 3)
          (solveTheta1.P elbowArm (Real.cos 0) (Real.sin 0) (Real.cos 0) (Real.sin 0) * 3
            + solveTheta1.Q elbowArm (Real.cos 0) (Real.sin 0) (Real.cos 0) (Real.sin 0) * 0) :=
  have hD : 0 < solveTheta1.den elbowArm (Real.cos 0) (Real.sin 0) (Real.cos 0)
      (Real.sin 0) := by
    rw [solveTheta1_den_eq, Real.cos_zero, Real.sin_zero]
    norm_num [wristCentre.g1, wristCentre.g2, wristCentre.f1, wristCentre.f2, wristCentre.f3,
      elbowArm]
  ⟨hD, (solveTheta1_shared_denominator Vector3D.length Extern.realEigenvalues elbowArm 3 0 0 0
    hD).2⟩

/-- C24 (witness): for `x^4 - 6x^2 + 8x - 3` the second derivative is
`12x^2 - 12`, the discriminant is `576` and `ddfSolve` returns two roots. -/
theorem ddfSolve_roots_witness :
    quarticB.a ≠ 0 ∧ 0 ≤ (6*quarticB.b)*(6*quarticB.b) - 4*(12*quarticB.a)*(2*quarticB.c) ∧
    (ddfSolve Extern.real quarticB).length = 2 ∧
    (∀ u ∈ ddfSolve Extern.real quarticB, quarticB.ddf u = 0) :=
  have ha : quarticB.a ≠ 0 := by norm_num [quarticB]
  have hd : 0 ≤ (6*quarticB.b)*(6*quarticB.b) - 4*(12*quarticB.a)*(2*quarticB.c) := by
    norm_num [quarticB]
  have h := (ddfSolve_roots Vector3D.length Extern.realEigenvalues quarticB ha).2.1 hd
  ⟨ha, hd, by rw [show ddfSolve Extern.real quarticB = _ from h.1]; rfl, fun u hu => by
    rw [show ddfSolve Extern.real quarticB = _ from h.1] at hu
    simp only [List.mem_cons, List.mem_singleton, List.not_mem_nil, or_false] at hu
    rcases hu with rfl | rfl
    · exact h.2.1
    · exact h.2.2.1⟩

/-- C31 (witness): the wrist pose of `alpha = π/2` (`theta5 = π/2`,
`s5 = 1`) for the elbow arm (`alpha5 = 0`) and for the jointed arm
(`alpha5 = -π/2 < 0`). -/
theorem solveTheta456_regular_divisions_redundant_witness :
    let Tj := (solveTheta456.T04 Extern.real (jointedArm 0) 0 0 0).inverse.mul
      (wristPose (jointedArm 0) (Real.pi / 2))
    let Te := (solveTheta456.T04 Extern.real elbowArm 0 0 0).inverse.mul
      (wristPose elbowArm (Real.pi / 2))
    let tj := solveTheta456.theta5 Extern.real Tj
    let te := solveTheta456.theta5 Extern.real Te
    (¬ |te| < 1e-12 ∧ ¬ |Real.pi - te| < 1e-12 ∧ 0 ≤ elbowArm.alpha5 ∧ 0 < Real.sin te ∧
      (solveTheta456 Extern.real elbowArm 0 0 0 (wristPose elbowArm (Real.pi / 2)) [])[0]?
        = some [0, 0, 0, Extern.real.atan2 (Te.R 1 2) (Te.R 0 2), te,
            Extern.real.atan2 (Te.R 2 1) (-(Te.R 2 0))]) ∧
    (¬ |tj| < 1e-12 ∧ ¬ |Real.pi - tj| < 1e-12 ∧ (jointedArm 0).alpha5 < 0 ∧ 0 < Real.sin tj ∧
      (solveTheta456 Extern.real (jointedArm 0) 0 0 0
          (wristPose (jointedArm 0) (Real.pi / 2)) [])[0]?
        = some [0, 0, 0, Extern.real.atan2 (-(Tj.R 1 2)) (-(Tj.R 0 2)), tj,
            Extern.real.atan2 (-(Tj.R 2 1)) (Tj.R 2 0)]) := by
  intro Tj Te tj te
  have hpi := Real.pi_gt_three
  have hj : tj = Real.pi / 2 := theta5_wristPose _ _ (by linarith) (by linarith)
  have he : te = Real.pi / 2 := theta5_wristPose _ _ (by linarith) (by linarith)
  have hj0 : ¬ |tj| < 1e-12 := by
    rw [hj, abs_of_pos (by linarith), not_lt]
    norm_num
    linarith
  have hj1 : ¬ |Real.pi - tj| < 1e-12 := by
    rw [hj, abs_of_pos (by linarith), not_lt]
    norm_num
    linarith
  have he0 : ¬ |te| < 1e-12 := by
    rw [he, abs_of_pos (by linarith), not_lt]
    norm_num
    linarith
  have he1 : ¬ |Real.pi - te| < 1e-12 := by
    rw [he, abs_of_pos (by linarith), not_lt]
    norm_num
    linarith
  have ha : (jointedArm 0).alpha5 < 0 := by
    show -(Real.pi / 2) < 0
    linarith
  have hb : 0 ≤ elbowArm.alpha5 := le_refl (0 : ℝ)
  have hJ := solveTheta456_regular_divisions_redundant Vector3D.length Extern.realEigenvalues
    (jointedArm 0) 0 0 0 (wristPose (jointedArm 0) (Real.pi / 2)) [] Tj tj (Real.sin tj)
    rfl rfl rfl hj0 hj1
  have hE := solveTheta456_regular_divisions_redundant Vector3D.length Extern.realEigenvalues
    elbowArm 0 0 0 (wristPose elbowArm (Real.pi / 2)) [] Te te (Real.sin te)
    rfl rfl rfl he0 he1
  exact ⟨⟨he0, he1, hb, hE.2.2.1, (hE.2.2.2.1 hb).2⟩, ⟨hj0, hj1, ha, hJ.2.2.1, (hJ.2.2.2.2 ha).2⟩⟩

end Witnesses

end robot
